import Mathlib

/-!
Verification development for the pull-request tracking reconciliation engine
(`openedx_webhooks/tasks/pr_tracking.py`).

The embedding translates the source module into Lean:
* `PrCurrentInfo`, `PrDesiredInfo` mirror the two dataclasses;
* `desiredSupportState` mirrors `desired_support_state`;
* `currentSupportState` mirrors `current_support_state`;
* `fixRun` (and its step functions `makeJiraIssue`, `statusTransitionStep`,
  `fixJiraInformation`, `fixGithubLabels`, `fixBotComment`, `addBotComments`)
  mirrors `PrTrackingFixer.fix` and its methods, producing the ordered list of
  sink actions (`Action`), the mutated in-memory state, and the `happened` flag.

External collaborators that are not part of the source module (the comment
renderers of `bot_comments.py`, the label taxonomy of `labels.py`, the
predicates of `info.py`, and the live sink semantics) are modelled from the
spec; each such definition carries a doc comment saying so.  In particular a
rendered comment is modelled as a structured value recording exactly the
inputs the renderer receives (comment kinds, ticket id, deleted-ticket id,
epic, pull-request content, embedded state blob): two renderings are equal
exactly when those inputs are equal.

Python `Optional[str]` truthiness (`if x:` is false for `None` and `""`) is
modelled by `optTruthy`; Python `a or b` on such values by `optOr`;
`s.partition("-")[0]` by `projectOf`.
-/

namespace PrTracking

/-- The bot comment kinds (the `BotComment` enum of `bot_comments.py`,
modelled from the spec: the first-comment kinds plus the champion merge
ping used for secondary comments). -/
inductive BotComment
  | welcome
  | needCla
  | contractor
  | coreCommitter
  | blended
  | okToTest
  | endOfWip
  | welcomeClosed
  | championMergePing
deriving DecidableEq, Fintype

/-- Modelled from the spec: `BOT_COMMENTS_FIRST`, the comment kinds that are
folded into the first (primary) bot comment; the champion merge ping is the
only secondary kind (spec section 4.3 steps 9 and 10). -/
def BOT_COMMENTS_FIRST : Finset BotComment :=
  {BotComment.welcome, BotComment.needCla, BotComment.contractor,
   BotComment.coreCommitter, BotComment.blended, BotComment.okToTest,
   BotComment.endOfWip, BotComment.welcomeClosed}

/-- The Jira extra fields the fixer reads and writes (`JIRA_EXTRA_FIELDS`
plus the `Epic Link` custom field).  A Python dict over this fixed name set
is modelled as a record of optional values: a key is present exactly when
the field is `some`. -/
structure ExtraFields where
  platformMap12 : Option String := none
  platformMap34 : Option String := none
  blendedStatusPage : Option String := none
  blendedProjectId : Option String := none
  linesAdded : Option String := none
  linesDeleted : Option String := none
  epicLink : Option String := none
deriving DecidableEq

/-- A Jira epic as the fixer uses it: its key and the one custom field that
`desired_support_state` copies from it. -/
structure JiraEpic where
  key : String
  platformMap12 : Option String := none
deriving DecidableEq

/-- The machine-readable state blob the bot embeds in its primary comment.
The source uses a dict; the only key the fixer reads or writes is
`"draft"`, and any other entries are carried along unchanged (`rest`). -/
structure Blob where
  draft : Option Bool := none
  rest : List (String × String) := []
deriving DecidableEq

/-- The pull-request content a comment renderer can depend on: the snapshot
minus its label set (labels are never rendered into comment text). -/
structure PrView where
  userLogin : String
  repoFullName : String
  number : Nat
  title : String
  body : Option String
  state : String
  merged : Bool
  hasCla : Bool
  isDraft : Bool
  htmlUrl : String
deriving DecidableEq

/-- A pull-request snapshot (the `pr` dict), together with the results of
the external read-only lookups of `info.py` that are keyed by it
(bot/internal/contractor/committer author classification, the CLA
predicate, the blended project id from the title, the people-file name,
institution and champions).  Those lookups are modelled from the spec as
snapshot attributes since `info.py` is outside the source under
verification. -/
structure PrSnapshot where
  userLogin : String := ""
  repoFullName : String := ""
  number : Nat := 1
  title : String := ""
  body : Option String := none
  state : String := "open"
  merged : Bool := false
  isBot : Bool := false
  isInternal : Bool := false
  isContractor : Bool := false
  isCommitter : Bool := false
  hasCla : Bool := false
  isDraft : Bool := false
  blendedId : Option Nat := none
  additions : Option String := none
  deletions : Option String := none
  labels : Finset String := ∅
  htmlUrl : String := ""
  userName : String := ""
  institution : Option String := none
  champions : List String := []
deriving DecidableEq

/-- The renderer-visible part of a snapshot. -/
def PrSnapshot.view (pr : PrSnapshot) : PrView :=
  { userLogin := pr.userLogin, repoFullName := pr.repoFullName,
    number := pr.number, title := pr.title, body := pr.body,
    state := pr.state, merged := pr.merged, hasCla := pr.hasCla,
    isDraft := pr.isDraft, htmlUrl := pr.htmlUrl }

/-- Modelled from the spec: the text of the primary bot comment, as the
structured record of every input the comment renderers receive
(spec section 6, comment-kind renderer).  `kinds` is the set of
first-comment kinds the comment was built for, `jiraId` the ticket id
rendered into the ticket link (only the welcome, core-committer and blended
blocks render one), `deletedIssueKey` the deleted-ticket reference,
`epic` the epic data rendered by the blended block, `blob` the embedded
state data. -/
structure PrimaryBody where
  kinds : Finset BotComment
  jiraId : Option String
  deletedIssueKey : Option String
  epic : Option JiraEpic
  pr : PrView
  blob : Blob
deriving DecidableEq

/-- Modelled from the spec: the text of one bot comment, either the primary
comment or a secondary champion merge ping comment. -/
inductive CommentRec
  | primary (b : PrimaryBody)
  | championPing (pr : PrView) (champions : List String)
deriving DecidableEq

/-- The comment kinds whose indicator snippets appear in a comment body
(`BOT_COMMENT_INDICATORS` matching, modelled from the spec). -/
def CommentRec.kindsOf : CommentRec → Finset BotComment
  | .primary b => b.kinds
  | .championPing _ _ => {BotComment.championMergePing}

/-- The ticket id a comment body mentions (used by the modelled
`get_jira_issue_key`). -/
def CommentRec.jiraIdOf : CommentRec → Option String
  | .primary b => b.jiraId
  | .championPing _ _ => none

/-- The state blob recovered from a comment body
(`extract_data_from_comment`, modelled from the spec: parse failure on a
comment without a blob region yields no prior state). -/
def CommentRec.blobOf : CommentRec → Blob
  | .primary b => b.blob
  | .championPing _ _ => {}

/-- `PrCurrentInfo`: the current information we have for a pull request. -/
structure PrCurrentInfo where
  botComments : Finset BotComment := ∅
  botComment0Text : Option CommentRec := none
  lastSeenState : Blob := {}
  jiraMentionedId : Option String := none
  jiraId : Option String := none
  jiraTitle : Option String := none
  jiraDescription : Option String := none
  jiraStatus : Option String := none
  jiraLabels : Finset String := ∅
  jiraEpicKey : Option String := none
  jiraEpic : Option JiraEpic := none
  jiraExtraFields : ExtraFields := {}
  githubLabels : Finset String := ∅
  authorActed : Bool := false
deriving DecidableEq

/-- `PrDesiredInfo`: the information we want to have for a pull request. -/
structure PrDesiredInfo where
  botComments : Finset BotComment := ∅
  jiraProject : Option String := none
  jiraTitle : Option String := none
  jiraDescription : Option String := none
  jiraInitialStatus : Option String := none
  jiraStatus : Option String := none
  jiraLabels : Finset String := ∅
  jiraEpic : Option JiraEpic := none
  jiraExtraFields : ExtraFields := {}
  githubLabels : Finset String := ∅
deriving DecidableEq

/-- The keyword arguments of one `update_jira_issue` call
(`update_kwargs` in `_fix_jira_information`); a key is present exactly
when the field is `some`. -/
structure UpdateKwargs where
  summary : Option (Option String) := none
  description : Option (Option String) := none
  labels : Option (Finset String) := none
  epicLink : Option String := none
  extraFields : Option ExtraFields := none
deriving DecidableEq

/-- One call to the action sink (`FixingActions`), with the arguments the
fixer passes.  `createOsprIssue` additionally records the key the tracker
assigned to the new issue (the sink's return value). -/
inductive Action
  | synchronizeLabels (repo : String)
  | deleteJiraIssue (jiraId : String)
  | createOsprIssue (newKey : String) (prUrl : String) (project : String)
      (summary : Option String) (description : Option String)
      (labels : Finset String) (userName : String) (institution : Option String)
      (extra : ExtraFields)
  | transitionJiraIssue (jiraId : String) (jiraStatus : String)
  | updateJiraIssue (jiraId : String) (kwargs : UpdateKwargs)
  | addCommentToPullRequest (body : CommentRec)
  | editCommentOnPullRequest (body : CommentRec)
  | updateLabelsOnPullRequest (labels : Finset String)
deriving DecidableEq

/-- Is this action a ticket deletion. -/
def Action.isDelete : Action → Bool
  | .deleteJiraIssue _ => true
  | _ => false

/-- Is this action a ticket creation. -/
def Action.isCreate : Action → Bool
  | .createOsprIssue .. => true
  | _ => false

/-- Is this action an edit of the bot's primary comment. -/
def Action.isEdit : Action → Bool
  | .editCommentOnPullRequest _ => true
  | _ => false

/-- Is this action the creation of a primary bot comment. -/
def Action.isPrimaryAdd : Action → Bool
  | .addCommentToPullRequest (.primary _) => true
  | _ => false

/-- Is this action a ticket field update. -/
def Action.isUpdate : Action → Bool
  | .updateJiraIssue _ _ => true
  | _ => false

/-- Modelled from the spec: a sink call that mutates per-pull-request
external state.  The label taxonomy sync (step 1 of the fixer) only
registers missing repository-wide labels and performs no per-pull-request
mutation, matching the spec's accounting that `changed` covers steps 2-3
and 6-9 only. -/
def Action.isExternalMutation : Action → Bool
  | .synchronizeLabels _ => false
  | _ => true

/-- The label taxonomy constants of `labels.py`
(`JIRA_CATEGORY_LABELS`, `GITHUB_CATEGORY_LABELS`, `GITHUB_STATUS_LABELS`),
kept abstract: the fixer is parametrised by them. -/
structure LabelSets where
  jiraCategory : Finset String
  githubCategory : Finset String
  githubStatus : Finset String

/-- The external Jira search used by `find_blended_epic`, modelled from the
spec as a lookup from blended project id to the epic found (already folded
with the zero-or-more-than-one-match handling, which yields no epic). -/
structure Env where
  blendedEpic : Nat → Option JiraEpic

/-- Python truthiness of an `Optional[str]`: `None` and `""` are falsy. -/
def optTruthy : Option String → Bool
  | none => false
  | some s => s != ""

/-- Python `a or b` on `Optional[str]` values. -/
def optOr (a b : Option String) : Option String :=
  if optTruthy a then a else b

/-- Python `s.partition("-")[0]`: the part of `s` before its first dash
(all of `s` when there is no dash). -/
def projectOf (s : String) : String :=
  String.mk (s.data.takeWhile (fun c => c != '-'))

/-- Python `s.lower()`, character by character. -/
def lowerStr (s : String) : String :=
  String.mk (s.data.map Char.toLower)

/-- The issue key the tracker assigns to a newly created issue, modelled
from the spec's dry-run sink: the project key, a dash, and a fresh
number. -/
def mkJiraKey (project : String) (n : Nat) : String :=
  project ++ "-" ++ toString n

/-- The open/merged/closed state string of `desired_support_state`. -/
def prState (pr : PrSnapshot) : String :=
  if pr.state = "open" then "open"
  else if pr.merged then "merged" else "closed"

/-- The blended-or-default branch of `desired_support_state`: starting from
the base desired info, apply the blended project rules (or the default
project and committer rules), and return the chosen first-comment kind. -/
def desiredProjectPart (env : Env) (pr : PrSnapshot) (d : PrDesiredInfo) :
    PrDesiredInfo × BotComment :=
  match pr.blendedId with
  | some bid =>
    let d := { d with jiraProject := some "BLENDED",
                      githubLabels := insert "blended" d.githubLabels,
                      jiraLabels := insert "blended" d.jiraLabels }
    let d :=
      match env.blendedEpic bid with
      | some epic =>
        let d := { d with jiraEpic := some epic }
        match epic.platformMap12 with
        | some v =>
          { d with jiraExtraFields :=
              { d.jiraExtraFields with platformMap12 := some v } }
        | none => d
      | none => d
    (d, BotComment.blended)
  | none =>
    let d := { d with jiraProject := some "OSPR",
                      githubLabels :=
                        insert "open-source-contribution" d.githubLabels }
    if pr.isCommitter then
      let d := { d with jiraLabels := insert "core-committer" d.jiraLabels,
                        jiraInitialStatus := some "Waiting on Author",
                        botComments :=
                          insert BotComment.coreCommitter d.botComments,
                        githubLabels := insert "core committer" d.githubLabels }
      let d := if prState pr = "merged" then
          { d with botComments :=
              insert BotComment.championMergePing d.botComments }
        else d
      (d, BotComment.coreCommitter)
    else (d, BotComment.welcome)

/-- The desired info built by `desired_support_state` before the CLA rule:
the base fields, the project branch, the chosen first comment, and the
draft rule. -/
def desiredBase (env : Env) (pr : PrSnapshot) : PrDesiredInfo :=
  let d : PrDesiredInfo :=
    { jiraInitialStatus := some "Needs Triage",
      jiraTitle := some pr.title,
      jiraDescription := some (pr.body.getD "") }
  let dc := desiredProjectPart env pr d
  let d := { dc.1 with botComments := insert dc.2 dc.1.botComments }
  if pr.isDraft then
    { d with jiraInitialStatus := some "Waiting on Author",
             botComments := insert BotComment.endOfWip d.botComments }
  else d

/-- The CLA rule of `desired_support_state`. -/
def tailClaPart (pr : PrSnapshot) (d : PrDesiredInfo) : PrDesiredInfo :=
  if !pr.hasCla then
    { d with botComments := insert BotComment.needCla d.botComments,
             jiraInitialStatus := some "Community Manager Review",
             githubLabels := insert "NEED-CLA" d.githubLabels }
  else d

/-- The forcing-status rule for closed and merged pull requests. -/
def tailStatusPart (pr : PrSnapshot) (d : PrDesiredInfo) : PrDesiredInfo :=
  if prState pr = "closed" then { d with jiraStatus := some "Rejected" }
  else if prState pr = "merged" then { d with jiraStatus := some "Merged" }
  else d

/-- The ok-to-test marker rule. -/
def tailOkPart (pr : PrSnapshot) (d : PrDesiredInfo) : PrDesiredInfo :=
  if pr.hasCla then
    { d with botComments := insert BotComment.okToTest d.botComments }
  else d

/-- The line-count extra fields rule. -/
def tailLinesPart (pr : PrSnapshot) (d : PrDesiredInfo) : PrDesiredInfo :=
  let d := match pr.additions with
    | some v => { d with jiraExtraFields :=
        { d.jiraExtraFields with linesAdded := some v } }
    | none => d
  match pr.deletions with
  | some v => { d with jiraExtraFields :=
      { d.jiraExtraFields with linesDeleted := some v } }
  | none => d

/-- The trailing rules of `desired_support_state` after the draft rule: the
CLA rule, the forcing status for closed and merged pull requests, the
ok-to-test marker, and the line-count extra fields. -/
def desiredTail (pr : PrSnapshot) (d : PrDesiredInfo) : PrDesiredInfo :=
  tailLinesPart pr (tailOkPart pr (tailStatusPart pr (tailClaPart pr d)))

/-- `desired_support_state`: examine a pull request to decide what state we
want the world to be in.  Returns `none` for bot-authored and internal
pull requests. -/
def desiredSupportState (env : Env) (pr : PrSnapshot) : Option PrDesiredInfo :=
  if pr.isBot then none
  else if pr.isInternal then none
  else if pr.isContractor then
    some { botComments := {BotComment.contractor} }
  else
    some (desiredTail pr (desiredBase env pr))

/-- The in-flight state of one `PrTrackingFixer` run: the fixer's own
mutable copies of `current` and `desired` (the Python code mutates both),
the deep-copied `last_seen_state`, the `happened` flag, the ordered list of
sink calls made so far, the `comment_kwargs` dict (whose only possible key
is `deleted_issue_key`) and the `make_issue` local.  A raised exception
(a failed `assert`) is recorded in `err`; every later step is skipped once
`err` is set, matching Python's abort-on-exception. -/
structure FixState where
  pr : PrSnapshot
  current : PrCurrentInfo
  desired : PrDesiredInfo
  lastSeenState : Blob
  happened : Bool := false
  acts : List Action := []
  commentKwargsDeletedKey : Option String := none
  makeIssue : Bool := false
  err : Option String := none

/-- Append one sink call and apply nothing else. -/
def FixState.emit (s : FixState) (a : Action) : FixState :=
  { s with acts := s.acts ++ [a] }

/-- The extra fields `_make_jira_issue` sends at creation: the desired
extra fields, with the epic link added when an epic is desired. -/
def makeIssueExtra (s : FixState) : ExtraFields :=
  match s.desired.jiraEpic with
  | some e => { s.desired.jiraExtraFields with epicLink := some e.key }
  | none => s.desired.jiraExtraFields

/-- The current info right after `_make_jira_issue` creates the issue and
adopts the desired fields (before the initial-status transition). -/
def madeIssueCurrent (key : String) (s : FixState) : PrCurrentInfo :=
  let cur := { s.current with
    jiraId := some key,
    jiraStatus := some "Needs Triage",
    jiraTitle := s.desired.jiraTitle,
    jiraDescription := s.desired.jiraDescription,
    jiraLabels := s.desired.jiraLabels,
    jiraEpic := s.desired.jiraEpic }
  match s.desired.jiraEpic with
  | some e => { cur with jiraEpicKey := some e.key }
  | none => cur

/-- `PrTrackingFixer._make_jira_issue`: make our desired Jira issue.
`keyNum` is the fresh number the tracker uses for the new issue's key.
Note `extra_fields` aliases `self.desired.jira_extra_fields`, so setting
the epic link mutates the desired info too. -/
def makeJiraIssue (keyNum : Nat) (s : FixState) : FixState :=
  if s.err.isSome then s else
  match s.desired.jiraProject with
  | none => { s with err := some "assert failed: desired.jira_project is not None" }
  | some proj =>
    let extraFields := makeIssueExtra s
    let key := mkJiraKey proj keyNum
    let s2 := { s with desired := { s.desired with jiraExtraFields := extraFields } }
    let s2 := s2.emit (Action.createOsprIssue key s.pr.htmlUrl proj
      s.desired.jiraTitle s.desired.jiraDescription s.desired.jiraLabels
      s.pr.userName s.pr.institution extraFields)
    -- The current-info update reads only fields the extra-fields aliasing
    -- does not touch, so it is computed from the entry state.
    let s2 := { s2 with current := madeIssueCurrent key s }
    if s2.desired.jiraInitialStatus ≠ s2.current.jiraStatus then
      match s2.desired.jiraInitialStatus with
      | none =>
        { s2 with err := some "assert failed: desired.jira_initial_status is not None" }
      | some ini =>
        let s3 := s2.emit (Action.transitionJiraIssue key ini)
        { s3 with current := { s3.current with jiraStatus := some ini }, happened := true }
    else { s2 with happened := true }

/-- The forcing-status check of `fix`: transition the issue when a desired
status is set and differs from the current one. -/
def transitionCheck (s : FixState) : FixState :=
  match s.desired.jiraStatus with
  | none => s
  | some st =>
    if s.desired.jiraStatus ≠ s.current.jiraStatus then
      match s.current.jiraId with
      | none => s
      | some jid =>
        let s2 := s.emit (Action.transitionJiraIssue jid st)
        { s2 with current := { s2.current with jiraStatus := some st }, happened := true }
    else s

/-- The author-acted override of `fix`: if the author acted and we were
waiting on the author, force the status to this pull request's usual
initial status. -/
def authorActedOverride (s : FixState) : FixState :=
  if s.current.authorActed = true ∧ s.current.jiraStatus = some "Waiting on Author" then
    { s with desired := { s.desired with jiraStatus := s.desired.jiraInitialStatus } }
  else s

/-- The author-acted override and status transition of `fix`
(the block guarded by `if self.current.jira_id:`). -/
def statusTransitionStep (s : FixState) : FixState :=
  transitionCheck (authorActedOverride s)

/-- The Python dict comprehension
`{k: v for k, v in current.items() if k in desired}`: keep the fields of
`cur` whose key is present in `des`. -/
def restrictToDesired (cur des : ExtraFields) : ExtraFields :=
  { platformMap12 := if des.platformMap12.isSome then cur.platformMap12 else none,
    platformMap34 := if des.platformMap34.isSome then cur.platformMap34 else none,
    blendedStatusPage := if des.blendedStatusPage.isSome then cur.blendedStatusPage else none,
    blendedProjectId := if des.blendedProjectId.isSome then cur.blendedProjectId else none,
    linesAdded := if des.linesAdded.isSome then cur.linesAdded else none,
    linesDeleted := if des.linesDeleted.isSome then cur.linesDeleted else none,
    epicLink := if des.epicLink.isSome then cur.epicLink else none }

/-- The `update_kwargs` dict `_fix_jira_information` builds: summary and
description when they differ, the labels when the union of desired and
ad-hoc labels differs from the current ones (the value sent being
`desired.jira_labels`), the epic link when a desired epic's key differs
from the current epic, and the extra fields when the desired ones differ
from the current ones restricted to the desired keys.  Built in stages in
the order the source builds the dict; this is the summary entry. -/
def kwSummaryPart (s : FixState) (kw : UpdateKwargs) : UpdateKwargs :=
  if s.desired.jiraTitle ≠ s.current.jiraTitle then
    { kw with summary := some s.desired.jiraTitle } else kw

/-- The description entry of the `update_kwargs` dict. -/
def kwDescriptionPart (s : FixState) (kw : UpdateKwargs) : UpdateKwargs :=
  if s.desired.jiraDescription ≠ s.current.jiraDescription then
    { kw with description := some s.desired.jiraDescription } else kw

/-- The labels entry of the `update_kwargs` dict. -/
def kwLabelsPart (ls : LabelSets) (s : FixState) (kw : UpdateKwargs) : UpdateKwargs :=
  if s.desired.jiraLabels ∪ (s.current.jiraLabels \ ls.jiraCategory)
      ≠ s.current.jiraLabels then
    { kw with labels := some s.desired.jiraLabels } else kw

/-- The epic-link entry of the `update_kwargs` dict. -/
def kwEpicPart (s : FixState) (kw : UpdateKwargs) : UpdateKwargs :=
  match s.desired.jiraEpic with
  | some e =>
    match s.current.jiraEpic with
    | none => { kw with epicLink := some e.key }
    | some ce => if e.key ≠ ce.key then { kw with epicLink := some e.key } else kw
  | none => kw

/-- The extra-fields entry of the `update_kwargs` dict. -/
def kwExtraPart (s : FixState) (kw : UpdateKwargs) : UpdateKwargs :=
  if s.desired.jiraExtraFields
      ≠ restrictToDesired s.current.jiraExtraFields s.desired.jiraExtraFields then
    { kw with extraFields := some s.desired.jiraExtraFields } else kw

/-- The full `update_kwargs` dict `_fix_jira_information` builds, one
entry after the other. -/
def jiraUpdateKwargs (ls : LabelSets) (s : FixState) : UpdateKwargs :=
  kwExtraPart s (kwEpicPart s (kwLabelsPart ls s (kwDescriptionPart s
    (kwSummaryPart s {}))))

/-- The current info after a successful `update_jira_issue` call: the
fixer records the desired values as current. -/
def jiraInfoUpdatedCurrent (s : FixState) : PrCurrentInfo :=
  { s.current with
    jiraTitle := s.desired.jiraTitle,
    jiraDescription := s.desired.jiraDescription,
    jiraLabels := s.desired.jiraLabels,
    jiraEpic := s.desired.jiraEpic,
    jiraExtraFields := s.desired.jiraExtraFields }

/-- `PrTrackingFixer._fix_jira_information`: update the information on the
Jira issue. -/
def fixJiraInformation (ls : LabelSets) (s : FixState) : FixState :=
  if s.err.isSome then s else
  if jiraUpdateKwargs ls s = ({} : UpdateKwargs) then s
  else
    match s.current.jiraId with
    | none => { s with err := some "assert failed: current.jira_id is not None" }
    | some jid =>
      let s2 := s.emit (Action.updateJiraIssue jid (jiraUpdateKwargs ls s))
      { s2 with current := jiraInfoUpdatedCurrent s, happened := true }

/-- The `desired_labels` set `_fix_github_labels` computes: the desired bot
labels, plus the lowercased Jira status when one is set, unioned with the
ad-hoc labels outside the known category and status sets. -/
def githubLabelsTarget (ls : LabelSets) (s : FixState) : Finset String :=
  let desiredLabels := s.desired.githubLabels
  let desiredLabels :=
    if optTruthy s.current.jiraStatus then
      insert (lowerStr (s.current.jiraStatus.getD "")) desiredLabels
    else desiredLabels
  let adHoc := (s.current.githubLabels \ ls.githubCategory) \ ls.githubStatus
  desiredLabels ∪ adHoc

/-- `PrTrackingFixer._fix_github_labels`: reconcile the desired bot labels
with the actual labels on GitHub, preserving any label outside the known
category and status sets. -/
def fixGithubLabels (ls : LabelSets) (s : FixState) : FixState :=
  if s.err.isSome then s else
  if githubLabelsTarget ls s ≠ s.current.githubLabels then
    let s := s.emit (Action.updateLabelsOnPullRequest (githubLabelsTarget ls s))
    { s with happened := true }
  else s

/-- The first-comment blocks consumed by `_fix_bot_comment`: the five
rendered blocks plus the three kinds folded into other blocks' text. -/
def consumedFirstKinds : Finset BotComment :=
  {BotComment.welcome, BotComment.contractor, BotComment.coreCommitter,
   BotComment.blended, BotComment.okToTest, BotComment.needCla,
   BotComment.endOfWip, BotComment.welcomeClosed}

/-- The rebuilt primary comment body of `_fix_bot_comment`, as the
structured rendering record: `needed` is `desired.bot_comments`
intersected with the first-comment kinds; the ticket id appears in the
text only when a block that renders it (welcome, core-committer, blended)
is included, and the epic only in the blended block. -/
def buildPrimaryBody (prv : PrView) (needed : Finset BotComment)
    (jiraId deletedKey : Option String) (epic : Option JiraEpic)
    (blob : Blob) : PrimaryBody :=
  { kinds := needed,
    jiraId :=
      if BotComment.welcome ∈ needed ∨ BotComment.coreCommitter ∈ needed ∨
          BotComment.blended ∈ needed then jiraId
      else none,
    deletedIssueKey := deletedKey,
    epic := if BotComment.blended ∈ needed then epic else none,
    pr := prv,
    blob := blob }

/-- The full primary comment body `_fix_bot_comment` rebuilds for a fixer
state: the wanted first-comment kinds, the ticket id (the current one, or
the mentioned one when the issue is gone), the remembered deleted-issue
key, the current epic, and the re-embedded state blob. -/
def builtPrimary (s : FixState) : CommentRec :=
  CommentRec.primary (buildPrimaryBody s.pr.view
    (s.desired.botComments ∩ BOT_COMMENTS_FIRST)
    (optOr s.current.jiraId s.current.jiraMentionedId)
    s.commentKwargsDeletedKey s.current.jiraEpic s.lastSeenState)

/-- `PrTrackingFixer._fix_bot_comment`: reconcile the desired first bot
comment with what the bot has said; edit the first bot comment if any bot
comment exists, otherwise create one; finally assert that every wanted
first-comment kind was rendered or consumed. -/
def fixBotComment (s : FixState) : FixState :=
  if s.err.isSome then s else
  let hasBotComments := s.current.botComments ≠ ∅
  let needed := s.desired.botComments ∩ BOT_COMMENTS_FIRST
  let body := builtPrimary s
  let leftover := needed \ consumedFirstKinds
  let s2 :=
    if some body ≠ s.current.botComment0Text then
      let s2 :=
        if hasBotComments then s.emit (Action.editCommentOnPullRequest body)
        else s.emit (Action.addCommentToPullRequest body)
      { s2 with happened := true }
    else s
  if leftover = ∅ then s2
  else { s2 with err := some "assert failed: could not make first comments" }

/-- The comment kinds `_add_bot_comments` still needs: wanted, not already
present, and not part of the first comment. -/
def secondaryNeeded (s : FixState) : Finset BotComment :=
  (s.desired.botComments \ s.current.botComments) \ BOT_COMMENTS_FIRST

/-- `PrTrackingFixer._add_bot_comments`: add any wanted comment kind that is
neither already present nor part of the first comment as a separate
comment; assert nothing is left afterwards. -/
def addBotComments (s : FixState) : FixState :=
  if s.err.isSome then s else
  let needed := secondaryNeeded s
  let sn :=
    if BotComment.championMergePing ∈ needed then
      (FixState.emit s (Action.addCommentToPullRequest
        (CommentRec.championPing s.pr.view s.pr.champions)),
       needed.erase BotComment.championMergePing)
    else (s, needed)
  if sn.2 = ∅ then sn.1
  else { sn.1 with err := some "assert failed: could not make comments" }

/-- The opening state of a fixer run: the constructor's deep copy of
`last_seen_state` plus the unconditional label-taxonomy sync call. -/
def initState (pr : PrSnapshot) (cur : PrCurrentInfo) (des : PrDesiredInfo) :
    FixState :=
  { pr := pr, current := cur, desired := des,
    lastSeenState := cur.lastSeenState,
    acts := [Action.synchronizeLabels pr.repoFullName] }

/-- Ticket identity resolution in `fix`: we might have an issue already,
but in the wrong project.  If the mentioned project is not the desired one
and the issue was not already moved there, delete the issue, remember its
mentioned id for the rebuilt comment, clear the current ticket id, title,
description and status, and flag that a new issue is needed. -/
def identityStep (s : FixState) : FixState :=
  match s.current.jiraId with
  | none => s
  | some jid =>
    match s.current.jiraMentionedId with
    | none => { s with err := some "assert failed: jira_mentioned_id is not None" }
    | some mentioned =>
      let mentionedProject := projectOf mentioned
      if s.desired.jiraProject ≠ some mentionedProject then
        let actualProject := projectOf jid
        if s.desired.jiraProject = some actualProject then s
        else
          let s := s.emit (Action.deleteJiraIssue jid)
          let cur := { s.current with
            jiraId := none, jiraTitle := none,
            jiraDescription := none, jiraStatus := none }
          { s with
            makeIssue := true,
            commentKwargsDeletedKey := some mentioned,
            current := cur }
      else s

/-- If we want an issue and none is mentioned yet, we need to make one. -/
def makeIssueFlagStep (s : FixState) : FixState :=
  if s.err.isSome then s
  else if s.desired.jiraProject.isSome ∧ s.current.jiraMentionedId = none then
    { s with makeIssue := true }
  else s

/-- If needed, make a Jira issue; otherwise make the full desired epic
available when the current epic key already matches it. -/
def createOrAdoptStep (keyNum : Nat) (s : FixState) : FixState :=
  if s.err.isSome then s
  else if s.makeIssue then makeJiraIssue keyNum s
  else
    match s.desired.jiraEpic with
    | some e =>
      if s.current.jiraEpicKey = some e.key then
        { s with current := { s.current with jiraEpic := some e } }
      else s
    | none => s

/-- Record the pull request's draft flag in the state blob. -/
def draftStep (s : FixState) : FixState :=
  if s.err.isSome then s
  else { s with lastSeenState := { s.lastSeenState with draft := some s.pr.isDraft } }

/-- Status transition and Jira field updates, only when an issue exists. -/
def jiraStep (ls : LabelSets) (s : FixState) : FixState :=
  if s.err.isSome then s
  else if optTruthy s.current.jiraId then
    fixJiraInformation ls (statusTransitionStep s)
  else s

/-- Primary comment reconciliation, skipped when the pull request is closed
and bot comments already exist. -/
def commentStep (s : FixState) : FixState :=
  if s.err.isSome then s
  else if s.pr.state = "closed" ∧ s.current.botComments ≠ ∅ then s
  else fixBotComment s

/-- `PrTrackingFixer.fix`: the main routine for making needed changes.
Takes the label taxonomy, the fresh issue number the tracker would assign,
the snapshot and the two computed states; returns the finished fixer state
(action trace, mutated current/desired views, `happened`, error if an
assertion failed). -/
def fixRun (ls : LabelSets) (keyNum : Nat) (pr : PrSnapshot)
    (cur : PrCurrentInfo) (des : PrDesiredInfo) : FixState :=
  addBotComments (commentStep (fixGithubLabels ls (jiraStep ls (draftStep
    (createOrAdoptStep keyNum (makeIssueFlagStep (identityStep
      (initState pr cur des))))))))

/-- A Jira issue as stored by the tracker.  `key` is its actual current
key; `oldKeys` are previous keys it is still reachable under after a
manual move (looking an old key up returns the moved issue with its new
key, as the tracker does). -/
structure JiraTicket where
  key : String
  oldKeys : List String := []
  summary : String := ""
  description : String := ""
  status : String := ""
  labels : Finset String := ∅
  extra : ExtraFields := {}
deriving DecidableEq

/-- Modelled from the spec: the state held by the two external systems that
the fixer reads and writes for one pull request: the tracker's issues, the
pull request's labels on the code host, and the bot's comments in order. -/
structure World where
  tickets : List JiraTicket := []
  prLabels : Finset String := ∅
  comments : List CommentRec := []
deriving DecidableEq

/-- Modelled from the spec: `get_jira_issue(id, missing_ok=True)` — the
issue with that key (following moved keys), or `none` when deleted. -/
def World.getJiraIssue (w : World) (m : String) : Option JiraTicket :=
  w.tickets.find? (fun t => t.key == m || t.oldKeys.contains m)

/-- The first of two optional values that is present, if any (dict-merge of
a single key). -/
def pickField (n o : Option String) : Option String :=
  match n with
  | some v => some v
  | none => o

/-- Dict-merge of update keyword extra fields into an issue's stored
fields: a key present in the update overwrites, absent keys are kept. -/
def mergeExtra (old new : ExtraFields) : ExtraFields :=
  { platformMap12 := pickField new.platformMap12 old.platformMap12,
    platformMap34 := pickField new.platformMap34 old.platformMap34,
    blendedStatusPage := pickField new.blendedStatusPage old.blendedStatusPage,
    blendedProjectId := pickField new.blendedProjectId old.blendedProjectId,
    linesAdded := pickField new.linesAdded old.linesAdded,
    linesDeleted := pickField new.linesDeleted old.linesDeleted,
    epicLink := pickField new.epicLink old.epicLink }

/-- Modelled from the spec: how `update_jira_issue` changes the stored
issue: each present keyword sets the corresponding fields, absent keywords
leave them alone. -/
def JiraTicket.applyUpdate (t : JiraTicket) (k : UpdateKwargs) : JiraTicket :=
  let t := match k.summary with
    | some v => { t with summary := v.getD "" }
    | none => t
  let t := match k.description with
    | some v => { t with description := v.getD "" }
    | none => t
  let t := match k.labels with
    | some lbls => { t with labels := lbls }
    | none => t
  let t := match k.extraFields with
    | some e => { t with extra := mergeExtra t.extra e }
    | none => t
  match k.epicLink with
  | some ek => { t with extra := { t.extra with epicLink := some ek } }
  | none => t

/-- Modelled from the spec: the effect of one sink call on the external
state (spec section 4.4 and 6). -/
def World.applyAction (w : World) : Action → World
  | .synchronizeLabels _ => w
  | .deleteJiraIssue jid =>
    { w with tickets := w.tickets.filter (fun t => t.key != jid) }
  | .createOsprIssue newKey _ _ summary description lbls _ _ extra =>
    { w with tickets := w.tickets ++
        [{ key := newKey, summary := summary.getD "",
           description := description.getD "", status := "Needs Triage",
           labels := lbls, extra := extra }] }
  | .transitionJiraIssue jid st =>
    let f := fun (t : JiraTicket) => if t.key = jid then { t with status := st } else t
    { w with tickets := w.tickets.map f }
  | .updateJiraIssue jid kw =>
    let f := fun (t : JiraTicket) => if t.key = jid then t.applyUpdate kw else t
    { w with tickets := w.tickets.map f }
  | .addCommentToPullRequest body =>
    { w with comments := w.comments ++ [body] }
  | .editCommentOnPullRequest body =>
    { w with comments :=
        match w.comments with
        | [] => []
        | _ :: rest => body :: rest }
  | .updateLabelsOnPullRequest lbls =>
    { w with prLabels := lbls }

/-- The external state after a whole action trace. -/
def World.applyTrace (w : World) (acts : List Action) : World :=
  acts.foldl World.applyAction w

/-- The part of an issue's fields that `current_support_state` reads into
`jira_extra_fields`: the six `JIRA_EXTRA_FIELDS` names (the epic link is
read separately into `jira_epic_key`), keeping only present values. -/
def restrictSix (e : ExtraFields) : ExtraFields :=
  { e with epicLink := none }

/-- Modelled from the spec: `get_jira_issue_key(prid)` — the ticket id the
bot's first comment references (spec section 3, `mentionedTicketId`). -/
def getJiraIssueKey (w : World) : Option String :=
  match w.comments.head? with
  | some c => c.jiraIdOf
  | none => none

/-- `existing_bot_comments`: the comment-kind indicators found across all
bot comments. -/
def existingBotCommentKinds (w : World) : Finset BotComment :=
  w.comments.foldl (fun s c => s ∪ c.kindsOf) ∅

/-- The blob the fixer recovers from the first bot comment. -/
def recoveredBlob (w : World) : Blob :=
  match w.comments.head? with
  | some c => c.blobOf
  | none => ({} : Blob)

/-- The part of `current_support_state` read before the ticket lookup. -/
def currentBase (pr : PrSnapshot) (w : World) : PrCurrentInfo :=
  { botComments := existingBotCommentKinds w,
    botComment0Text := w.comments.head?,
    lastSeenState := recoveredBlob w,
    jiraMentionedId := getJiraIssueKey w,
    jiraId := getJiraIssueKey w,
    githubLabels := pr.labels,
    authorActed := (recoveredBlob w).draft.getD false && !pr.isDraft }

/-- `current_support_state`: examine the world to determine what the
current support state is. -/
def currentSupportState (pr : PrSnapshot) (w : World) : PrCurrentInfo :=
  let base := currentBase pr w
  if optTruthy base.jiraId then
    match w.getJiraIssue (base.jiraId.getD "") with
    | none => { base with jiraId := none }
    | some t =>
      { base with
        jiraId := some t.key,
        jiraTitle := some t.summary,
        jiraDescription := some t.description,
        jiraStatus := some t.status,
        jiraLabels := t.labels,
        jiraEpicKey := t.extra.epicLink,
        jiraExtraFields := restrictSix t.extra }
  else base

-- SCRATCH (to be removed)
def testLs : LabelSets :=
  { jiraCategory := {"blended", "core-committer"},
    githubCategory := {"open-source-contribution", "blended", "core committer", "NEED-CLA"},
    githubStatus := {"needs triage", "waiting on author", "community manager review", "rejected", "merged"} }

def testEnv : Env := { blendedEpic := fun _ => none }

def testPr : PrSnapshot :=
  { userLogin := "new", repoFullName := "edx/edx-platform", title := "T",
    body := some "B", hasCla := false, htmlUrl := "u" }

def testDes : PrDesiredInfo := (desiredSupportState testEnv testPr).getD {}

def testCur : PrCurrentInfo := currentSupportState testPr {}

def testS0 : FixState :=
  { pr := testPr, current := testCur, desired := testDes,
    lastSeenState := testCur.lastSeenState,
    acts := [Action.synchronizeLabels testPr.repoFullName] }

def testRun : FixState := fixRun testLs 9000 testPr testCur testDes

def testW1 : World := World.applyTrace {} testRun.acts

def testPr2 : PrSnapshot := { testPr with labels := testW1.prLabels }

def testRun2 : FixState :=
  fixRun testLs 9001 testPr2 (currentSupportState testPr2 testW1) testDes

def testPr3 : PrSnapshot := { testPr with hasCla := true, blendedId := some 1 }

def testDes3 : PrDesiredInfo := (desiredSupportState testEnv testPr3).getD {}

def testT3 : JiraTicket :=
  { key := "OSPR-1", summary := "T", description := "B", status := "Needs Triage" }

def testC3 : PrimaryBody :=
  { kinds := {BotComment.welcome}, jiraId := some "OSPR-1",
    deletedIssueKey := none, epic := none, pr := testPr3.view, blob := {} }

def testW3 : World :=
  { tickets := [testT3], comments := [CommentRec.primary testC3] }

def testRun3 : FixState :=
  fixRun testLs 9000 testPr3 (currentSupportState testPr3 testW3) testDes3

def testW4 : World := World.applyTrace testW3 testRun3.acts

def testPr4 : PrSnapshot := { testPr3 with labels := testW4.prLabels }

def testRun4 : FixState :=
  fixRun testLs 9001 testPr4 (currentSupportState testPr4 testW4) testDes3

/-- A fixer state for exercising `_fix_jira_information` alone: ticket
OSPR-1 is linked, title and description already agree, the ticket carries
the ad-hoc label "custom-label", and the bot wants the category label
"blended". -/
def labelBugCurrent : PrCurrentInfo :=
  { jiraId := some "OSPR-1", jiraMentionedId := some "OSPR-1",
    jiraTitle := some "T", jiraDescription := some "B",
    jiraStatus := some "Needs Triage", jiraLabels := {"custom-label"} }

def labelBugDesired : PrDesiredInfo :=
  { jiraProject := some "OSPR", jiraTitle := some "T",
    jiraDescription := some "B", jiraLabels := {"blended"} }

def labelBugState : FixState :=
  { pr := testPr, current := labelBugCurrent, desired := labelBugDesired,
    lastSeenState := {} }

/-- The label set C3 claims is written, following the spec's words: the
desired bot labels, plus the ticket's current status name lowercased when
a ticket exists, unioned with every current pull-request label outside the
known category and status sets. -/
def claimedGithubLabels (ls : LabelSets) (s : FixState) : Finset String :=
  s.desired.githubLabels ∪
    (match s.current.jiraId with
     | some _ => {lowerStr (s.current.jiraStatus.getD "")}
     | none => (∅ : Finset String)) ∪
    ((s.current.githubLabels \ ls.githubCategory) \ ls.githubStatus)

def labelWitnessCurrent : PrCurrentInfo :=
  { jiraId := some "OSPR-1", jiraMentionedId := some "OSPR-1",
    jiraStatus := some "Needs Triage", githubLabels := {"pinned"} }

def labelWitnessState : FixState :=
  { pr := testPr, current := labelWitnessCurrent,
    desired := { githubLabels := {"open-source-contribution"} },
    lastSeenState := {} }

def unblockCurrent : PrCurrentInfo :=
  { jiraId := some "OSPR-1", jiraMentionedId := some "OSPR-1",
    jiraStatus := some "Waiting on Author", authorActed := true }

def unblockDesired : PrDesiredInfo :=
  { jiraProject := some "OSPR", jiraInitialStatus := some "Needs Triage" }

def unblockState : FixState :=
  { pr := testPr, current := unblockCurrent, desired := unblockDesired,
    lastSeenState := {} }

def unblockComment : PrimaryBody :=
  { kinds := {BotComment.welcome}, jiraId := none, deletedIssueKey := none,
    epic := none, pr := testPr.view, blob := { draft := some true } }

def unblockWorld : World :=
  { comments := [CommentRec.primary unblockComment] }

def relocCur : PrCurrentInfo :=
  { jiraId := some "BLENDED-42", jiraMentionedId := some "OSPR-1",
    jiraTitle := some "T", jiraDescription := some "B",
    jiraStatus := some "Needs Triage" }

def relocDes : PrDesiredInfo :=
  { jiraProject := some "BLENDED", jiraTitle := some "T",
    jiraDescription := some "B", jiraInitialStatus := some "Needs Triage",
    botComments := {BotComment.blended}, jiraLabels := {"blended"},
    githubLabels := {"blended"} }

def closedCur : PrCurrentInfo :=
  { botComments := {BotComment.welcome},
    botComment0Text := some (CommentRec.primary
      { kinds := {BotComment.welcome}, jiraId := some "OSPR-1",
        deletedIssueKey := none, epic := none,
        pr := { testPr with state := "closed" }.view, blob := {} }),
    jiraMentionedId := some "OSPR-1", jiraId := some "OSPR-1",
    jiraTitle := some "X", jiraDescription := some "Y",
    jiraStatus := some "Needs Triage" }

/-- The deleted-issue key carried by a primary-comment action, if any. -/
def Action.primaryBodyDeletedKey : Action → Option String
  | .editCommentOnPullRequest (.primary b) => b.deletedIssueKey
  | .addCommentToPullRequest (.primary b) => b.deletedIssueKey
  | _ => none

def projCur : PrCurrentInfo :=
  { jiraId := some "OSPR-1", jiraMentionedId := some "OSPR-1",
    jiraTitle := some "T", jiraDescription := some "B",
    jiraStatus := some "Needs Triage",
    jiraLabels := {"custom-label"},
    jiraEpicKey := some "EPIC-9" }

/-- Is this action an addition or edit of a bot comment. -/
def Action.isCommentAction : Action → Bool
  | .addCommentToPullRequest _ => true
  | .editCommentOnPullRequest _ => true
  | _ => false

/-- Is this action a relabel of the pull request. -/
def Action.isRelabel : Action → Bool
  | .updateLabelsOnPullRequest _ => true
  | _ => false

/-- Is this action a ticket mutation. -/
def Action.isTicketAction : Action → Bool
  | .deleteJiraIssue _ => true
  | .createOsprIssue .. => true
  | .transitionJiraIssue _ _ => true
  | .updateJiraIssue _ _ => true
  | _ => false

/-- The ticket `create_ospr_issue` makes for a fresh pull request, once its
status has been set to `st`. -/
def freshTicket (P : String) (keyNum : Nat) (des : PrDesiredInfo)
    (st : String) : JiraTicket :=
  { key := mkJiraKey P keyNum,
    summary := des.jiraTitle.getD "",
    description := des.jiraDescription.getD "",
    status := st, labels := des.jiraLabels,
    extra := des.jiraExtraFields }

/-- What the CLA rule can change. -/
theorem tailClaPart_frames (pr : PrSnapshot) (d : PrDesiredInfo) :
    (tailClaPart pr d).jiraTitle = d.jiraTitle ∧
    (tailClaPart pr d).jiraDescription = d.jiraDescription ∧
    (tailClaPart pr d).jiraProject = d.jiraProject ∧
    (tailClaPart pr d).jiraStatus = d.jiraStatus ∧
    (tailClaPart pr d).jiraEpic = d.jiraEpic ∧
    (tailClaPart pr d).jiraExtraFields = d.jiraExtraFields ∧
    (tailClaPart pr d).jiraLabels = d.jiraLabels ∧
    ((tailClaPart pr d).jiraInitialStatus = d.jiraInitialStatus ∨
      (tailClaPart pr d).jiraInitialStatus = some "Community Manager Review") ∧
    (∀ k, k ∈ d.botComments → k ∈ (tailClaPart pr d).botComments) := by
  unfold tailClaPart
  split
  · exact ⟨rfl, rfl, rfl, rfl, rfl, rfl, rfl, Or.inr rfl,
      fun k hk => Finset.mem_insert_of_mem hk⟩
  · exact ⟨rfl, rfl, rfl, rfl, rfl, rfl, rfl, Or.inl rfl, fun k hk => hk⟩

/-- What the forcing-status rule can change. -/
theorem tailStatusPart_frames (pr : PrSnapshot) (d : PrDesiredInfo) :
    (tailStatusPart pr d).jiraTitle = d.jiraTitle ∧
    (tailStatusPart pr d).jiraDescription = d.jiraDescription ∧
    (tailStatusPart pr d).jiraProject = d.jiraProject ∧
    (tailStatusPart pr d).jiraInitialStatus = d.jiraInitialStatus ∧
    (tailStatusPart pr d).jiraEpic = d.jiraEpic ∧
    (tailStatusPart pr d).jiraExtraFields = d.jiraExtraFields ∧
    (tailStatusPart pr d).jiraLabels = d.jiraLabels ∧
    (tailStatusPart pr d).botComments = d.botComments ∧
    (tailStatusPart pr d).githubLabels = d.githubLabels := by
  unfold tailStatusPart
  split
  · exact ⟨rfl, rfl, rfl, rfl, rfl, rfl, rfl, rfl, rfl⟩
  split
  · exact ⟨rfl, rfl, rfl, rfl, rfl, rfl, rfl, rfl, rfl⟩
  · exact ⟨rfl, rfl, rfl, rfl, rfl, rfl, rfl, rfl, rfl⟩

/-- What the ok-to-test rule can change. -/
theorem tailOkPart_frames (pr : PrSnapshot) (d : PrDesiredInfo) :
    (tailOkPart pr d).jiraTitle = d.jiraTitle ∧
    (tailOkPart pr d).jiraDescription = d.jiraDescription ∧
    (tailOkPart pr d).jiraProject = d.jiraProject ∧
    (tailOkPart pr d).jiraInitialStatus = d.jiraInitialStatus ∧
    (tailOkPart pr d).jiraStatus = d.jiraStatus ∧
    (tailOkPart pr d).jiraEpic = d.jiraEpic ∧
    (tailOkPart pr d).jiraExtraFields = d.jiraExtraFields ∧
    (tailOkPart pr d).jiraLabels = d.jiraLabels ∧
    (tailOkPart pr d).githubLabels = d.githubLabels ∧
    (∀ k, k ∈ d.botComments → k ∈ (tailOkPart pr d).botComments) := by
  unfold tailOkPart
  split
  · exact ⟨rfl, rfl, rfl, rfl, rfl, rfl, rfl, rfl, rfl,
      fun k hk => Finset.mem_insert_of_mem hk⟩
  · exact ⟨rfl, rfl, rfl, rfl, rfl, rfl, rfl, rfl, rfl, fun k hk => hk⟩

/-- What the line-count rule can change. -/
theorem tailLinesPart_frames (pr : PrSnapshot) (d : PrDesiredInfo) :
    (tailLinesPart pr d).jiraTitle = d.jiraTitle ∧
    (tailLinesPart pr d).jiraDescription = d.jiraDescription ∧
    (tailLinesPart pr d).jiraProject = d.jiraProject ∧
    (tailLinesPart pr d).jiraInitialStatus = d.jiraInitialStatus ∧
    (tailLinesPart pr d).jiraStatus = d.jiraStatus ∧
    (tailLinesPart pr d).jiraEpic = d.jiraEpic ∧
    (tailLinesPart pr d).jiraExtraFields.epicLink = d.jiraExtraFields.epicLink ∧
    (tailLinesPart pr d).jiraLabels = d.jiraLabels ∧
    (tailLinesPart pr d).botComments = d.botComments ∧
    (tailLinesPart pr d).githubLabels = d.githubLabels := by
  unfold tailLinesPart
  rcases pr.additions with _ | av <;> rcases pr.deletions with _ | dv <;>
    exact ⟨rfl, rfl, rfl, rfl, rfl, rfl, rfl, rfl, rfl, rfl⟩

/-- When the pull request has no signed agreement, whatever desired state
the earlier rules produced, the trailing rules force the
Community Manager Review initial status, the NEED_CLA comment kind and the
NEED-CLA label. -/
theorem desiredTail_noCla (pr : PrSnapshot) (d0 : PrDesiredInfo)
    (hcla : pr.hasCla = false) :
    (desiredTail pr d0).jiraInitialStatus = some "Community Manager Review" ∧
    BotComment.needCla ∈ (desiredTail pr d0).botComments ∧
    "NEED-CLA" ∈ (desiredTail pr d0).githubLabels := by
  have hcl : tailClaPart pr d0 =
      { d0 with botComments := insert BotComment.needCla d0.botComments,
                jiraInitialStatus := some "Community Manager Review",
                githubLabels := insert "NEED-CLA" d0.githubLabels } := by
    unfold tailClaPart
    rw [if_pos (show (!pr.hasCla) = true by rw [hcla]; rfl)]
  have hok : tailOkPart pr (tailStatusPart pr (tailClaPart pr d0)) =
      tailStatusPart pr (tailClaPart pr d0) := by
    unfold tailOkPart
    rw [if_neg (by rw [hcla]; exact Bool.noConfusion)]
  obtain ⟨_, _, _, hSini, _, _, _, hSbc, hSgh⟩ :=
    tailStatusPart_frames pr (tailClaPart pr d0)
  obtain ⟨_, _, _, hLini, _, _, _, _, hLbc, hLgh⟩ :=
    tailLinesPart_frames pr (tailOkPart pr (tailStatusPart pr (tailClaPart pr d0)))
  unfold desiredTail
  refine ⟨?_, ?_, ?_⟩
  · rw [hLini, hok, hSini, hcl]
  · rw [hLbc, hok, hSbc, hcl]
    exact Finset.mem_insert_self _ _
  · rw [hLgh, hok, hSgh, hcl]
    exact Finset.mem_insert_self _ _

/-- C7: for every snapshot that reaches the policy rules (not bot, not
internal, not contractor) and has no signed agreement,
`desired_support_state` returns a desired state whose initial ticket status
is "Community Manager Review", whose comment set contains the NEED_CLA
kind, and whose GitHub label set contains "NEED-CLA" — whatever the draft
flag and the committer flag are, so the CLA rule overrides the
"Waiting on Author" initial status the draft or committer rules would
set. -/
theorem cla_overrides_initial_status (env : Env) (pr : PrSnapshot)
    (hb : pr.isBot = false) (hi : pr.isInternal = false)
    (hc : pr.isContractor = false) (hcla : pr.hasCla = false) :
    ∃ d, desiredSupportState env pr = some d ∧
      d.jiraInitialStatus = some "Community Manager Review" ∧
      BotComment.needCla ∈ d.botComments ∧
      "NEED-CLA" ∈ d.githubLabels := by
  refine ⟨desiredTail pr (desiredBase env pr), ?_,
    desiredTail_noCla pr (desiredBase env pr) hcla⟩
  unfold desiredSupportState
  rw [hb, hi, hc]
  simp

/-- Witness for C7 at a concrete snapshot that is simultaneously a draft
and committer-authored, the precedence conflict the claim calls out. -/
theorem cla_overrides_initial_status_witness :
    ∃ d, desiredSupportState testEnv
        { testPr with isCommitter := true, isDraft := true } = some d ∧
      d.jiraInitialStatus = some "Community Manager Review" ∧
      BotComment.needCla ∈ d.botComments ∧
      "NEED-CLA" ∈ d.githubLabels :=
  cla_overrides_initial_status testEnv
    { testPr with isCommitter := true, isDraft := true } rfl rfl rfl rfl

/-- C2: at the failing input, `_fix_jira_information` decides an update is
needed because the union of desired and ad-hoc labels, namely
"blended" and "custom-label", differs from the current ticket labels — but
the update it issues carries only `desired.jira_labels`, so the ad-hoc
label "custom-label" (which is outside the Jira category set) is removed
from the ticket, contradicting the claimed preservation. -/
theorem jira_label_update_drops_ad_hoc :
    (fixJiraInformation testLs labelBugState).acts =
      [Action.updateJiraIssue "OSPR-1"
        { labels := some ({"blended"} : Finset String) }] ∧
    labelBugState.desired.jiraLabels ∪
        (labelBugState.current.jiraLabels \ testLs.jiraCategory) =
      {"blended", "custom-label"} ∧
    "custom-label" ∈ labelBugState.current.jiraLabels ∧
    "custom-label" ∉ ({"blended"} : Finset String) ∧
    "custom-label" ∉ testLs.jiraCategory := by
  refine ⟨by decide, by decide, by decide, by decide, by decide⟩

/-- C3: in every run of `_fix_github_labels` (on a state whose ticket
status is recorded exactly when a ticket exists, as `current_support_state`
and the creation path guarantee), the label set written is the desired bot
labels plus the lowercased ticket status when a ticket exists, unioned
with all ad-hoc labels; the relabel action is issued exactly when that set
differs from the current labels, and every ad-hoc label is contained in
the written set, so unknown labels are never removed. -/
theorem github_labels_reconciliation (ls : LabelSets) (s : FixState)
    (herr : s.err = none)
    (hts : ∀ st, s.current.jiraStatus = some st → st ≠ "")
    (hid : s.current.jiraId.isSome ↔ s.current.jiraStatus.isSome) :
    githubLabelsTarget ls s = claimedGithubLabels ls s ∧
    (githubLabelsTarget ls s ≠ s.current.githubLabels →
      fixGithubLabels ls s =
        { s with
          acts := s.acts ++ [Action.updateLabelsOnPullRequest (githubLabelsTarget ls s)],
          happened := true }) ∧
    (githubLabelsTarget ls s = s.current.githubLabels →
      fixGithubLabels ls s = s) ∧
    (s.current.githubLabels \ ls.githubCategory) \ ls.githubStatus ⊆
      githubLabelsTarget ls s := by
  refine ⟨?_, ?_, ?_, ?_⟩
  · unfold githubLabelsTarget claimedGithubLabels
    rcases h : s.current.jiraStatus with _ | st
    · have hidn : s.current.jiraId = none := by
        rcases hi : s.current.jiraId with _ | v
        · rfl
        · have h2 := hid.mp (by rw [hi]; rfl)
          rw [h] at h2
          simp at h2
      rw [hidn]
      simp [optTruthy]
    · have hsne : st ≠ "" := hts st h
      have htr : optTruthy (some st) = true := by
        simp [optTruthy, hsne]
      rw [htr]
      rcases hi : s.current.jiraId with _ | v
      · have h2 := hid.mpr (by rw [h]; rfl)
        rw [hi] at h2
        simp at h2
      · simp only [if_true, Option.getD_some]
        ext x
        simp only [Finset.mem_union, Finset.mem_insert, Finset.mem_singleton]
        tauto
  · intro hne
    unfold fixGithubLabels
    rw [herr]
    simp only [Option.isSome_none, Bool.false_eq_true, if_false]
    rw [if_pos hne]
    simp [FixState.emit, herr]
  · intro heq
    unfold fixGithubLabels
    rw [herr]
    simp only [Option.isSome_none, Bool.false_eq_true, if_false]
    rw [if_neg (fun hn => hn heq)]
  · unfold githubLabelsTarget
    exact Finset.subset_union_right

/-- Witness for C3: a state with ticket OSPR-1 in status Needs Triage, an
ad-hoc label "pinned" on the pull request, and desired label
"open-source-contribution"; the target set keeps "pinned". -/
theorem github_labels_reconciliation_witness :
    githubLabelsTarget testLs labelWitnessState =
      claimedGithubLabels testLs labelWitnessState ∧
    (githubLabelsTarget testLs labelWitnessState ≠
        labelWitnessState.current.githubLabels →
      fixGithubLabels testLs labelWitnessState =
        { labelWitnessState with
          acts := labelWitnessState.acts ++ [Action.updateLabelsOnPullRequest (githubLabelsTarget testLs labelWitnessState)],
          happened := true }) ∧
    (githubLabelsTarget testLs labelWitnessState =
        labelWitnessState.current.githubLabels →
      fixGithubLabels testLs labelWitnessState = labelWitnessState) ∧
    (labelWitnessState.current.githubLabels \ testLs.githubCategory) \
        testLs.githubStatus ⊆
      githubLabelsTarget testLs labelWitnessState :=
  github_labels_reconciliation testLs labelWitnessState rfl
    (by decide) (by decide)

/-- C6: (1) `current_support_state` sets `author_acted` exactly when the
recovered state blob remembered the pull request as a draft and the
snapshot is now non-draft; (2) in `fix`, whenever a ticket exists,
`author_acted` holds and the ticket's current status is
"Waiting on Author", the desired forcing status is overridden to the
desired initial status, and a transition is issued, marking `happened`,
exactly when that forcing status differs from the current status. -/
theorem draft_unblock :
    (∀ (pr : PrSnapshot) (w : World),
      (currentSupportState pr w).authorActed = true ↔
        ((currentSupportState pr w).lastSeenState.draft.getD false = true ∧
          pr.isDraft = false)) ∧
    (∀ (s : FixState) (jid s0 : String),
      s.current.jiraId = some jid →
      s.current.authorActed = true →
      s.current.jiraStatus = some "Waiting on Author" →
      s.desired.jiraInitialStatus = some s0 →
      (statusTransitionStep s).desired.jiraStatus = some s0 ∧
      (s0 ≠ "Waiting on Author" →
        (statusTransitionStep s).acts =
          s.acts ++ [Action.transitionJiraIssue jid s0] ∧
        (statusTransitionStep s).happened = true ∧
        (statusTransitionStep s).current.jiraStatus = some s0) ∧
      (s0 = "Waiting on Author" →
        (statusTransitionStep s).acts = s.acts ∧
        (statusTransitionStep s).happened = s.happened)) := by
  constructor
  · intro pr w
    unfold currentSupportState currentBase
    simp only [Bool.and_eq_true, Bool.not_eq_true']
    split
    · split <;> simp [Bool.and_eq_true, Bool.not_eq_true']
    · simp [Bool.and_eq_true, Bool.not_eq_true']
  · intro s jid s0 hid hacted hwoa hini
    have hov : authorActedOverride s =
        { s with desired := { s.desired with jiraStatus := some s0 } } := by
      unfold authorActedOverride
      rw [if_pos ⟨hacted, hwoa⟩, hini]
    unfold statusTransitionStep
    rw [hov]
    unfold transitionCheck
    dsimp only
    by_cases hs0 : s0 = "Waiting on Author"
    · subst hs0
      rw [if_neg (by rw [hwoa]; exact fun hn => hn rfl)]
      exact ⟨rfl, fun hne => absurd rfl hne, fun _ => ⟨rfl, rfl⟩⟩
    · rw [if_pos (by rw [hwoa]; exact fun he => hs0 (Option.some_inj.mp he))]
      rw [hid]
      exact ⟨rfl, fun _ => ⟨rfl, rfl, rfl⟩, fun he => absurd he hs0⟩

/-- Witness for C6: a non-draft snapshot whose recovered blob remembered a
draft, and a fixer state in "Waiting on Author" with initial status
"Needs Triage". -/
theorem draft_unblock_witness :
    ((currentSupportState testPr unblockWorld).authorActed = true ↔
      ((currentSupportState testPr unblockWorld).lastSeenState.draft.getD false = true ∧
        testPr.isDraft = false)) ∧
    ((statusTransitionStep unblockState).desired.jiraStatus = some "Needs Triage" ∧
      ("Needs Triage" ≠ "Waiting on Author" →
        (statusTransitionStep unblockState).acts =
          unblockState.acts ++ [Action.transitionJiraIssue "OSPR-1" "Needs Triage"] ∧
        (statusTransitionStep unblockState).happened = true ∧
        (statusTransitionStep unblockState).current.jiraStatus = some "Needs Triage") ∧
      ("Needs Triage" = "Waiting on Author" →
        (statusTransitionStep unblockState).acts = unblockState.acts ∧
        (statusTransitionStep unblockState).happened = unblockState.happened)) :=
  ⟨draft_unblock.1 testPr unblockWorld,
   draft_unblock.2 unblockState "OSPR-1" "Needs Triage" (by decide) (by decide)
     (by decide) (by decide)⟩

/-- Every first-comment kind is consumed by the sequential removals of
`_fix_bot_comment`. -/
theorem first_mem_consumed : ∀ k : BotComment,
    k ∈ BOT_COMMENTS_FIRST → k ∈ consumedFirstKinds := by decide

/-- The leftover of the first-comment pass is always empty: every wanted
first-comment kind is rendered or consumed. -/
theorem leftover_first_empty (A : Finset BotComment) :
    (A ∩ BOT_COMMENTS_FIRST) \ consumedFirstKinds = ∅ := by
  ext k
  simp only [Finset.mem_sdiff, Finset.mem_inter, Finset.not_mem_empty,
    iff_false, not_and]
  intro hk
  exact fun hn => hn (first_mem_consumed k hk.2)

/-- The only comment kind outside the first-comment set is the champion
merge ping. -/
theorem not_first_eq_ping : ∀ k : BotComment,
    k ∉ BOT_COMMENTS_FIRST → k = BotComment.championMergePing := by decide

/-- The secondary-comment needs are at most the champion merge ping. -/
theorem secondaryNeeded_subset (s : FixState) :
    secondaryNeeded s ⊆ {BotComment.championMergePing} := by
  intro k hk
  unfold secondaryNeeded at hk
  rw [Finset.mem_sdiff] at hk
  rw [Finset.mem_singleton]
  exact not_first_eq_ping k hk.2

/-- `identityStep` when no ticket is linked. -/
theorem identityStep_noId (s : FixState) (h : s.current.jiraId = none) :
    identityStep s = s := by
  unfold identityStep
  rw [h]

/-- `identityStep` when the linked ticket stays: either the mentioned
project matches the desired one, or the actual project does. -/
theorem identityStep_keep (s : FixState) (jid m : String)
    (h1 : s.current.jiraId = some jid) (h2 : s.current.jiraMentionedId = some m)
    (h : s.desired.jiraProject = some (projectOf m) ∨
      s.desired.jiraProject = some (projectOf jid)) :
    identityStep s = s := by
  unfold identityStep
  rw [h1, h2]
  dsimp only
  by_cases hm : s.desired.jiraProject = some (projectOf m)
  · rw [if_neg (fun hn => hn hm)]
  · rcases h with h | h
    · exact absurd h hm
    · rw [if_pos hm, if_pos h]

/-- `identityStep` in the project-change case: delete the issue, remember
its mentioned id, clear the ticket id, title, description and status, and
flag the creation. -/
theorem identityStep_delete (s : FixState) (jid m : String)
    (h1 : s.current.jiraId = some jid) (h2 : s.current.jiraMentionedId = some m)
    (h3 : s.desired.jiraProject ≠ some (projectOf m))
    (h4 : s.desired.jiraProject ≠ some (projectOf jid)) :
    identityStep s =
      { s with
        acts := s.acts ++ [Action.deleteJiraIssue jid],
        makeIssue := true,
        commentKwargsDeletedKey := some m,
        current := { s.current with jiraId := none, jiraTitle := none, jiraDescription := none, jiraStatus := none } } := by
  unfold identityStep
  rw [h1, h2]
  dsimp only
  rw [if_pos h3, if_neg h4]
  rfl

/-- `makeIssueFlagStep` sets the flag when a ticket is wanted and none is
mentioned. -/
theorem makeIssueFlagStep_set (s : FixState) (he : s.err = none)
    (hp : s.desired.jiraProject.isSome = true)
    (hm : s.current.jiraMentionedId = none) :
    makeIssueFlagStep s = { s with makeIssue := true } := by
  unfold makeIssueFlagStep
  rw [he]
  simp only [Option.isSome_none, Bool.false_eq_true, if_false]
  rw [if_pos ⟨hp, hm⟩]

/-- `makeIssueFlagStep` leaves the state alone otherwise. -/
theorem makeIssueFlagStep_skip (s : FixState) (he : s.err = none)
    (h : ¬(s.desired.jiraProject.isSome = true ∧
      s.current.jiraMentionedId = none)) :
    makeIssueFlagStep s = s := by
  unfold makeIssueFlagStep
  rw [he]
  simp only [Option.isSome_none, Bool.false_eq_true, if_false]
  rw [if_neg h]

/-- `createOrAdoptStep` dispatches to `_make_jira_issue` when flagged. -/
theorem createOrAdoptStep_create (keyNum : Nat) (s : FixState)
    (he : s.err = none) (hm : s.makeIssue = true) :
    createOrAdoptStep keyNum s = makeJiraIssue keyNum s := by
  unfold createOrAdoptStep
  rw [he, hm]
  simp

/-- `createOrAdoptStep` adopts the desired epic when its key matches. -/
theorem createOrAdoptStep_adopt (keyNum : Nat) (s : FixState) (e : JiraEpic)
    (he : s.err = none) (hm : s.makeIssue = false)
    (hd : s.desired.jiraEpic = some e)
    (hk : s.current.jiraEpicKey = some e.key) :
    createOrAdoptStep keyNum s =
      { s with current := { s.current with jiraEpic := some e } } := by
  unfold createOrAdoptStep
  rw [he, hm]
  simp only [Option.isSome_none, Bool.false_eq_true, if_false]
  rw [hd]
  dsimp only
  rw [if_pos hk]

/-- `createOrAdoptStep` is the identity when no epic is desired. -/
theorem createOrAdoptStep_noEpic (keyNum : Nat) (s : FixState)
    (he : s.err = none) (hm : s.makeIssue = false)
    (hd : s.desired.jiraEpic = none) :
    createOrAdoptStep keyNum s = s := by
  unfold createOrAdoptStep
  rw [he, hm]
  simp only [Option.isSome_none, Bool.false_eq_true, if_false]
  rw [hd]

/-- `createOrAdoptStep` is the identity when the epic keys do not match. -/
theorem createOrAdoptStep_epicMismatch (keyNum : Nat) (s : FixState)
    (e : JiraEpic) (he : s.err = none) (hm : s.makeIssue = false)
    (hd : s.desired.jiraEpic = some e)
    (hk : s.current.jiraEpicKey ≠ some e.key) :
    createOrAdoptStep keyNum s = s := by
  unfold createOrAdoptStep
  rw [he, hm]
  simp only [Option.isSome_none, Bool.false_eq_true, if_false]
  rw [hd]
  dsimp only
  rw [if_neg hk]

/-- `draftStep` records the snapshot's draft flag in the blob. -/
theorem draftStep_eq (s : FixState) (he : s.err = none) :
    draftStep s =
      { s with lastSeenState :=
          { s.lastSeenState with draft := some s.pr.isDraft } } := by
  unfold draftStep
  rw [he]
  simp

/-- `jiraStep` does nothing without a (truthy) ticket id. -/
theorem jiraStep_noTicket (ls : LabelSets) (s : FixState) (he : s.err = none)
    (h : optTruthy s.current.jiraId = false) :
    jiraStep ls s = s := by
  unfold jiraStep
  rw [he, h]
  simp

/-- `jiraStep` runs the transition and field update with a ticket. -/
theorem jiraStep_ticket (ls : LabelSets) (s : FixState) (he : s.err = none)
    (h : optTruthy s.current.jiraId = true) :
    jiraStep ls s = fixJiraInformation ls (statusTransitionStep s) := by
  unfold jiraStep
  rw [he, h]
  simp

/-- `authorActedOverride` does nothing unless the author acted while the
ticket was waiting on the author. -/
theorem authorActedOverride_skip (s : FixState)
    (h : ¬(s.current.authorActed = true ∧
      s.current.jiraStatus = some "Waiting on Author")) :
    authorActedOverride s = s := by
  unfold authorActedOverride
  rw [if_neg h]

/-- `transitionCheck` does nothing when no forcing status is set or it
already matches. -/
theorem transitionCheck_noop (s : FixState)
    (h : s.desired.jiraStatus = none ∨
      s.desired.jiraStatus = s.current.jiraStatus) :
    transitionCheck s = s := by
  unfold transitionCheck
  rcases hd : s.desired.jiraStatus with _ | st
  · rfl
  · rcases h with h | h
    · rw [hd] at h
      exact absurd h (by simp)
    · rw [hd] at h
      dsimp only
      rw [if_neg (fun hn => hn h)]

/-- `transitionCheck` transitions the ticket when the forcing status
differs. -/
theorem transitionCheck_transition (s : FixState) (st jid : String)
    (hd : s.desired.jiraStatus = some st)
    (hne : some st ≠ s.current.jiraStatus)
    (hid : s.current.jiraId = some jid) :
    transitionCheck s =
      { s with
        acts := s.acts ++ [Action.transitionJiraIssue jid st],
        current := { s.current with jiraStatus := some st },
        happened := true } := by
  unfold transitionCheck
  rw [hd]
  dsimp only
  rw [if_pos hne]
  conv_lhs => rw [hid]
  dsimp only [FixState.emit]

/-- `fixJiraInformation` does nothing with empty update kwargs. -/
theorem fixJiraInformation_noop (ls : LabelSets) (s : FixState)
    (he : s.err = none) (h : jiraUpdateKwargs ls s = ({} : UpdateKwargs)) :
    fixJiraInformation ls s = s := by
  unfold fixJiraInformation
  rw [he]
  simp only [Option.isSome_none, Bool.false_eq_true, if_false]
  rw [if_pos h]

/-- `fixJiraInformation` issues one update with the computed kwargs and
records the desired values as current. -/
theorem fixJiraInformation_update (ls : LabelSets) (s : FixState)
    (jid : String) (he : s.err = none)
    (h : jiraUpdateKwargs ls s ≠ ({} : UpdateKwargs))
    (hid : s.current.jiraId = some jid) :
    fixJiraInformation ls s =
      { s with
        acts := s.acts ++ [Action.updateJiraIssue jid (jiraUpdateKwargs ls s)],
        current := jiraInfoUpdatedCurrent s,
        happened := true } := by
  unfold fixJiraInformation
  rw [he]
  simp only [Option.isSome_none, Bool.false_eq_true, if_false]
  rw [if_neg h, hid]
  dsimp only [FixState.emit]
  rw [he]

/-- `fixGithubLabels` does nothing when the target set already matches. -/
theorem fixGithubLabels_noop (ls : LabelSets) (s : FixState)
    (he : s.err = none) (h : githubLabelsTarget ls s = s.current.githubLabels) :
    fixGithubLabels ls s = s := by
  unfold fixGithubLabels
  rw [he]
  simp only [Option.isSome_none, Bool.false_eq_true, if_false]
  rw [if_neg (fun hn => hn h)]

/-- `fixGithubLabels` issues one relabel action otherwise. -/
theorem fixGithubLabels_update (ls : LabelSets) (s : FixState)
    (he : s.err = none) (h : githubLabelsTarget ls s ≠ s.current.githubLabels) :
    fixGithubLabels ls s =
      { s with
        acts := s.acts ++ [Action.updateLabelsOnPullRequest (githubLabelsTarget ls s)],
        happened := true } := by
  unfold fixGithubLabels
  rw [he]
  simp only [Option.isSome_none, Bool.false_eq_true, if_false]
  rw [if_pos h]
  dsimp only [FixState.emit]
  rw [he]

/-- `fixBotComment` does nothing when the rebuilt body equals the stored
primary comment text. -/
theorem fixBotComment_noop (s : FixState) (he : s.err = none)
    (heq : some (builtPrimary s) = s.current.botComment0Text) :
    fixBotComment s = s := by
  unfold fixBotComment
  rw [he]
  simp only [Option.isSome_none, Bool.false_eq_true, if_false]
  rw [if_pos (leftover_first_empty s.desired.botComments)]
  rw [if_neg (fun hn => hn heq)]

/-- `fixBotComment` edits the first bot comment when bot comments exist
and the rebuilt body differs. -/
theorem fixBotComment_edit (s : FixState) (he : s.err = none)
    (hne : some (builtPrimary s) ≠ s.current.botComment0Text)
    (hbc : s.current.botComments ≠ ∅) :
    fixBotComment s =
      { s with
        acts := s.acts ++ [Action.editCommentOnPullRequest (builtPrimary s)],
        happened := true } := by
  unfold fixBotComment
  rw [he]
  simp only [Option.isSome_none, Bool.false_eq_true, if_false]
  rw [if_pos (leftover_first_empty s.desired.botComments)]
  rw [if_pos hne, if_pos hbc]
  dsimp only [FixState.emit]
  rw [he]

/-- `fixBotComment` creates the first bot comment when none exists and the
rebuilt body differs. -/
theorem fixBotComment_add (s : FixState) (he : s.err = none)
    (hne : some (builtPrimary s) ≠ s.current.botComment0Text)
    (hbc : s.current.botComments = ∅) :
    fixBotComment s =
      { s with
        acts := s.acts ++ [Action.addCommentToPullRequest (builtPrimary s)],
        happened := true } := by
  unfold fixBotComment
  rw [he]
  simp only [Option.isSome_none, Bool.false_eq_true, if_false]
  rw [if_pos (leftover_first_empty s.desired.botComments)]
  rw [if_pos hne, if_neg (fun hn => hn hbc)]
  dsimp only [FixState.emit]
  rw [he]

/-- `addBotComments` does nothing when no champion ping is needed (and then
nothing at all is needed, since the ping is the only secondary kind). -/
theorem addBotComments_noop (s : FixState) (he : s.err = none)
    (h : BotComment.championMergePing ∉ secondaryNeeded s) :
    addBotComments s = s := by
  unfold addBotComments
  rw [he]
  simp only [Option.isSome_none, Bool.false_eq_true, if_false]
  rw [if_neg h]
  have hempty : secondaryNeeded s = ∅ := by
    rw [Finset.eq_empty_iff_forall_not_mem]
    intro k hk
    have := secondaryNeeded_subset s hk
    rw [Finset.mem_singleton] at this
    exact h (this ▸ hk)
  rw [if_pos hempty]

/-- `addBotComments` adds the champion ping comment when needed; note it
does not set `happened`. -/
theorem addBotComments_ping (s : FixState) (he : s.err = none)
    (h : BotComment.championMergePing ∈ secondaryNeeded s) :
    addBotComments s =
      { s with acts := s.acts ++ [Action.addCommentToPullRequest
          (CommentRec.championPing s.pr.view s.pr.champions)] } := by
  unfold addBotComments
  rw [he]
  simp only [Option.isSome_none, Bool.false_eq_true, if_false]
  rw [if_pos h]
  have hempty : (secondaryNeeded s).erase BotComment.championMergePing = ∅ := by
    rw [Finset.eq_empty_iff_forall_not_mem]
    intro k hk
    rw [Finset.mem_erase] at hk
    have := secondaryNeeded_subset s hk.2
    rw [Finset.mem_singleton] at this
    exact hk.1 this
  rw [if_pos hempty]
  dsimp only [FixState.emit]
  rw [he]

/-- `commentStep` skips the primary comment pass for a closed pull request
that already has bot comments. -/
theorem commentStep_skip (s : FixState) (he : s.err = none)
    (hc : s.pr.state = "closed") (hb : s.current.botComments ≠ ∅) :
    commentStep s = s := by
  unfold commentStep
  rw [he]
  simp only [Option.isSome_none, Bool.false_eq_true, if_false]
  rw [if_pos ⟨hc, hb⟩]

/-- The status of a freshly created issue is always Needs Triage. -/
theorem madeIssueCurrent_jiraStatus (key : String) (s : FixState) :
    (madeIssueCurrent key s).jiraStatus = some "Needs Triage" := by
  unfold madeIssueCurrent
  cases s.desired.jiraEpic <;> rfl

/-- `makeJiraIssue` fails fast when no project is desired. -/
theorem makeJiraIssue_assertProject (keyNum : Nat) (s : FixState)
    (he : s.err = none) (hp : s.desired.jiraProject = none) :
    makeJiraIssue keyNum s =
      { s with err := some "assert failed: desired.jira_project is not None" } := by
  unfold makeJiraIssue
  rw [he]
  simp only [Option.isSome_none, Bool.false_eq_true, if_false]
  rw [hp]

/-- `makeJiraIssue` when the desired initial status is the creation status:
create the issue, adopt its fields, no transition. -/
theorem makeJiraIssue_noTrans (keyNum : Nat) (s : FixState) (proj : String)
    (he : s.err = none) (hp : s.desired.jiraProject = some proj)
    (hini : s.desired.jiraInitialStatus = some "Needs Triage") :
    makeJiraIssue keyNum s =
      { s with
        desired := { s.desired with jiraExtraFields := makeIssueExtra s },
        acts := s.acts ++ [Action.createOsprIssue (mkJiraKey proj keyNum) s.pr.htmlUrl proj s.desired.jiraTitle s.desired.jiraDescription s.desired.jiraLabels s.pr.userName s.pr.institution (makeIssueExtra s)],
        current := madeIssueCurrent (mkJiraKey proj keyNum) s,
        happened := true } := by
  unfold makeJiraIssue
  rw [he]
  simp only [Option.isSome_none, Bool.false_eq_true, if_false]
  rw [hp]
  dsimp only [FixState.emit]
  rw [madeIssueCurrent_jiraStatus, hini]
  rw [if_neg (fun hn => hn rfl)]

/-- `makeJiraIssue` when the desired initial status differs from the
creation status: create the issue, adopt its fields, then transition. -/
theorem makeJiraIssue_trans (keyNum : Nat) (s : FixState) (proj ini : String)
    (he : s.err = none) (hp : s.desired.jiraProject = some proj)
    (hini : s.desired.jiraInitialStatus = some ini)
    (hne : ini ≠ "Needs Triage") :
    makeJiraIssue keyNum s =
      { s with
        desired := { s.desired with jiraExtraFields := makeIssueExtra s },
        acts := s.acts ++ [Action.createOsprIssue (mkJiraKey proj keyNum) s.pr.htmlUrl proj s.desired.jiraTitle s.desired.jiraDescription s.desired.jiraLabels s.pr.userName s.pr.institution (makeIssueExtra s), Action.transitionJiraIssue (mkJiraKey proj keyNum) ini],
        current := { madeIssueCurrent (mkJiraKey proj keyNum) s with jiraStatus := some ini },
        happened := true } := by
  unfold makeJiraIssue
  rw [he]
  simp only [Option.isSome_none, Bool.false_eq_true, if_false]
  rw [hp]
  dsimp only [FixState.emit]
  rw [madeIssueCurrent_jiraStatus, hini]
  rw [if_pos (fun hh => hne (Option.some_inj.mp hh))]
  dsimp only [FixState.emit]
  simp only [List.append_assoc, List.cons_append, List.nil_append]

/-- `commentStep` runs the primary comment pass otherwise. -/
theorem commentStep_run (s : FixState) (he : s.err = none)
    (h : ¬(s.pr.state = "closed" ∧ s.current.botComments ≠ ∅)) :
    commentStep s = fixBotComment s := by
  unfold commentStep
  rw [he]
  simp only [Option.isSome_none, Bool.false_eq_true, if_false]
  rw [if_neg h]

/-- `transitionCheck` when a forcing status differs but the ticket id is
absent (unreachable in `fix`, which guards on the ticket id). -/
theorem transitionCheck_noId (s : FixState) (st : String)
    (hd : s.desired.jiraStatus = some st)
    (hne : some st ≠ s.current.jiraStatus)
    (hid : s.current.jiraId = none) :
    transitionCheck s = s := by
  unfold transitionCheck
  rw [hd]
  dsimp only
  rw [if_pos hne]
  conv_lhs => rw [hid]

/-- `transitionCheck` appends at most one transition action, and leaves the
snapshot, the error flag, the ticket id, the mentioned id, the bot comment
set, the stored comment text and the blob alone. -/
theorem transitionCheck_spec (s : FixState) :
    ((transitionCheck s).acts = s.acts ∨
      ∃ jid st, (transitionCheck s).acts =
        s.acts ++ [Action.transitionJiraIssue jid st]) ∧
    (transitionCheck s).pr = s.pr ∧
    (transitionCheck s).err = s.err ∧
    (transitionCheck s).current.jiraId = s.current.jiraId ∧
    (transitionCheck s).current.jiraMentionedId = s.current.jiraMentionedId ∧
    (transitionCheck s).current.botComments = s.current.botComments ∧
    (transitionCheck s).current.botComment0Text = s.current.botComment0Text ∧
    (transitionCheck s).lastSeenState = s.lastSeenState := by
  rcases hd : s.desired.jiraStatus with _ | st
  · rw [transitionCheck_noop s (Or.inl hd)]
    exact ⟨Or.inl rfl, rfl, rfl, rfl, rfl, rfl, rfl, rfl⟩
  · by_cases hne : some st = s.current.jiraStatus
    · rw [transitionCheck_noop s (Or.inr (by rw [hd, hne]))]
      exact ⟨Or.inl rfl, rfl, rfl, rfl, rfl, rfl, rfl, rfl⟩
    · rcases Option.eq_none_or_eq_some s.current.jiraId with hid | ⟨jid, hid⟩
      · rw [transitionCheck_noId s st hd hne hid]
        exact ⟨Or.inl rfl, rfl, rfl, rfl, rfl, rfl, rfl, rfl⟩
      · rw [transitionCheck_transition s st jid hd hne hid]
        exact ⟨Or.inr ⟨jid, st, rfl⟩, rfl, rfl, rfl, rfl, rfl, rfl, rfl⟩

/-- `authorActedOverride` only touches the desired forcing status. -/
theorem authorActedOverride_frame (s : FixState) :
    (authorActedOverride s).pr = s.pr ∧
    (authorActedOverride s).err = s.err ∧
    (authorActedOverride s).acts = s.acts ∧
    (authorActedOverride s).current = s.current ∧
    (authorActedOverride s).lastSeenState = s.lastSeenState := by
  unfold authorActedOverride
  split
  · exact ⟨rfl, rfl, rfl, rfl, rfl⟩
  · exact ⟨rfl, rfl, rfl, rfl, rfl⟩

/-- `fixJiraInformation` with updates needed but no ticket id: the assert
fires. -/
theorem fixJiraInformation_assert (ls : LabelSets) (s : FixState)
    (he : s.err = none)
    (h : jiraUpdateKwargs ls s ≠ ({} : UpdateKwargs))
    (hid : s.current.jiraId = none) :
    fixJiraInformation ls s =
      { s with err := some "assert failed: current.jira_id is not None" } := by
  unfold fixJiraInformation
  rw [he]
  simp only [Option.isSome_none, Bool.false_eq_true, if_false]
  rw [if_neg h]
  conv_lhs => rw [hid]

/-- `fixJiraInformation` on an error state is the identity. -/
theorem fixJiraInformation_err (ls : LabelSets) (s : FixState)
    (he : s.err.isSome = true) : fixJiraInformation ls s = s := by
  unfold fixJiraInformation
  rw [if_pos he]

/-- `fixJiraInformation` appends at most one update action, carrying the
kwargs computed from its input state, and leaves the snapshot, the ticket
id, the mentioned id, the bot comment set, the stored comment text and the
blob alone. -/
theorem fixJiraInformation_spec (ls : LabelSets) (s : FixState) :
    ((fixJiraInformation ls s).acts = s.acts ∨
      ∃ jid, s.current.jiraId = some jid ∧
        (fixJiraInformation ls s).acts =
          s.acts ++ [Action.updateJiraIssue jid (jiraUpdateKwargs ls s)]) ∧
    (fixJiraInformation ls s).pr = s.pr ∧
    (fixJiraInformation ls s).current.jiraId = s.current.jiraId ∧
    (fixJiraInformation ls s).current.jiraMentionedId = s.current.jiraMentionedId ∧
    (fixJiraInformation ls s).current.botComments = s.current.botComments ∧
    (fixJiraInformation ls s).current.botComment0Text = s.current.botComment0Text ∧
    (fixJiraInformation ls s).lastSeenState = s.lastSeenState := by
  rcases he : s.err with _ | msg
  swap
  · rw [fixJiraInformation_err ls s (by rw [he]; rfl)]
    exact ⟨Or.inl rfl, rfl, rfl, rfl, rfl, rfl, rfl⟩
  by_cases hkw : jiraUpdateKwargs ls s = ({} : UpdateKwargs)
  · rw [fixJiraInformation_noop ls s he hkw]
    exact ⟨Or.inl rfl, rfl, rfl, rfl, rfl, rfl, rfl⟩
  · rcases Option.eq_none_or_eq_some s.current.jiraId with hid | ⟨jid, hid⟩
    · rw [fixJiraInformation_assert ls s he hkw hid]
      exact ⟨Or.inl rfl, rfl, rfl, rfl, rfl, rfl, rfl⟩
    · rw [fixJiraInformation_update ls s jid he hkw hid]
      exact ⟨Or.inr ⟨jid, hid, rfl⟩, rfl, rfl, rfl, rfl, rfl, rfl⟩

/-- `fixGithubLabels` appends at most one relabel action and leaves
everything but the action list and `happened` alone. -/
theorem fixGithubLabels_spec (ls : LabelSets) (s : FixState) :
    ((fixGithubLabels ls s).acts = s.acts ∨
      (fixGithubLabels ls s).acts =
        s.acts ++ [Action.updateLabelsOnPullRequest (githubLabelsTarget ls s)]) ∧
    (fixGithubLabels ls s).pr = s.pr ∧
    (fixGithubLabels ls s).err = s.err ∧
    (fixGithubLabels ls s).current = s.current ∧
    (fixGithubLabels ls s).desired = s.desired ∧
    (fixGithubLabels ls s).lastSeenState = s.lastSeenState := by
  rcases he : s.err with _ | msg
  swap
  · unfold fixGithubLabels
    rw [if_pos (by rw [he]; rfl)]
    exact ⟨Or.inl rfl, rfl, he, rfl, rfl, rfl⟩
  by_cases h : githubLabelsTarget ls s = s.current.githubLabels
  · rw [fixGithubLabels_noop ls s he h]
    exact ⟨Or.inl rfl, rfl, he, rfl, rfl, rfl⟩
  · rw [fixGithubLabels_update ls s he h]
    exact ⟨Or.inr rfl, rfl, he, rfl, rfl, rfl⟩

/-- `fixBotComment` appends at most one comment action (an edit or a
creation of the rebuilt primary body) and never touches the current
info. -/
theorem fixBotComment_spec (s : FixState) :
    ((fixBotComment s).acts = s.acts ∨
      (fixBotComment s).acts =
        s.acts ++ [Action.editCommentOnPullRequest (builtPrimary s)] ∨
      (fixBotComment s).acts =
        s.acts ++ [Action.addCommentToPullRequest (builtPrimary s)]) ∧
    (fixBotComment s).pr = s.pr ∧
    (fixBotComment s).current = s.current ∧
    (fixBotComment s).lastSeenState = s.lastSeenState := by
  rcases he : s.err with _ | msg
  swap
  · unfold fixBotComment
    rw [if_pos (by rw [he]; rfl)]
    exact ⟨Or.inl rfl, rfl, rfl, rfl⟩
  by_cases hq : some (builtPrimary s) = s.current.botComment0Text
  · rw [fixBotComment_noop s he hq]
    exact ⟨Or.inl rfl, rfl, rfl, rfl⟩
  · by_cases hbc : s.current.botComments = ∅
    · rw [fixBotComment_add s he hq hbc]
      exact ⟨Or.inr (Or.inr rfl), rfl, rfl, rfl⟩
    · rw [fixBotComment_edit s he hq hbc]
      exact ⟨Or.inr (Or.inl rfl), rfl, rfl, rfl⟩

/-- `addBotComments` appends at most one champion ping comment and never
touches the current info. -/
theorem addBotComments_spec (s : FixState) :
    ((addBotComments s).acts = s.acts ∨
      (addBotComments s).acts = s.acts ++ [Action.addCommentToPullRequest
        (CommentRec.championPing s.pr.view s.pr.champions)]) ∧
    (addBotComments s).pr = s.pr ∧
    (addBotComments s).current = s.current ∧
    (addBotComments s).lastSeenState = s.lastSeenState := by
  rcases he : s.err with _ | msg
  swap
  · unfold addBotComments
    rw [if_pos (by rw [he]; rfl)]
    exact ⟨Or.inl rfl, rfl, rfl, rfl⟩
  by_cases h : BotComment.championMergePing ∈ secondaryNeeded s
  · rw [addBotComments_ping s he h]
    exact ⟨Or.inr rfl, rfl, rfl, rfl⟩
  · rw [addBotComments_noop s he h]
    exact ⟨Or.inl rfl, rfl, rfl, rfl⟩

/-- Without the creation flag, `createOrAdoptStep` at most materialises the
epic object in the current info. -/
theorem createOrAdoptStep_noCreate (keyNum : Nat) (s : FixState)
    (he : s.err = none) (hm : s.makeIssue = false) :
    ∃ ep, createOrAdoptStep keyNum s =
      { s with current := { s.current with jiraEpic := ep } } := by
  rcases hd : s.desired.jiraEpic with _ | e
  · rw [createOrAdoptStep_noEpic keyNum s he hm hd]
    exact ⟨s.current.jiraEpic, rfl⟩
  · by_cases hk : s.current.jiraEpicKey = some e.key
    · rw [createOrAdoptStep_adopt keyNum s e he hm hd hk]
      exact ⟨some e, rfl⟩
    · rw [createOrAdoptStep_epicMismatch keyNum s e he hm hd hk]
      exact ⟨s.current.jiraEpic, rfl⟩

/-- The actions `jiraStep` can append are ticket transitions and ticket
field updates only, and it leaves the snapshot, the ticket id, the
mentioned id, the bot comment set, the stored comment text and the blob
alone. -/
theorem jiraStep_spec (ls : LabelSets) (s : FixState) :
    (∃ tail, (jiraStep ls s).acts = s.acts ++ tail ∧
      ∀ a ∈ tail, a.isDelete = false ∧ a.isCreate = false ∧
        a.isEdit = false ∧ a.isPrimaryAdd = false) ∧
    (jiraStep ls s).pr = s.pr ∧
    (jiraStep ls s).current.jiraId = s.current.jiraId ∧
    (jiraStep ls s).current.jiraMentionedId = s.current.jiraMentionedId ∧
    (jiraStep ls s).current.botComments = s.current.botComments ∧
    (jiraStep ls s).current.botComment0Text = s.current.botComment0Text ∧
    (jiraStep ls s).lastSeenState = s.lastSeenState := by
  rcases he : s.err with _ | msg
  swap
  · unfold jiraStep
    rw [if_pos (by rw [he]; rfl)]
    exact ⟨⟨[], by simp, by simp⟩, rfl, rfl, rfl, rfl, rfl, rfl⟩
  rcases ht : optTruthy s.current.jiraId with _ | _
  · rw [jiraStep_noTicket ls s he ht]
    exact ⟨⟨[], by simp, by simp⟩, rfl, rfl, rfl, rfl, rfl, rfl⟩
  have hst : statusTransitionStep s = transitionCheck (authorActedOverride s) := rfl
  rw [jiraStep_ticket ls s he ht, hst]
  have hA := authorActedOverride_frame s
  have hB := transitionCheck_spec (authorActedOverride s)
  have hC := fixJiraInformation_spec ls (transitionCheck (authorActedOverride s))
  obtain ⟨hApr, hAerr, hAacts, hAcur, hAlast⟩ := hA
  obtain ⟨hBacts, hBpr, hBerr, hBid, hBm, hBbc, hBc0, hBlast⟩ := hB
  obtain ⟨hCacts, hCpr, hCid, hCm, hCbc, hCc0, hClast⟩ := hC
  constructor
  · rcases hBacts with hBa | ⟨jid, st, hBa⟩ <;>
      rcases hCacts with hCa | ⟨jid2, hJ, hCa⟩
    · exact ⟨[], by rw [hCa, hBa, hAacts]; simp, by simp⟩
    · refine ⟨[Action.updateJiraIssue jid2 (jiraUpdateKwargs ls
        (transitionCheck (authorActedOverride s)))], ?_, ?_⟩
      · rw [hCa, hBa, hAacts]
      · intro a ha
        rw [List.mem_singleton] at ha
        subst ha
        exact ⟨rfl, rfl, rfl, rfl⟩
    · refine ⟨[Action.transitionJiraIssue jid st], ?_, ?_⟩
      · rw [hCa, hBa, hAacts]
      · intro a ha
        rw [List.mem_singleton] at ha
        subst ha
        exact ⟨rfl, rfl, rfl, rfl⟩
    · refine ⟨[Action.transitionJiraIssue jid st,
        Action.updateJiraIssue jid2 (jiraUpdateKwargs ls
          (transitionCheck (authorActedOverride s)))], ?_, ?_⟩
      · rw [hCa, hBa, hAacts]
        simp
      · intro a ha
        rcases List.mem_cons.mp ha with ha | ha
        · subst ha
          exact ⟨rfl, rfl, rfl, rfl⟩
        · rw [List.mem_singleton] at ha
          subst ha
          exact ⟨rfl, rfl, rfl, rfl⟩
  refine ⟨by rw [hCpr, hBpr, hApr], ?_, ?_, ?_, ?_, ?_⟩
  · rw [hCid, hBid, hAcur]
  · rw [hCm, hBm, hAcur]
  · rw [hCbc, hBbc, hAcur]
  · rw [hCc0, hBc0, hAcur]
  · rw [hClast, hBlast, hAlast]

/-- `commentStep` behaves like `fixBotComment` or skips it entirely. -/
theorem commentStep_spec (s : FixState) :
    ((commentStep s).acts = s.acts ∨
      (commentStep s).acts =
        s.acts ++ [Action.editCommentOnPullRequest (builtPrimary s)] ∨
      (commentStep s).acts =
        s.acts ++ [Action.addCommentToPullRequest (builtPrimary s)]) ∧
    (commentStep s).pr = s.pr ∧
    (commentStep s).current = s.current ∧
    (commentStep s).lastSeenState = s.lastSeenState := by
  rcases he : s.err with _ | msg
  swap
  · unfold commentStep
    rw [if_pos (by rw [he]; rfl)]
    exact ⟨Or.inl rfl, rfl, rfl, rfl⟩
  by_cases hskip : s.pr.state = "closed" ∧ s.current.botComments ≠ ∅
  · rw [commentStep_skip s he hskip.1 hskip.2]
    exact ⟨Or.inl rfl, rfl, rfl, rfl⟩
  · rw [commentStep_run s he hskip]
    exact fixBotComment_spec s

/-- C5: when a ticket is linked, its mentioned project differs from the
desired project, but its actual project (the prefix of its actual id)
equals the desired project, `fix` issues no ticket deletion and no ticket
creation, and the existing ticket id stays the canonical one. -/
theorem ticket_relocation_adopted (ls : LabelSets) (keyNum : Nat)
    (pr : PrSnapshot) (cur : PrCurrentInfo) (des : PrDesiredInfo)
    (a m : String)
    (h1 : cur.jiraId = some a) (h2 : cur.jiraMentionedId = some m)
    (h3 : des.jiraProject = some (projectOf a))
    (h4 : des.jiraProject ≠ some (projectOf m)) :
    (∀ ac ∈ (fixRun ls keyNum pr cur des).acts,
      ac.isDelete = false ∧ ac.isCreate = false) ∧
    (fixRun ls keyNum pr cur des).current.jiraId = some a := by
  have e1 : identityStep (initState pr cur des) = initState pr cur des :=
    identityStep_keep _ a m h1 h2 (Or.inr h3)
  have e2 : makeIssueFlagStep (initState pr cur des) = initState pr cur des :=
    makeIssueFlagStep_skip _ rfl (fun hc => Option.noConfusion (h2.symm.trans hc.2))
  obtain ⟨ep, e3⟩ := createOrAdoptStep_noCreate keyNum (initState pr cur des) rfl rfl
  unfold fixRun
  rw [e1, e2, e3, draftStep_eq _ rfl]
  obtain ⟨⟨tailJ, hJacts, hJP⟩, hJpr, hJid, hJm, hJbc, hJc0, hJl⟩ :=
    jiraStep_spec ls { { initState pr cur des with current := { (initState pr cur des).current with jiraEpic := ep } } with lastSeenState := { (initState pr cur des).lastSeenState with draft := some (initState pr cur des).pr.isDraft } }
  obtain ⟨hGacts, hGpr, hGerr, hGcur, hGdes, hGl⟩ :=
    fixGithubLabels_spec ls (jiraStep ls { { initState pr cur des with current := { (initState pr cur des).current with jiraEpic := ep } } with lastSeenState := { (initState pr cur des).lastSeenState with draft := some (initState pr cur des).pr.isDraft } })
  obtain ⟨hCacts, hCpr, hCcur, hCl⟩ :=
    commentStep_spec (fixGithubLabels ls (jiraStep ls { { initState pr cur des with current := { (initState pr cur des).current with jiraEpic := ep } } with lastSeenState := { (initState pr cur des).lastSeenState with draft := some (initState pr cur des).pr.isDraft } }))
  obtain ⟨hAacts, hApr, hAcur, hAl⟩ :=
    addBotComments_spec (commentStep (fixGithubLabels ls (jiraStep ls { { initState pr cur des with current := { (initState pr cur des).current with jiraEpic := ep } } with lastSeenState := { (initState pr cur des).lastSeenState with draft := some (initState pr cur des).pr.isDraft } })))
  constructor
  · have hbase : ∀ ac ∈ tailJ, ac.isDelete = false ∧ ac.isCreate = false :=
      fun ac hac => ⟨(hJP ac hac).1, (hJP ac hac).2.1⟩
    have hJ : ∀ ac ∈ (jiraStep ls { { initState pr cur des with current := { (initState pr cur des).current with jiraEpic := ep } } with lastSeenState := { (initState pr cur des).lastSeenState with draft := some (initState pr cur des).pr.isDraft } }).acts,
        ac.isDelete = false ∧ ac.isCreate = false := by
      intro ac hac
      rw [hJacts] at hac
      rcases List.mem_append.mp hac with hac | hac
      · rw [List.mem_singleton.mp hac]
        exact ⟨rfl, rfl⟩
      · exact hbase ac hac
    have hG : ∀ ac ∈ (fixGithubLabels ls (jiraStep ls { { initState pr cur des with current := { (initState pr cur des).current with jiraEpic := ep } } with lastSeenState := { (initState pr cur des).lastSeenState with draft := some (initState pr cur des).pr.isDraft } })).acts,
        ac.isDelete = false ∧ ac.isCreate = false := by
      intro ac hac
      rcases hGacts with hg | hg <;> rw [hg] at hac
      · exact hJ ac hac
      · rcases List.mem_append.mp hac with hac | hac
        · exact hJ ac hac
        · rw [List.mem_singleton.mp hac]
          exact ⟨rfl, rfl⟩
    have hC : ∀ ac ∈ (commentStep (fixGithubLabels ls (jiraStep ls { { initState pr cur des with current := { (initState pr cur des).current with jiraEpic := ep } } with lastSeenState := { (initState pr cur des).lastSeenState with draft := some (initState pr cur des).pr.isDraft } }))).acts,
        ac.isDelete = false ∧ ac.isCreate = false := by
      intro ac hac
      rcases hCacts with hg | hg | hg <;> rw [hg] at hac
      · exact hG ac hac
      all_goals
        rcases List.mem_append.mp hac with hac | hac
        · exact hG ac hac
        · rw [List.mem_singleton.mp hac]
          exact ⟨rfl, rfl⟩
    intro ac hac
    rcases hAacts with hg | hg <;> rw [hg] at hac
    · exact hC ac hac
    · rcases List.mem_append.mp hac with hac | hac
      · exact hC ac hac
      · rw [List.mem_singleton.mp hac]
        exact ⟨rfl, rfl⟩
  · rw [hAcur, hCcur, hGcur, hJid]
    exact h1

/-- C5 witness: a blended pull request whose comment mentions OSPR-1, while
the ticket was manually moved to BLENDED-42, the desired project. -/
theorem ticket_relocation_adopted_witness :
    (∀ ac ∈ (fixRun testLs 9000 testPr relocCur relocDes).acts,
      ac.isDelete = false ∧ ac.isCreate = false) ∧
    (fixRun testLs 9000 testPr relocCur relocDes).current.jiraId =
      some "BLENDED-42" :=
  ticket_relocation_adopted testLs 9000 testPr relocCur relocDes
    "BLENDED-42" "OSPR-1" (by decide) (by decide) (by decide) (by decide)

/-- `identityStep` appends at most one ticket deletion and leaves the
snapshot, the mentioned id, the bot comment set, the stored comment text
and the blob alone. -/
theorem identityStep_spec (s : FixState) :
    ((identityStep s).acts = s.acts ∨
      ∃ jid, (identityStep s).acts = s.acts ++ [Action.deleteJiraIssue jid]) ∧
    (identityStep s).pr = s.pr ∧
    (identityStep s).current.jiraMentionedId = s.current.jiraMentionedId ∧
    (identityStep s).current.botComments = s.current.botComments ∧
    (identityStep s).current.botComment0Text = s.current.botComment0Text ∧
    (identityStep s).lastSeenState = s.lastSeenState ∧
    (identityStep s).desired = s.desired := by
  rcases Option.eq_none_or_eq_some s.current.jiraId with hid | ⟨jid, hid⟩
  · rw [identityStep_noId s hid]
    exact ⟨Or.inl rfl, rfl, rfl, rfl, rfl, rfl, rfl⟩
  rcases Option.eq_none_or_eq_some s.current.jiraMentionedId with hm | ⟨m, hm⟩
  · have : identityStep s =
        { s with err := some "assert failed: jira_mentioned_id is not None" } := by
      unfold identityStep
      rw [hid, hm]
    rw [this]
    exact ⟨Or.inl rfl, rfl, rfl, rfl, rfl, rfl, rfl⟩
  by_cases hmp : s.desired.jiraProject = some (projectOf m)
  · rw [identityStep_keep s jid m hid hm (Or.inl hmp)]
    exact ⟨Or.inl rfl, rfl, rfl, rfl, rfl, rfl, rfl⟩
  by_cases hap : s.desired.jiraProject = some (projectOf jid)
  · rw [identityStep_keep s jid m hid hm (Or.inr hap)]
    exact ⟨Or.inl rfl, rfl, rfl, rfl, rfl, rfl, rfl⟩
  · rw [identityStep_delete s jid m hid hm hmp hap]
    exact ⟨Or.inr ⟨jid, rfl⟩, rfl, rfl, rfl, rfl, rfl, rfl⟩

/-- `makeIssueFlagStep` only possibly sets the creation flag. -/
theorem makeIssueFlagStep_spec (s : FixState) :
    (makeIssueFlagStep s).acts = s.acts ∧
    (makeIssueFlagStep s).pr = s.pr ∧
    (makeIssueFlagStep s).current = s.current ∧
    (makeIssueFlagStep s).lastSeenState = s.lastSeenState ∧
    (makeIssueFlagStep s).desired = s.desired ∧
    (makeIssueFlagStep s).err = s.err := by
  unfold makeIssueFlagStep
  split
  · exact ⟨rfl, rfl, rfl, rfl, rfl, rfl⟩
  split
  · exact ⟨rfl, rfl, rfl, rfl, rfl, rfl⟩
  · exact ⟨rfl, rfl, rfl, rfl, rfl, rfl⟩

/-- `_make_jira_issue` appends a creation and at most one transition, and
leaves the snapshot, the bot comment set, the stored comment text and the
blob alone. -/
theorem makeJiraIssue_spec (keyNum : Nat) (s : FixState) :
    (∃ tail, (makeJiraIssue keyNum s).acts = s.acts ++ tail ∧
      ∀ a ∈ tail, a.isDelete = false ∧ a.isEdit = false ∧
        a.isPrimaryAdd = false ∧ a.isUpdate = false) ∧
    (makeJiraIssue keyNum s).pr = s.pr ∧
    (makeJiraIssue keyNum s).current.botComments = s.current.botComments ∧
    (makeJiraIssue keyNum s).current.botComment0Text = s.current.botComment0Text ∧
    (makeJiraIssue keyNum s).lastSeenState = s.lastSeenState := by
  rcases he : s.err with _ | msg
  swap
  · have : makeJiraIssue keyNum s = s := by
      unfold makeJiraIssue
      rw [if_pos (by rw [he]; rfl)]
    rw [this]
    exact ⟨⟨[], by simp, by simp⟩, rfl, rfl, rfl, rfl⟩
  rcases Option.eq_none_or_eq_some s.desired.jiraProject with hp | ⟨proj, hp⟩
  · rw [makeJiraIssue_assertProject keyNum s he hp]
    exact ⟨⟨[], by simp, by simp⟩, rfl, rfl, rfl, rfl⟩
  rcases Option.eq_none_or_eq_some s.desired.jiraInitialStatus with hini | ⟨ini, hini⟩
  · have : makeJiraIssue keyNum s =
        { { { s with desired := { s.desired with jiraExtraFields := makeIssueExtra s } }.emit (Action.createOsprIssue (mkJiraKey proj keyNum) s.pr.htmlUrl proj s.desired.jiraTitle s.desired.jiraDescription s.desired.jiraLabels s.pr.userName s.pr.institution (makeIssueExtra s)) with current := madeIssueCurrent (mkJiraKey proj keyNum) s } with err := some "assert failed: desired.jira_initial_status is not None" } := by
      unfold makeJiraIssue
      rw [he]
      simp only [Option.isSome_none, Bool.false_eq_true, if_false]
      rw [hp]
      dsimp only [FixState.emit]
      rw [madeIssueCurrent_jiraStatus, hini]
      rw [if_pos (fun hh => Option.noConfusion hh)]
    rw [this]
    refine ⟨⟨[Action.createOsprIssue (mkJiraKey proj keyNum) s.pr.htmlUrl proj s.desired.jiraTitle s.desired.jiraDescription s.desired.jiraLabels s.pr.userName s.pr.institution (makeIssueExtra s)], by simp [FixState.emit], ?_⟩, rfl, ?_, ?_, rfl⟩
    · intro a ha
      rw [List.mem_singleton] at ha
      subst ha
      exact ⟨rfl, rfl, rfl, rfl⟩
    · unfold madeIssueCurrent
      cases s.desired.jiraEpic <;> rfl
    · unfold madeIssueCurrent
      cases s.desired.jiraEpic <;> rfl
  by_cases hnt : ini = "Needs Triage"
  · subst hnt
    rw [makeJiraIssue_noTrans keyNum s proj he hp hini]
    refine ⟨⟨[Action.createOsprIssue (mkJiraKey proj keyNum) s.pr.htmlUrl proj s.desired.jiraTitle s.desired.jiraDescription s.desired.jiraLabels s.pr.userName s.pr.institution (makeIssueExtra s)], rfl, ?_⟩, rfl, ?_, ?_, rfl⟩
    · intro a ha
      rw [List.mem_singleton] at ha
      subst ha
      exact ⟨rfl, rfl, rfl, rfl⟩
    · unfold madeIssueCurrent
      cases s.desired.jiraEpic <;> rfl
    · unfold madeIssueCurrent
      cases s.desired.jiraEpic <;> rfl
  · rw [makeJiraIssue_trans keyNum s proj ini he hp hini hnt]
    refine ⟨⟨[Action.createOsprIssue (mkJiraKey proj keyNum) s.pr.htmlUrl proj s.desired.jiraTitle s.desired.jiraDescription s.desired.jiraLabels s.pr.userName s.pr.institution (makeIssueExtra s), Action.transitionJiraIssue (mkJiraKey proj keyNum) ini], rfl, ?_⟩, rfl, ?_, ?_, rfl⟩
    · intro a ha
      rcases List.mem_cons.mp ha with ha | ha
      · subst ha
        exact ⟨rfl, rfl, rfl, rfl⟩
      · rw [List.mem_singleton] at ha
        subst ha
        exact ⟨rfl, rfl, rfl, rfl⟩
    · unfold madeIssueCurrent
      cases s.desired.jiraEpic <;> rfl
    · unfold madeIssueCurrent
      cases s.desired.jiraEpic <;> rfl

/-- `createOrAdoptStep` appends creations and transitions only, and leaves
the snapshot, the bot comment set, the stored comment text and the blob
alone. -/
theorem createOrAdoptStep_spec (keyNum : Nat) (s : FixState) :
    (∃ tail, (createOrAdoptStep keyNum s).acts = s.acts ++ tail ∧
      ∀ a ∈ tail, a.isDelete = false ∧ a.isEdit = false ∧
        a.isPrimaryAdd = false ∧ a.isUpdate = false) ∧
    (createOrAdoptStep keyNum s).pr = s.pr ∧
    (createOrAdoptStep keyNum s).current.botComments = s.current.botComments ∧
    (createOrAdoptStep keyNum s).current.botComment0Text = s.current.botComment0Text ∧
    (createOrAdoptStep keyNum s).lastSeenState = s.lastSeenState := by
  rcases he : s.err with _ | msg
  swap
  · have : createOrAdoptStep keyNum s = s := by
      unfold createOrAdoptStep
      rw [if_pos (by rw [he]; rfl)]
    rw [this]
    exact ⟨⟨[], by simp, by simp⟩, rfl, rfl, rfl, rfl⟩
  rcases hmk : s.makeIssue with _ | _
  · obtain ⟨ep, hca⟩ := createOrAdoptStep_noCreate keyNum s he hmk
    rw [hca]
    exact ⟨⟨[], by simp, by simp⟩, rfl, rfl, rfl, rfl⟩
  · rw [createOrAdoptStep_create keyNum s he hmk]
    exact makeJiraIssue_spec keyNum s

/-- `draftStep` only records the draft flag in the blob. -/
theorem draftStep_spec (s : FixState) :
    (draftStep s).acts = s.acts ∧
    (draftStep s).pr = s.pr ∧
    (draftStep s).current = s.current ∧
    (draftStep s).desired = s.desired ∧
    (draftStep s).err = s.err := by
  unfold draftStep
  split
  · exact ⟨rfl, rfl, rfl, rfl, rfl⟩
  · exact ⟨rfl, rfl, rfl, rfl, rfl⟩

/-- `commentStep` issues nothing for a closed pull request that already
has bot comments, even on an error state. -/
theorem commentStep_closed (s : FixState)
    (hclosed : s.pr.state = "closed") (hbc : s.current.botComments ≠ ∅) :
    (commentStep s).acts = s.acts := by
  rcases he : s.err with _ | msg
  · rw [commentStep_skip s he hclosed hbc]
  · unfold commentStep
    rw [if_pos (by rw [he]; rfl)]

/-- C8: when the pull request snapshot is closed and the current state has
at least one bot comment, a `fix` run performs no edit of the primary
comment and no creation of a primary comment — the primary-comment
reconciliation is skipped entirely, whatever the desired state wants. -/
theorem closed_pr_comment_frame (ls : LabelSets) (keyNum : Nat)
    (pr : PrSnapshot) (cur : PrCurrentInfo) (des : PrDesiredInfo)
    (hclosed : pr.state = "closed") (hbc : cur.botComments ≠ ∅) :
    ∀ ac ∈ (fixRun ls keyNum pr cur des).acts,
      ac.isEdit = false ∧ ac.isPrimaryAdd = false := by
  obtain ⟨hIacts, hIpr, hIm, hIbc, hIc0, hIl, hId⟩ :=
    identityStep_spec (initState pr cur des)
  obtain ⟨hFacts, hFpr, hFcur, hFl, hFd, hFe⟩ :=
    makeIssueFlagStep_spec (identityStep (initState pr cur des))
  obtain ⟨⟨tailC, hCacts, hCP⟩, hCpr, hCbc, hCc0, hCl⟩ :=
    createOrAdoptStep_spec keyNum
      (makeIssueFlagStep (identityStep (initState pr cur des)))
  obtain ⟨hDacts, hDpr, hDcur, hDdes, hDe⟩ :=
    draftStep_spec (createOrAdoptStep keyNum
      (makeIssueFlagStep (identityStep (initState pr cur des))))
  obtain ⟨⟨tailJ, hJacts, hJP⟩, hJpr, hJid, hJm, hJbc, hJc0, hJl⟩ :=
    jiraStep_spec ls (draftStep (createOrAdoptStep keyNum
      (makeIssueFlagStep (identityStep (initState pr cur des)))))
  obtain ⟨hGacts, hGpr, hGerr, hGcur, hGdes, hGl⟩ :=
    fixGithubLabels_spec ls (jiraStep ls (draftStep (createOrAdoptStep keyNum
      (makeIssueFlagStep (identityStep (initState pr cur des))))))
  have hpr6 : (fixGithubLabels ls (jiraStep ls (draftStep (createOrAdoptStep keyNum
      (makeIssueFlagStep (identityStep (initState pr cur des))))))).pr = pr := by
    rw [hGpr, hJpr, hDpr, hCpr, hFpr, hIpr]
    rfl
  have hbc6 : (fixGithubLabels ls (jiraStep ls (draftStep (createOrAdoptStep keyNum
      (makeIssueFlagStep (identityStep (initState pr cur des))))))).current.botComments =
      cur.botComments := by
    rw [hGcur, hJbc, hDcur, hCbc, hFcur, hIbc]
    rfl
  have hcs := commentStep_closed
    (fixGithubLabels ls (jiraStep ls (draftStep (createOrAdoptStep keyNum
      (makeIssueFlagStep (identityStep (initState pr cur des)))))))
    (by rw [hpr6]; exact hclosed) (by rw [hbc6]; exact hbc)
  obtain ⟨hAacts, hApr, hAcur, hAl⟩ :=
    addBotComments_spec (commentStep (fixGithubLabels ls (jiraStep ls (draftStep
      (createOrAdoptStep keyNum (makeIssueFlagStep (identityStep
        (initState pr cur des))))))))
  have hbase : ∀ ac ∈ (initState pr cur des).acts,
      ac.isEdit = false ∧ ac.isPrimaryAdd = false := by
    intro ac hac
    rw [List.mem_singleton.mp hac]
    exact ⟨rfl, rfl⟩
  have hI : ∀ ac ∈ (identityStep (initState pr cur des)).acts,
      ac.isEdit = false ∧ ac.isPrimaryAdd = false := by
    intro ac hac
    rcases hIacts with hg | ⟨jid, hg⟩ <;> rw [hg] at hac
    · exact hbase ac hac
    · rcases List.mem_append.mp hac with hac | hac
      · exact hbase ac hac
      · rw [List.mem_singleton.mp hac]
        exact ⟨rfl, rfl⟩
  have hC : ∀ ac ∈ (createOrAdoptStep keyNum (makeIssueFlagStep (identityStep
      (initState pr cur des)))).acts, ac.isEdit = false ∧ ac.isPrimaryAdd = false := by
    intro ac hac
    rw [hCacts, hFacts] at hac
    rcases List.mem_append.mp hac with hac | hac
    · exact hI ac hac
    · exact ⟨(hCP ac hac).2.1, (hCP ac hac).2.2.1⟩
  have hJ : ∀ ac ∈ (jiraStep ls (draftStep (createOrAdoptStep keyNum
      (makeIssueFlagStep (identityStep (initState pr cur des)))))).acts,
      ac.isEdit = false ∧ ac.isPrimaryAdd = false := by
    intro ac hac
    rw [hJacts, hDacts] at hac
    rcases List.mem_append.mp hac with hac | hac
    · exact hC ac hac
    · exact ⟨(hJP ac hac).2.2.1, (hJP ac hac).2.2.2⟩
  have hG : ∀ ac ∈ (fixGithubLabels ls (jiraStep ls (draftStep (createOrAdoptStep keyNum
      (makeIssueFlagStep (identityStep (initState pr cur des))))))).acts,
      ac.isEdit = false ∧ ac.isPrimaryAdd = false := by
    intro ac hac
    rcases hGacts with hg | hg <;> rw [hg] at hac
    · exact hJ ac hac
    · rcases List.mem_append.mp hac with hac | hac
      · exact hJ ac hac
      · rw [List.mem_singleton.mp hac]
        exact ⟨rfl, rfl⟩
  intro ac hac
  unfold fixRun at hac
  rcases hAacts with hg | hg <;> rw [hg, hcs] at hac
  · exact hG ac hac
  · rcases List.mem_append.mp hac with hac | hac
    · exact hG ac hac
    · rw [List.mem_singleton.mp hac]
      exact ⟨rfl, rfl⟩

/-- C8 witness: a closed pull request with an existing welcome comment and
a desired state that would otherwise rewrite the comment. -/
theorem closed_pr_comment_frame_witness :
    ((fixRun testLs 9000 { testPr with state := "closed" } closedCur
      testDes).acts.all (fun ac => !ac.isEdit && !ac.isPrimaryAdd)) = true := by
  have h := closed_pr_comment_frame testLs 9000
    { testPr with state := "closed" } closedCur testDes (by decide) (by decide)
  rw [List.all_eq_true]
  intro ac hac
  obtain ⟨h1, h2⟩ := h ac hac
  rw [h1, h2]
  rfl

/-- C9: fail-fast on un-rendered comment kinds: each comment pass tracks
the set of wanted kinds it could neither render nor treat as consumed, and
sets the fatal assertion error exactly when that set is nonempty; with the
full taxonomy of nine comment kinds (NEED_CLA, END_OF_WIP and
WELCOME_CLOSED counting as satisfied with their parent block) the leftover
sets are provably always empty, so on an error-free state neither pass
aborts. -/
theorem comment_passes_fail_fast (s : FixState) (he : s.err = none) :
    ((fixBotComment s).err ≠ none ↔
      (s.desired.botComments ∩ BOT_COMMENTS_FIRST) \ consumedFirstKinds ≠ ∅) ∧
    ((addBotComments s).err ≠ none ↔
      (if BotComment.championMergePing ∈ secondaryNeeded s then
        (secondaryNeeded s).erase BotComment.championMergePing
       else secondaryNeeded s) ≠ ∅) ∧
    (s.desired.botComments ∩ BOT_COMMENTS_FIRST) \ consumedFirstKinds = ∅ ∧
    (if BotComment.championMergePing ∈ secondaryNeeded s then
      (secondaryNeeded s).erase BotComment.championMergePing
     else secondaryNeeded s) = ∅ := by
  have l1 := leftover_first_empty s.desired.botComments
  have l2 : (if BotComment.championMergePing ∈ secondaryNeeded s then
      (secondaryNeeded s).erase BotComment.championMergePing
     else secondaryNeeded s) = ∅ := by
    by_cases hping : BotComment.championMergePing ∈ secondaryNeeded s
    · rw [if_pos hping, Finset.eq_empty_iff_forall_not_mem]
      intro k hk
      rw [Finset.mem_erase] at hk
      exact hk.1 (Finset.mem_singleton.mp (secondaryNeeded_subset s hk.2))
    · rw [if_neg hping, Finset.eq_empty_iff_forall_not_mem]
      intro k hk
      have hkp := Finset.mem_singleton.mp (secondaryNeeded_subset s hk)
      subst hkp
      exact hping hk
  have h1 : (fixBotComment s).err = none := by
    by_cases heq : some (builtPrimary s) = s.current.botComment0Text
    · rw [fixBotComment_noop s he heq]
      exact he
    · by_cases hbc : s.current.botComments = ∅
      · rw [fixBotComment_add s he heq hbc]
        exact he
      · rw [fixBotComment_edit s he heq hbc]
        exact he
  have h2 : (addBotComments s).err = none := by
    by_cases hping : BotComment.championMergePing ∈ secondaryNeeded s
    · rw [addBotComments_ping s he hping]
      exact he
    · rw [addBotComments_noop s he hping]
      exact he
  exact ⟨⟨fun h => absurd h1 h, fun h => absurd l1 h⟩,
    ⟨fun h => absurd h2 h, fun h => absurd l2 h⟩, l1, l2⟩

/-- C9 witness: the comment passes leave the leftover sets empty on a
concrete error-free state. -/
theorem comment_passes_fail_fast_witness :
    (testS0.desired.botComments ∩ BOT_COMMENTS_FIRST) \ consumedFirstKinds = ∅ :=
  (comment_passes_fail_fast testS0 rfl).2.2.1

/-- `transitionCheck` never changes the desired info. -/
theorem transitionCheck_desired (s : FixState) :
    (transitionCheck s).desired = s.desired := by
  rcases hd : s.desired.jiraStatus with _ | st
  · rw [transitionCheck_noop s (Or.inl hd)]
  · by_cases hne : some st = s.current.jiraStatus
    · rw [transitionCheck_noop s (Or.inr (by rw [hd, hne]))]
    · rcases Option.eq_none_or_eq_some s.current.jiraId with hid | ⟨jid, hid⟩
      · rw [transitionCheck_noId s st hd hne hid]
      · rw [transitionCheck_transition s st jid hd hne hid]

/-- `authorActedOverride` never changes the desired epic or extra fields. -/
theorem authorActedOverride_desired_epic (s : FixState) :
    (authorActedOverride s).desired.jiraEpic = s.desired.jiraEpic ∧
    (authorActedOverride s).desired.jiraExtraFields = s.desired.jiraExtraFields := by
  unfold authorActedOverride
  split
  · exact ⟨rfl, rfl⟩
  · exact ⟨rfl, rfl⟩

/-- `makeJiraIssue` fails fast right after creation when no desired initial
status is set. -/
theorem makeJiraIssue_assertIni (keyNum : Nat) (s : FixState) (proj : String)
    (he : s.err = none) (hp : s.desired.jiraProject = some proj)
    (hini : s.desired.jiraInitialStatus = none) :
    makeJiraIssue keyNum s =
      { { { s with desired := { s.desired with jiraExtraFields := makeIssueExtra s } }.emit (Action.createOsprIssue (mkJiraKey proj keyNum) s.pr.htmlUrl proj s.desired.jiraTitle s.desired.jiraDescription s.desired.jiraLabels s.pr.userName s.pr.institution (makeIssueExtra s)) with current := madeIssueCurrent (mkJiraKey proj keyNum) s } with err := some "assert failed: desired.jira_initial_status is not None" } := by
  unfold makeJiraIssue
  rw [he]
  simp only [Option.isSome_none, Bool.false_eq_true, if_false]
  rw [hp]
  dsimp only [FixState.emit]
  rw [madeIssueCurrent_jiraStatus, hini]
  rw [if_pos (fun hh => Option.noConfusion hh)]

/-- When no epic is desired, `createOrAdoptStep` leaves the desired info
alone (the extra-fields aliasing mutation of `_make_jira_issue` only
happens for a desired epic). -/
theorem createOrAdoptStep_desired (keyNum : Nat) (s : FixState)
    (hde : s.desired.jiraEpic = none) :
    (createOrAdoptStep keyNum s).desired = s.desired := by
  rcases he : s.err with _ | msg
  swap
  · unfold createOrAdoptStep
    rw [if_pos (by rw [he]; rfl)]
  rcases hmk : s.makeIssue with _ | _
  · obtain ⟨ep, hca⟩ := createOrAdoptStep_noCreate keyNum s he hmk
    rw [hca]
  · rw [createOrAdoptStep_create keyNum s he hmk]
    have hex : makeIssueExtra s = s.desired.jiraExtraFields := by
      unfold makeIssueExtra
      rw [hde]
    rcases Option.eq_none_or_eq_some s.desired.jiraProject with hp | ⟨proj, hp⟩
    · rw [makeJiraIssue_assertProject keyNum s he hp]
    rcases Option.eq_none_or_eq_some s.desired.jiraInitialStatus with hini | ⟨ini, hini⟩
    · rw [makeJiraIssue_assertIni keyNum s proj he hp hini]
      dsimp only [FixState.emit]
      rw [hex]
    by_cases hnt : ini = "Needs Triage"
    · subst hnt
      rw [makeJiraIssue_noTrans keyNum s proj he hp hini]
      rw [hex]
    · rw [makeJiraIssue_trans keyNum s proj ini he hp hini hnt]
      rw [hex]

/-- `createOrAdoptStep` emits no ticket update action. -/
theorem createOrAdoptStep_updates (keyNum : Nat) (s : FixState) :
    ∀ jid kw, Action.updateJiraIssue jid kw ∈ (createOrAdoptStep keyNum s).acts →
      Action.updateJiraIssue jid kw ∈ s.acts := by
  intro jid kw hmem
  obtain ⟨⟨tail, hacts, htail⟩, _⟩ := createOrAdoptStep_spec keyNum s
  rw [hacts] at hmem
  rcases List.mem_append.mp hmem with h | h
  · exact h
  · have hfalse := (htail _ h).2.2.2
    exact absurd hfalse (by intro hf; exact Bool.noConfusion hf)

/-- No update action added by the status-transition block. -/
theorem statusTransition_updates (s : FixState) :
    ∀ jid kw, Action.updateJiraIssue jid kw ∈
      (transitionCheck (authorActedOverride s)).acts →
      Action.updateJiraIssue jid kw ∈ s.acts := by
  intro jid kw h
  obtain ⟨hBacts, _⟩ := transitionCheck_spec (authorActedOverride s)
  obtain ⟨_, _, hAacts, _, _⟩ := authorActedOverride_frame s
  rcases hBacts with hb | ⟨j3, st3, hb⟩ <;> rw [hb, hAacts] at h
  · exact h
  · rcases List.mem_append.mp h with h | h
    · exact h
    · rw [List.mem_singleton] at h
      exact Action.noConfusion h

/-- Every ticket update `jiraStep` emits beyond its input trace carries the
kwargs computed from the post-transition state. -/
theorem jiraStep_updates (ls : LabelSets) (s : FixState) :
    ∀ jid kw, Action.updateJiraIssue jid kw ∈ (jiraStep ls s).acts →
      Action.updateJiraIssue jid kw ∈ s.acts ∨
      kw = jiraUpdateKwargs ls (transitionCheck (authorActedOverride s)) := by
  intro jid kw hmem
  rcases he : s.err with _ | msg
  swap
  · unfold jiraStep at hmem
    rw [if_pos (by rw [he]; rfl)] at hmem
    exact Or.inl hmem
  rcases ht : optTruthy s.current.jiraId with _ | _
  · rw [jiraStep_noTicket ls s he ht] at hmem
    exact Or.inl hmem
  · have hst : statusTransitionStep s = transitionCheck (authorActedOverride s) := rfl
    rw [jiraStep_ticket ls s he ht, hst] at hmem
    obtain ⟨hCacts, _⟩ :=
      fixJiraInformation_spec ls (transitionCheck (authorActedOverride s))
    rcases hCacts with hCa | ⟨jid2, hJ, hCa⟩ <;> rw [hCa] at hmem
    · exact Or.inl (statusTransition_updates s jid kw hmem)
    · rcases List.mem_append.mp hmem with h | h
      · exact Or.inl (statusTransition_updates s jid kw h)
      · rw [List.mem_singleton] at h
        injection h with h1 h2
        exact Or.inr h2

/-- The summary entry touches neither the epic link nor the extra
fields. -/
theorem kwSummaryPart_frame (s : FixState) (kw : UpdateKwargs) :
    (kwSummaryPart s kw).epicLink = kw.epicLink ∧
    (kwSummaryPart s kw).extraFields = kw.extraFields := by
  unfold kwSummaryPart
  split
  · exact ⟨rfl, rfl⟩
  · exact ⟨rfl, rfl⟩

/-- The description entry touches neither the epic link nor the extra
fields. -/
theorem kwDescriptionPart_frame (s : FixState) (kw : UpdateKwargs) :
    (kwDescriptionPart s kw).epicLink = kw.epicLink ∧
    (kwDescriptionPart s kw).extraFields = kw.extraFields := by
  unfold kwDescriptionPart
  split
  · exact ⟨rfl, rfl⟩
  · exact ⟨rfl, rfl⟩

/-- The labels entry touches neither the epic link nor the extra fields. -/
theorem kwLabelsPart_frame (ls : LabelSets) (s : FixState) (kw : UpdateKwargs) :
    (kwLabelsPart ls s kw).epicLink = kw.epicLink ∧
    (kwLabelsPart ls s kw).extraFields = kw.extraFields := by
  unfold kwLabelsPart
  split
  · exact ⟨rfl, rfl⟩
  · exact ⟨rfl, rfl⟩

/-- With no desired epic, the epic-link entry is not written. -/
theorem kwEpicPart_none (s : FixState) (kw : UpdateKwargs)
    (h : s.desired.jiraEpic = none) : kwEpicPart s kw = kw := by
  unfold kwEpicPart
  rw [h]

/-- The extra-fields entry keeps the epic link, and sends the desired
extra fields when it fires. -/
theorem kwExtraPart_frame (s : FixState) (kw : UpdateKwargs) :
    (kwExtraPart s kw).epicLink = kw.epicLink ∧
    ((kwExtraPart s kw).extraFields = some s.desired.jiraExtraFields ∨
      (kwExtraPart s kw).extraFields = kw.extraFields) := by
  unfold kwExtraPart
  split
  · exact ⟨rfl, Or.inl rfl⟩
  · exact ⟨rfl, Or.inr rfl⟩

/-- With no desired epic and no epic link among the desired extra fields,
the update kwargs carry no epic link, directly or inside extra fields. -/
theorem jiraUpdateKwargs_epicFree (ls : LabelSets) (s : FixState)
    (h1 : s.desired.jiraEpic = none)
    (h2 : s.desired.jiraExtraFields.epicLink = none) :
    (jiraUpdateKwargs ls s).epicLink = none ∧
    ∀ ef, (jiraUpdateKwargs ls s).extraFields = some ef → ef.epicLink = none := by
  have hkw : jiraUpdateKwargs ls s =
      kwExtraPart s (kwLabelsPart ls s (kwDescriptionPart s
        (kwSummaryPart s {}))) := by
    unfold jiraUpdateKwargs
    rw [kwEpicPart_none s _ h1]
  have hS := kwSummaryPart_frame s ({} : UpdateKwargs)
  have hD := kwDescriptionPart_frame s (kwSummaryPart s {})
  have hL := kwLabelsPart_frame ls s (kwDescriptionPart s (kwSummaryPart s {}))
  have hX := kwExtraPart_frame s (kwLabelsPart ls s (kwDescriptionPart s
    (kwSummaryPart s {})))
  constructor
  · rw [hkw, hX.1, hL.1, hD.1, hS.1]
  · intro ef hef
    rw [hkw] at hef
    rcases hX.2 with hx | hx
    · rw [hx] at hef
      exact (Option.some.inj hef) ▸ h2
    · rw [hx, hL.2, hD.2, hS.2] at hef
      exact Option.noConfusion hef

/-- `applyUpdate` never changes a ticket's key. -/
theorem applyUpdate_key (t : JiraTicket) (kw : UpdateKwargs) :
    (t.applyUpdate kw).key = t.key := by
  unfold JiraTicket.applyUpdate
  cases kw.summary <;> cases kw.description <;> cases kw.labels <;>
    cases kw.extraFields <;> cases kw.epicLink <;> rfl

/-- `applyUpdate` with no epic link in the kwargs keeps the ticket's epic
link. -/
theorem applyUpdate_epicLink (t : JiraTicket) (kw : UpdateKwargs)
    (h1 : kw.epicLink = none)
    (h2 : ∀ ef, kw.extraFields = some ef → ef.epicLink = none) :
    (t.applyUpdate kw).extra.epicLink = t.extra.epicLink := by
  unfold JiraTicket.applyUpdate
  rw [h1]
  rcases hx : kw.extraFields with _ | ef
  · cases kw.summary <;> cases kw.description <;> cases kw.labels <;> rfl
  · have he := h2 ef hx
    cases kw.summary <;> cases kw.description <;> cases kw.labels <;>
      simp only [mergeExtra, pickField, he]

/-- Applying a trace whose updates never carry an epic link keeps the epic
link of every ticket the trace does not delete. -/
theorem applyTrace_epic_preserved (acts : List Action) :
    ∀ (w : World) (t : JiraTicket), t ∈ w.tickets →
      (∀ jid kw, Action.updateJiraIssue jid kw ∈ acts →
        kw.epicLink = none ∧ ∀ ef, kw.extraFields = some ef → ef.epicLink = none) →
      (∀ jid, Action.deleteJiraIssue jid ∈ acts → t.key ≠ jid) →
      ∃ t2, t2 ∈ (w.applyTrace acts).tickets ∧ t2.key = t.key ∧
        t2.extra.epicLink = t.extra.epicLink := by
  induction acts with
  | nil =>
    intro w t ht _ _
    exact ⟨t, ht, rfl, rfl⟩
  | cons a rest ih =>
    intro w t ht hupd hdel
    have hstep : World.applyTrace w (a :: rest) =
        World.applyTrace (World.applyAction w a) rest := rfl
    rw [hstep]
    obtain ⟨t1, ht1, hk1, he1⟩ : ∃ t1, t1 ∈ (World.applyAction w a).tickets ∧
        t1.key = t.key ∧ t1.extra.epicLink = t.extra.epicLink := by
      cases a with
      | synchronizeLabels r => exact ⟨t, ht, rfl, rfl⟩
      | deleteJiraIssue jid =>
        refine ⟨t, List.mem_filter.mpr ⟨ht, ?_⟩, rfl, rfl⟩
        have hne := hdel jid (List.mem_cons_self _ _)
        simp [hne]
      | createOsprIssue k u p su de l un i e =>
        exact ⟨t, List.mem_append_left _ ht, rfl, rfl⟩
      | transitionJiraIssue jid st =>
        by_cases hk : t.key = jid
        · exact ⟨{ t with status := st },
            List.mem_map.mpr ⟨t, ht, by rw [if_pos hk]⟩, rfl, rfl⟩
        · exact ⟨t, List.mem_map.mpr ⟨t, ht, by rw [if_neg hk]⟩, rfl, rfl⟩
      | updateJiraIssue jid kw =>
        obtain ⟨hkwe, hkwx⟩ := hupd jid kw (List.mem_cons_self _ _)
        by_cases hk : t.key = jid
        · exact ⟨t.applyUpdate kw, List.mem_map.mpr ⟨t, ht, by rw [if_pos hk]⟩,
            applyUpdate_key t kw, applyUpdate_epicLink t kw hkwe hkwx⟩
        · exact ⟨t, List.mem_map.mpr ⟨t, ht, by rw [if_neg hk]⟩, rfl, rfl⟩
      | addCommentToPullRequest b => exact ⟨t, ht, rfl, rfl⟩
      | editCommentOnPullRequest b => exact ⟨t, ht, rfl, rfl⟩
      | updateLabelsOnPullRequest l => exact ⟨t, ht, rfl, rfl⟩
    obtain ⟨t2, h2, hk2, he2⟩ := ih (World.applyAction w a) t1 ht1
      (fun jid kw hm => hupd jid kw (List.mem_cons_of_mem _ hm))
      (fun jid hm => by
        rw [hk1]
        exact hdel jid (List.mem_cons_of_mem _ hm))
    exact ⟨t2, h2, hk2.trans hk1, he2.trans he1⟩

/-- With no desired epic and no desired epic link among the extra fields,
every ticket update in a whole `fix` run is epic-link-free. -/
theorem fixRun_updates_epicFree (ls : LabelSets) (keyNum : Nat)
    (pr : PrSnapshot) (cur : PrCurrentInfo) (des : PrDesiredInfo)
    (hde : des.jiraEpic = none) (hdx : des.jiraExtraFields.epicLink = none) :
    ∀ jid kw, Action.updateJiraIssue jid kw ∈ (fixRun ls keyNum pr cur des).acts →
      kw.epicLink = none ∧ ∀ ef, kw.extraFields = some ef → ef.epicLink = none := by
  intro jid kw hmem
  obtain ⟨hIacts, hIpr, hIm, hIbc, hIc0, hIl, hId⟩ :=
    identityStep_spec (initState pr cur des)
  obtain ⟨hFacts, hFpr, hFcur, hFl, hFd, hFe⟩ :=
    makeIssueFlagStep_spec (identityStep (initState pr cur des))
  have hdes2 : (makeIssueFlagStep (identityStep (initState pr cur des))).desired
      = des := by
    rw [hFd, hId]
    rfl
  have hde2 : (makeIssueFlagStep (identityStep
      (initState pr cur des))).desired.jiraEpic = none := by
    rw [hdes2]
    exact hde
  have hCd := createOrAdoptStep_desired keyNum
    (makeIssueFlagStep (identityStep (initState pr cur des))) hde2
  have hdes3 : (createOrAdoptStep keyNum (makeIssueFlagStep (identityStep
      (initState pr cur des)))).desired = des := by
    rw [hCd, hdes2]
  obtain ⟨hDacts, hDpr, hDcur, hDdes, hDe⟩ :=
    draftStep_spec (createOrAdoptStep keyNum
      (makeIssueFlagStep (identityStep (initState pr cur des))))
  have hdes4 : (draftStep (createOrAdoptStep keyNum (makeIssueFlagStep
      (identityStep (initState pr cur des))))).desired = des := by
    rw [hDdes, hdes3]
  have hA := authorActedOverride_desired_epic (draftStep (createOrAdoptStep keyNum
    (makeIssueFlagStep (identityStep (initState pr cur des)))))
  have hB := transitionCheck_desired (authorActedOverride (draftStep
    (createOrAdoptStep keyNum (makeIssueFlagStep (identityStep
      (initState pr cur des))))))
  have h5e : (transitionCheck (authorActedOverride (draftStep (createOrAdoptStep
      keyNum (makeIssueFlagStep (identityStep
        (initState pr cur des))))))).desired.jiraEpic = none := by
    rw [hB, hA.1, hdes4]
    exact hde
  have h5x : (transitionCheck (authorActedOverride (draftStep (createOrAdoptStep
      keyNum (makeIssueFlagStep (identityStep
        (initState pr cur des))))))).desired.jiraExtraFields.epicLink = none := by
    rw [hB, hA.2, hdes4]
    exact hdx
  have hkwfact := jiraUpdateKwargs_epicFree ls (transitionCheck (authorActedOverride
    (draftStep (createOrAdoptStep keyNum (makeIssueFlagStep (identityStep
      (initState pr cur des))))))) h5e h5x
  obtain ⟨hAacts2, _, _, _⟩ :=
    addBotComments_spec (commentStep (fixGithubLabels ls (jiraStep ls (draftStep
      (createOrAdoptStep keyNum (makeIssueFlagStep (identityStep
        (initState pr cur des))))))))
  obtain ⟨hCSacts, _, _, _⟩ :=
    commentStep_spec (fixGithubLabels ls (jiraStep ls (draftStep
      (createOrAdoptStep keyNum (makeIssueFlagStep (identityStep
        (initState pr cur des)))))))
  obtain ⟨hGacts, _, _, _, _, _⟩ :=
    fixGithubLabels_spec ls (jiraStep ls (draftStep
      (createOrAdoptStep keyNum (makeIssueFlagStep (identityStep
        (initState pr cur des))))))
  unfold fixRun at hmem
  have hm1 : Action.updateJiraIssue jid kw ∈ (commentStep (fixGithubLabels ls
      (jiraStep ls (draftStep (createOrAdoptStep keyNum (makeIssueFlagStep
        (identityStep (initState pr cur des)))))))).acts := by
    rcases hAacts2 with hg | hg <;> rw [hg] at hmem
    · exact hmem
    · rcases List.mem_append.mp hmem with h | h
      · exact h
      · rw [List.mem_singleton] at h
        exact Action.noConfusion h
  have hm2 : Action.updateJiraIssue jid kw ∈ (fixGithubLabels ls
      (jiraStep ls (draftStep (createOrAdoptStep keyNum (makeIssueFlagStep
        (identityStep (initState pr cur des))))))).acts := by
    rcases hCSacts with hg | hg | hg <;> rw [hg] at hm1
    · exact hm1
    · rcases List.mem_append.mp hm1 with h | h
      · exact h
      · rw [List.mem_singleton] at h
        exact Action.noConfusion h
    · rcases List.mem_append.mp hm1 with h | h
      · exact h
      · rw [List.mem_singleton] at h
        exact Action.noConfusion h
  have hm3 : Action.updateJiraIssue jid kw ∈ (jiraStep ls (draftStep
      (createOrAdoptStep keyNum (makeIssueFlagStep
        (identityStep (initState pr cur des)))))).acts := by
    rcases hGacts with hg | hg <;> rw [hg] at hm2
    · exact hm2
    · rcases List.mem_append.mp hm2 with h | h
      · exact h
      · rw [List.mem_singleton] at h
        exact Action.noConfusion h
  rcases jiraStep_updates ls (draftStep (createOrAdoptStep keyNum
    (makeIssueFlagStep (identityStep (initState pr cur des))))) jid kw hm3 with
      hm4 | hkw
  · rw [hDacts] at hm4
    have hm5 := createOrAdoptStep_updates keyNum (makeIssueFlagStep (identityStep
      (initState pr cur des))) jid kw hm4
    rw [hFacts] at hm5
    have hm6 : Action.updateJiraIssue jid kw ∈ (initState pr cur des).acts := by
      rcases hIacts with hg | ⟨j2, hg⟩ <;> rw [hg] at hm5
      · exact hm5
      · rcases List.mem_append.mp hm5 with h | h
        · exact h
        · rw [List.mem_singleton] at h
          exact Action.noConfusion h
    have hinit : (initState pr cur des).acts =
        [Action.synchronizeLabels pr.repoFullName] := rfl
    rw [hinit, List.mem_singleton] at hm6
    exact Action.noConfusion hm6
  · subst hkw
    exact hkwfact

/-- C10: implicit epic-link frame: on any run whose desired state carries
no epic (`desired.jira_epic` is `None` — and hence, since the policy only
ever puts an epic link into the extra fields together with a desired epic,
no epic link among the desired extra fields either), no ticket update
written by `fix` carries an epic link, directly or inside its extra
fields; consequently every ticket the run does not delete keeps its epic
link unchanged in the external state. -/
theorem epic_link_never_removed (ls : LabelSets) (keyNum : Nat)
    (pr : PrSnapshot) (cur : PrCurrentInfo) (des : PrDesiredInfo)
    (hde : des.jiraEpic = none)
    (hdx : des.jiraExtraFields.epicLink = none) :
    (∀ jid kw, Action.updateJiraIssue jid kw ∈ (fixRun ls keyNum pr cur des).acts →
      kw.epicLink = none ∧ ∀ ef, kw.extraFields = some ef → ef.epicLink = none) ∧
    (∀ (w : World) (t : JiraTicket), t ∈ w.tickets →
      (∀ jid, Action.deleteJiraIssue jid ∈ (fixRun ls keyNum pr cur des).acts →
        t.key ≠ jid) →
      ∃ t2, t2 ∈ (w.applyTrace (fixRun ls keyNum pr cur des).acts).tickets ∧
        t2.key = t.key ∧ t2.extra.epicLink = t.extra.epicLink) := by
  have hupd := fixRun_updates_epicFree ls keyNum pr cur des hde hdx
  exact ⟨hupd, fun w t ht hdel =>
    applyTrace_epic_preserved (fixRun ls keyNum pr cur des).acts w t ht hupd hdel⟩

/-- C10 witness: a concrete epic-less run: no update carries an epic link
and an unrelated ticket keeps its epic link. -/
theorem epic_link_never_removed_witness :
    (∀ jid kw, Action.updateJiraIssue jid kw ∈
        (fixRun testLs 9000 testPr testCur testDes).acts →
      kw.epicLink = none ∧ ∀ ef, kw.extraFields = some ef → ef.epicLink = none) ∧
    (∀ (w : World) (t : JiraTicket), t ∈ w.tickets →
      (∀ jid, Action.deleteJiraIssue jid ∈
          (fixRun testLs 9000 testPr testCur testDes).acts → t.key ≠ jid) →
      ∃ t2, t2 ∈ (w.applyTrace (fixRun testLs 9000 testPr testCur
          testDes).acts).tickets ∧
        t2.key = t.key ∧ t2.extra.epicLink = t.extra.epicLink) :=
  epic_link_never_removed testLs 9000 testPr testCur testDes rfl rfl

/-- `makeIssueFlagStep` keeps the deleted-key memo. -/
theorem makeIssueFlagStep_ckdk (s : FixState) :
    (makeIssueFlagStep s).commentKwargsDeletedKey = s.commentKwargsDeletedKey := by
  unfold makeIssueFlagStep
  split
  · rfl
  split
  · rfl
  · rfl

/-- `makeIssueFlagStep` never clears a set creation flag. -/
theorem makeIssueFlagStep_mk (s : FixState) (h : s.makeIssue = true) :
    (makeIssueFlagStep s).makeIssue = true := by
  unfold makeIssueFlagStep
  split
  · exact h
  split
  · rfl
  · exact h

/-- `makeJiraIssue` keeps the deleted-key memo. -/
theorem makeJiraIssue_ckdk (keyNum : Nat) (s : FixState) :
    (makeJiraIssue keyNum s).commentKwargsDeletedKey =
      s.commentKwargsDeletedKey := by
  rcases he : s.err with _ | msg
  swap
  · have hid : makeJiraIssue keyNum s = s := by
      unfold makeJiraIssue
      rw [if_pos (by rw [he]; rfl)]
    rw [hid]
  rcases Option.eq_none_or_eq_some s.desired.jiraProject with hp | ⟨proj, hp⟩
  · rw [makeJiraIssue_assertProject keyNum s he hp]
  rcases Option.eq_none_or_eq_some s.desired.jiraInitialStatus with hini | ⟨ini, hini⟩
  · rw [makeJiraIssue_assertIni keyNum s proj he hp hini]
    rfl
  by_cases hnt : ini = "Needs Triage"
  · subst hnt
    rw [makeJiraIssue_noTrans keyNum s proj he hp hini]
  · rw [makeJiraIssue_trans keyNum s proj ini he hp hini hnt]

/-- `createOrAdoptStep` keeps the deleted-key memo. -/
theorem createOrAdoptStep_ckdk (keyNum : Nat) (s : FixState) :
    (createOrAdoptStep keyNum s).commentKwargsDeletedKey =
      s.commentKwargsDeletedKey := by
  rcases he : s.err with _ | msg
  swap
  · unfold createOrAdoptStep
    rw [if_pos (by rw [he]; rfl)]
  rcases hmk : s.makeIssue with _ | _
  · obtain ⟨ep, hca⟩ := createOrAdoptStep_noCreate keyNum s he hmk
    rw [hca]
  · rw [createOrAdoptStep_create keyNum s he hmk]
    exact makeJiraIssue_ckdk keyNum s

/-- `draftStep` keeps the deleted-key memo. -/
theorem draftStep_ckdk (s : FixState) :
    (draftStep s).commentKwargsDeletedKey = s.commentKwargsDeletedKey := by
  unfold draftStep
  split
  · rfl
  · rfl

/-- `authorActedOverride` keeps the deleted-key memo. -/
theorem authorActedOverride_ckdk (s : FixState) :
    (authorActedOverride s).commentKwargsDeletedKey =
      s.commentKwargsDeletedKey := by
  unfold authorActedOverride
  split
  · rfl
  · rfl

/-- `transitionCheck` keeps the deleted-key memo. -/
theorem transitionCheck_ckdk (s : FixState) :
    (transitionCheck s).commentKwargsDeletedKey =
      s.commentKwargsDeletedKey := by
  rcases hd : s.desired.jiraStatus with _ | st
  · rw [transitionCheck_noop s (Or.inl hd)]
  · by_cases hne : some st = s.current.jiraStatus
    · rw [transitionCheck_noop s (Or.inr (by rw [hd, hne]))]
    · rcases Option.eq_none_or_eq_some s.current.jiraId with hid | ⟨jid, hid⟩
      · rw [transitionCheck_noId s st hd hne hid]
      · rw [transitionCheck_transition s st jid hd hne hid]

/-- `fixJiraInformation` keeps the deleted-key memo. -/
theorem fixJiraInformation_ckdk (ls : LabelSets) (s : FixState) :
    (fixJiraInformation ls s).commentKwargsDeletedKey =
      s.commentKwargsDeletedKey := by
  rcases he : s.err with _ | msg
  swap
  · rw [fixJiraInformation_err ls s (by rw [he]; rfl)]
  by_cases hkw : jiraUpdateKwargs ls s = ({} : UpdateKwargs)
  · rw [fixJiraInformation_noop ls s he hkw]
  · rcases Option.eq_none_or_eq_some s.current.jiraId with hid | ⟨jid, hid⟩
    · rw [fixJiraInformation_assert ls s he hkw hid]
    · rw [fixJiraInformation_update ls s jid he hkw hid]

/-- `jiraStep` keeps the deleted-key memo. -/
theorem jiraStep_ckdk (ls : LabelSets) (s : FixState) :
    (jiraStep ls s).commentKwargsDeletedKey = s.commentKwargsDeletedKey := by
  rcases he : s.err with _ | msg
  swap
  · unfold jiraStep
    rw [if_pos (by rw [he]; rfl)]
  rcases ht : optTruthy s.current.jiraId with _ | _
  · rw [jiraStep_noTicket ls s he ht]
  · have hst : statusTransitionStep s = transitionCheck (authorActedOverride s) :=
      rfl
    rw [jiraStep_ticket ls s he ht, hst, fixJiraInformation_ckdk,
      transitionCheck_ckdk, authorActedOverride_ckdk]

/-- `fixGithubLabels` keeps the deleted-key memo. -/
theorem fixGithubLabels_ckdk (ls : LabelSets) (s : FixState) :
    (fixGithubLabels ls s).commentKwargsDeletedKey =
      s.commentKwargsDeletedKey := by
  rcases he : s.err with _ | msg
  swap
  · unfold fixGithubLabels
    rw [if_pos (by rw [he]; rfl)]
  by_cases h : githubLabelsTarget ls s = s.current.githubLabels
  · rw [fixGithubLabels_noop ls s he h]
  · rw [fixGithubLabels_update ls s he h]

/-- Whatever the project check decided, `_make_jira_issue` emits the
creation call for the desired project. -/
theorem makeJiraIssue_creates (keyNum : Nat) (s : FixState) (P : String)
    (he : s.err = none) (hp : s.desired.jiraProject = some P) :
    Action.createOsprIssue (mkJiraKey P keyNum) s.pr.htmlUrl P
      s.desired.jiraTitle s.desired.jiraDescription s.desired.jiraLabels
      s.pr.userName s.pr.institution (makeIssueExtra s) ∈
      (makeJiraIssue keyNum s).acts := by
  rcases Option.eq_none_or_eq_some s.desired.jiraInitialStatus with hini | ⟨ini, hini⟩
  · rw [makeJiraIssue_assertIni keyNum s P he hp hini]
    exact List.mem_append_right _ (List.mem_singleton.mpr rfl)
  by_cases hnt : ini = "Needs Triage"
  · subst hnt
    rw [makeJiraIssue_noTrans keyNum s P he hp hini]
    exact List.mem_append_right _ (List.mem_singleton.mpr rfl)
  · rw [makeJiraIssue_trans keyNum s P ini he hp hini hnt]
    exact List.mem_append_right _ (List.mem_cons_self _ _)

/-- Anything already in the trace after the create-or-adopt step is in the
finished trace. -/
theorem fixRun_acts_extend (ls : LabelSets) (keyNum : Nat)
    (pr : PrSnapshot) (cur : PrCurrentInfo) (des : PrDesiredInfo) :
    ∀ x, x ∈ (createOrAdoptStep keyNum (makeIssueFlagStep (identityStep
        (initState pr cur des)))).acts →
      x ∈ (fixRun ls keyNum pr cur des).acts := by
  intro x hx
  obtain ⟨hDacts, _, _, _, _⟩ :=
    draftStep_spec (createOrAdoptStep keyNum (makeIssueFlagStep (identityStep
      (initState pr cur des))))
  obtain ⟨⟨tailJ, hJacts, _⟩, _⟩ :=
    jiraStep_spec ls (draftStep (createOrAdoptStep keyNum (makeIssueFlagStep
      (identityStep (initState pr cur des)))))
  obtain ⟨hGacts, _⟩ :=
    fixGithubLabels_spec ls (jiraStep ls (draftStep (createOrAdoptStep keyNum
      (makeIssueFlagStep (identityStep (initState pr cur des))))))
  obtain ⟨hCacts, _⟩ :=
    commentStep_spec (fixGithubLabels ls (jiraStep ls (draftStep
      (createOrAdoptStep keyNum (makeIssueFlagStep (identityStep
        (initState pr cur des)))))))
  obtain ⟨hAacts, _⟩ :=
    addBotComments_spec (commentStep (fixGithubLabels ls (jiraStep ls (draftStep
      (createOrAdoptStep keyNum (makeIssueFlagStep (identityStep
        (initState pr cur des))))))))
  unfold fixRun
  have hx2 : x ∈ (jiraStep ls (draftStep (createOrAdoptStep keyNum
      (makeIssueFlagStep (identityStep (initState pr cur des)))))).acts := by
    rw [hJacts, hDacts]
    exact List.mem_append_left _ hx
  have hx3 : x ∈ (fixGithubLabels ls (jiraStep ls (draftStep (createOrAdoptStep
      keyNum (makeIssueFlagStep (identityStep (initState pr cur des))))))).acts := by
    rcases hGacts with hg | hg <;> rw [hg]
    · exact hx2
    · exact List.mem_append_left _ hx2
  have hx4 : x ∈ (commentStep (fixGithubLabels ls (jiraStep ls (draftStep
      (createOrAdoptStep keyNum (makeIssueFlagStep (identityStep
        (initState pr cur des)))))))).acts := by
    rcases hCacts with hg | hg | hg <;> rw [hg]
    · exact hx3
    · exact List.mem_append_left _ hx3
    · exact List.mem_append_left _ hx3
  rcases hAacts with hg | hg <;> rw [hg]
  · exact hx4
  · exact List.mem_append_left _ hx4

/-- Up to and including the label pass, no action of a run is an edit of
the primary comment or the creation of a primary comment. -/
theorem prefix_no_primary (ls : LabelSets) (keyNum : Nat)
    (pr : PrSnapshot) (cur : PrCurrentInfo) (des : PrDesiredInfo) :
    ∀ ac ∈ (fixGithubLabels ls (jiraStep ls (draftStep (createOrAdoptStep keyNum
      (makeIssueFlagStep (identityStep (initState pr cur des))))))).acts,
      ac.isEdit = false ∧ ac.isPrimaryAdd = false := by
  obtain ⟨hIacts, _, _, _, _, _, _⟩ := identityStep_spec (initState pr cur des)
  obtain ⟨hFacts, _, _, _, _, _⟩ :=
    makeIssueFlagStep_spec (identityStep (initState pr cur des))
  obtain ⟨⟨tailC, hCacts, hCP⟩, _⟩ :=
    createOrAdoptStep_spec keyNum
      (makeIssueFlagStep (identityStep (initState pr cur des)))
  obtain ⟨hDacts, _, _, _, _⟩ :=
    draftStep_spec (createOrAdoptStep keyNum
      (makeIssueFlagStep (identityStep (initState pr cur des))))
  obtain ⟨⟨tailJ, hJacts, hJP⟩, _⟩ :=
    jiraStep_spec ls (draftStep (createOrAdoptStep keyNum
      (makeIssueFlagStep (identityStep (initState pr cur des)))))
  obtain ⟨hGacts, _⟩ :=
    fixGithubLabels_spec ls (jiraStep ls (draftStep (createOrAdoptStep keyNum
      (makeIssueFlagStep (identityStep (initState pr cur des))))))
  have hbase : ∀ ac ∈ (initState pr cur des).acts,
      ac.isEdit = false ∧ ac.isPrimaryAdd = false := by
    intro ac hac
    rw [List.mem_singleton.mp hac]
    exact ⟨rfl, rfl⟩
  have hI : ∀ ac ∈ (identityStep (initState pr cur des)).acts,
      ac.isEdit = false ∧ ac.isPrimaryAdd = false := by
    intro ac hac
    rcases hIacts with hg | ⟨jid, hg⟩ <;> rw [hg] at hac
    · exact hbase ac hac
    · rcases List.mem_append.mp hac with hac | hac
      · exact hbase ac hac
      · rw [List.mem_singleton.mp hac]
        exact ⟨rfl, rfl⟩
  have hC : ∀ ac ∈ (createOrAdoptStep keyNum (makeIssueFlagStep (identityStep
      (initState pr cur des)))).acts, ac.isEdit = false ∧ ac.isPrimaryAdd = false := by
    intro ac hac
    rw [hCacts, hFacts] at hac
    rcases List.mem_append.mp hac with hac | hac
    · exact hI ac hac
    · exact ⟨(hCP ac hac).2.1, (hCP ac hac).2.2.1⟩
  have hJ : ∀ ac ∈ (jiraStep ls (draftStep (createOrAdoptStep keyNum
      (makeIssueFlagStep (identityStep (initState pr cur des)))))).acts,
      ac.isEdit = false ∧ ac.isPrimaryAdd = false := by
    intro ac hac
    rw [hJacts, hDacts] at hac
    rcases List.mem_append.mp hac with hac | hac
    · exact hC ac hac
    · exact ⟨(hJP ac hac).2.2.1, (hJP ac hac).2.2.2⟩
  intro ac hac
  rcases hGacts with hg | hg <;> rw [hg] at hac
  · exact hJ ac hac
  · rcases List.mem_append.mp hac with hac | hac
    · exact hJ ac hac
    · rw [List.mem_singleton.mp hac]
      exact ⟨rfl, rfl⟩

/-- C4 (amended): in the project-change case (ticket linked, mentioned and
actual project both different from the desired project), `fix` deletes the
old ticket, clears exactly the current ticket id, title, description and
status (the current labels, epic key, epic and extra fields are left as
they were), flags and performs the creation of a new ticket in the desired
project, and every primary comment body it writes carries the mentioned
ticket id as the deleted-issue key. -/
theorem project_change (ls : LabelSets) (keyNum : Nat)
    (pr : PrSnapshot) (cur : PrCurrentInfo) (des : PrDesiredInfo)
    (a m P : String)
    (h1 : cur.jiraId = some a) (h2 : cur.jiraMentionedId = some m)
    (hp : des.jiraProject = some P)
    (hm : P ≠ projectOf m) (ha : P ≠ projectOf a) :
    Action.deleteJiraIssue a ∈ (fixRun ls keyNum pr cur des).acts ∧
    identityStep (initState pr cur des) =
      { initState pr cur des with
          acts := (initState pr cur des).acts ++ [Action.deleteJiraIssue a],
          makeIssue := true,
          commentKwargsDeletedKey := some m,
          current := { cur with
            jiraId := none, jiraTitle := none,
            jiraDescription := none, jiraStatus := none } } ∧
    (∃ extra, Action.createOsprIssue (mkJiraKey P keyNum) pr.htmlUrl P
        des.jiraTitle des.jiraDescription des.jiraLabels
        pr.userName pr.institution extra ∈ (fixRun ls keyNum pr cur des).acts) ∧
    (∀ body : PrimaryBody,
      (Action.editCommentOnPullRequest (CommentRec.primary body) ∈
          (fixRun ls keyNum pr cur des).acts ∨
        Action.addCommentToPullRequest (CommentRec.primary body) ∈
          (fixRun ls keyNum pr cur des).acts) →
      body.deletedIssueKey = some m) := by
  have hm2 : (initState pr cur des).desired.jiraProject ≠
      some (projectOf m) := by
    intro hc
    exact hm (Option.some_inj.mp ((hp.symm.trans hc)))
  have ha2 : (initState pr cur des).desired.jiraProject ≠
      some (projectOf a) := by
    intro hc
    exact ha (Option.some_inj.mp ((hp.symm.trans hc)))
  have hIdel := identityStep_delete (initState pr cur des) a m h1 h2 hm2 ha2
  have hdelmem : Action.deleteJiraIssue a ∈
      (identityStep (initState pr cur des)).acts := by
    rw [hIdel]
    exact List.mem_append_right _ (List.mem_singleton.mpr rfl)
  obtain ⟨hFacts, hFpr, hFcur, hFl, hFd, hFe⟩ :=
    makeIssueFlagStep_spec (identityStep (initState pr cur des))
  have he1 : (identityStep (initState pr cur des)).err = none := by
    rw [hIdel]
    rfl
  have he2 : (makeIssueFlagStep (identityStep (initState pr cur des))).err
      = none := by
    rw [hFe]
    exact he1
  have hmk2 : (makeIssueFlagStep (identityStep
      (initState pr cur des))).makeIssue = true := by
    refine makeIssueFlagStep_mk _ ?_
    rw [hIdel]
  have hdes2 : (makeIssueFlagStep (identityStep (initState pr cur des))).desired
      = des := by
    rw [hFd, hIdel]
    rfl
  have hpr2 : (makeIssueFlagStep (identityStep (initState pr cur des))).pr
      = pr := by
    rw [hFpr, hIdel]
    rfl
  have hp2 : (makeIssueFlagStep (identityStep
      (initState pr cur des))).desired.jiraProject = some P := by
    rw [hdes2]
    exact hp
  have hCs := createOrAdoptStep_create keyNum
    (makeIssueFlagStep (identityStep (initState pr cur des))) he2 hmk2
  have hcr := makeJiraIssue_creates keyNum
    (makeIssueFlagStep (identityStep (initState pr cur des))) P he2 hp2
  rw [← hCs] at hcr
  have hcr2 := fixRun_acts_extend ls keyNum pr cur des _ hcr
  rw [hpr2, hdes2] at hcr2
  have hdel2 : Action.deleteJiraIssue a ∈ (createOrAdoptStep keyNum
      (makeIssueFlagStep (identityStep (initState pr cur des)))).acts := by
    obtain ⟨⟨tailC, hCacts, _⟩, _⟩ := createOrAdoptStep_spec keyNum
      (makeIssueFlagStep (identityStep (initState pr cur des)))
    rw [hCacts, hFacts]
    exact List.mem_append_left _ hdelmem
  have hdelfin := fixRun_acts_extend ls keyNum pr cur des _ hdel2
  have hck : (fixGithubLabels ls (jiraStep ls (draftStep (createOrAdoptStep keyNum
      (makeIssueFlagStep (identityStep
        (initState pr cur des))))))).commentKwargsDeletedKey = some m := by
    rw [fixGithubLabels_ckdk, jiraStep_ckdk, draftStep_ckdk,
      createOrAdoptStep_ckdk, makeIssueFlagStep_ckdk, hIdel]
  have hpre := prefix_no_primary ls keyNum pr cur des
  obtain ⟨hCSacts, _⟩ :=
    commentStep_spec (fixGithubLabels ls (jiraStep ls (draftStep
      (createOrAdoptStep keyNum (makeIssueFlagStep (identityStep
        (initState pr cur des)))))))
  obtain ⟨hAacts, _⟩ :=
    addBotComments_spec (commentStep (fixGithubLabels ls (jiraStep ls (draftStep
      (createOrAdoptStep keyNum (makeIssueFlagStep (identityStep
        (initState pr cur des))))))))
  refine ⟨hdelfin, hIdel, ⟨_, hcr2⟩, ?_⟩
  intro body hbody
  have hb1 : Action.editCommentOnPullRequest (CommentRec.primary body) ∈
        (commentStep (fixGithubLabels ls (jiraStep ls (draftStep
          (createOrAdoptStep keyNum (makeIssueFlagStep (identityStep
            (initState pr cur des)))))))).acts ∨
      Action.addCommentToPullRequest (CommentRec.primary body) ∈
        (commentStep (fixGithubLabels ls (jiraStep ls (draftStep
          (createOrAdoptStep keyNum (makeIssueFlagStep (identityStep
            (initState pr cur des)))))))).acts := by
    unfold fixRun at hbody
    rcases hbody with hb | hb
    · rcases hAacts with hg | hg <;> rw [hg] at hb
      · exact Or.inl hb
      · rcases List.mem_append.mp hb with h | h
        · exact Or.inl h
        · rw [List.mem_singleton] at h
          exact Action.noConfusion h
    · rcases hAacts with hg | hg <;> rw [hg] at hb
      · exact Or.inr hb
      · rcases List.mem_append.mp hb with h | h
        · exact Or.inr h
        · rw [List.mem_singleton] at h
          injection h with h'
          exact CommentRec.noConfusion h'
  rcases hb1 with hb | hb
  · rcases hCSacts with hg | hg | hg <;> rw [hg] at hb
    · exact Bool.noConfusion (hpre _ hb).1
    · rcases List.mem_append.mp hb with h | h
      · exact Bool.noConfusion (hpre _ h).1
      · rw [List.mem_singleton] at h
        have hkey := congrArg Action.primaryBodyDeletedKey h
        exact hkey.trans hck
    · rcases List.mem_append.mp hb with h | h
      · exact Bool.noConfusion (hpre _ h).1
      · rw [List.mem_singleton] at h
        exact Action.noConfusion h
  · rcases hCSacts with hg | hg | hg <;> rw [hg] at hb
    · exact Bool.noConfusion (hpre _ hb).2
    · rcases List.mem_append.mp hb with h | h
      · exact Bool.noConfusion (hpre _ h).2
      · rw [List.mem_singleton] at h
        exact Action.noConfusion h
    · rcases List.mem_append.mp hb with h | h
      · exact Bool.noConfusion (hpre _ h).2
      · rw [List.mem_singleton] at h
        have hkey := congrArg Action.primaryBodyDeletedKey h
        exact hkey.trans hck

/-- C4 counterexample to "clears all current-ticket fields": in the
project-change case the fixer clears only the ticket id, title,
description and status.  Here the current state's ticket labels and epic
key survive the deletion, and the stale epic key is still the current one
when the run finishes. -/
theorem project_change_partial_clear :
    (identityStep (initState testPr3 projCur testDes3)).commentKwargsDeletedKey
        = some "OSPR-1" ∧
    Action.deleteJiraIssue "OSPR-1" ∈
      (fixRun testLs 9000 testPr3 projCur testDes3).acts ∧
    (identityStep (initState testPr3 projCur testDes3)).current.jiraId = none ∧
    (identityStep (initState testPr3 projCur testDes3)).current.jiraLabels
        = {"custom-label"} ∧
    (identityStep (initState testPr3 projCur testDes3)).current.jiraEpicKey
        = some "EPIC-9" ∧
    (fixRun testLs 9000 testPr3 projCur testDes3).current.jiraEpicKey
        = some "EPIC-9" := by
  decide

/-- C4 witness: a concrete project change from OSPR to BLENDED. -/
theorem project_change_witness :
    Action.deleteJiraIssue "OSPR-1" ∈
      (fixRun testLs 9000 testPr3 projCur testDes3).acts :=
  (project_change testLs 9000 testPr3 projCur testDes3 "OSPR-1" "OSPR-1"
    "BLENDED" (by decide) (by decide) (by decide) (by decide) (by decide)).1

/-- The summary entry leaves the description entry alone. -/
theorem kwSummaryPart_description (s : FixState) (kw : UpdateKwargs) :
    (kwSummaryPart s kw).description = kw.description := by
  unfold kwSummaryPart
  split <;> rfl

/-- The summary entry leaves the labels entry alone. -/
theorem kwSummaryPart_labels (s : FixState) (kw : UpdateKwargs) :
    (kwSummaryPart s kw).labels = kw.labels := by
  unfold kwSummaryPart
  split <;> rfl

/-- The description entry leaves the summary entry alone. -/
theorem kwDescriptionPart_summary (s : FixState) (kw : UpdateKwargs) :
    (kwDescriptionPart s kw).summary = kw.summary := by
  unfold kwDescriptionPart
  split <;> rfl

/-- The description entry leaves the labels entry alone. -/
theorem kwDescriptionPart_labels (s : FixState) (kw : UpdateKwargs) :
    (kwDescriptionPart s kw).labels = kw.labels := by
  unfold kwDescriptionPart
  split <;> rfl

/-- The labels entry leaves the summary entry alone. -/
theorem kwLabelsPart_summary (ls : LabelSets) (s : FixState) (kw : UpdateKwargs) :
    (kwLabelsPart ls s kw).summary = kw.summary := by
  unfold kwLabelsPart
  split <;> rfl

/-- The labels entry leaves the description entry alone. -/
theorem kwLabelsPart_description (ls : LabelSets) (s : FixState)
    (kw : UpdateKwargs) :
    (kwLabelsPart ls s kw).description = kw.description := by
  unfold kwLabelsPart
  split <;> rfl

/-- The epic-link entry writes at most the epic-link field. -/
theorem kwEpicPart_cases (s : FixState) (kw : UpdateKwargs) :
    kwEpicPart s kw = kw ∨
    ∃ ek, kwEpicPart s kw = { kw with epicLink := some ek } := by
  unfold kwEpicPart
  rcases hd : s.desired.jiraEpic with _ | e
  · exact Or.inl rfl
  · rcases hc : s.current.jiraEpic with _ | ce
    · exact Or.inr ⟨e.key, rfl⟩
    · by_cases hk : e.key ≠ ce.key
      · exact Or.inr ⟨e.key, by dsimp only; rw [if_pos hk]⟩
      · exact Or.inl (by dsimp only; rw [if_neg hk])

/-- The epic-link entry leaves the summary entry alone. -/
theorem kwEpicPart_summary (s : FixState) (kw : UpdateKwargs) :
    (kwEpicPart s kw).summary = kw.summary := by
  rcases kwEpicPart_cases s kw with h | ⟨ek, h⟩ <;> rw [h]

/-- The epic-link entry leaves the description entry alone. -/
theorem kwEpicPart_description (s : FixState) (kw : UpdateKwargs) :
    (kwEpicPart s kw).description = kw.description := by
  rcases kwEpicPart_cases s kw with h | ⟨ek, h⟩ <;> rw [h]

/-- The epic-link entry leaves the labels entry alone. -/
theorem kwEpicPart_labels (s : FixState) (kw : UpdateKwargs) :
    (kwEpicPart s kw).labels = kw.labels := by
  rcases kwEpicPart_cases s kw with h | ⟨ek, h⟩ <;> rw [h]

/-- The epic-link entry leaves the extra-fields entry alone. -/
theorem kwEpicPart_extraFields (s : FixState) (kw : UpdateKwargs) :
    (kwEpicPart s kw).extraFields = kw.extraFields := by
  rcases kwEpicPart_cases s kw with h | ⟨ek, h⟩ <;> rw [h]

/-- The extra-fields entry leaves the summary entry alone. -/
theorem kwExtraPart_summary (s : FixState) (kw : UpdateKwargs) :
    (kwExtraPart s kw).summary = kw.summary := by
  unfold kwExtraPart
  split <;> rfl

/-- The extra-fields entry leaves the description entry alone. -/
theorem kwExtraPart_description (s : FixState) (kw : UpdateKwargs) :
    (kwExtraPart s kw).description = kw.description := by
  unfold kwExtraPart
  split <;> rfl

/-- The extra-fields entry leaves the labels entry alone. -/
theorem kwExtraPart_labels (s : FixState) (kw : UpdateKwargs) :
    (kwExtraPart s kw).labels = kw.labels := by
  unfold kwExtraPart
  split <;> rfl

/-- The summary keyword is sent exactly when the desired title differs. -/
theorem jiraUpdateKwargs_summary (ls : LabelSets) (s : FixState) :
    (jiraUpdateKwargs ls s).summary =
      if s.desired.jiraTitle ≠ s.current.jiraTitle then
        some s.desired.jiraTitle else none := by
  unfold jiraUpdateKwargs
  rw [kwExtraPart_summary, kwEpicPart_summary, kwLabelsPart_summary,
    kwDescriptionPart_summary]
  unfold kwSummaryPart
  split <;> rfl

/-- The description keyword is sent exactly when the desired description
differs. -/
theorem jiraUpdateKwargs_description (ls : LabelSets) (s : FixState) :
    (jiraUpdateKwargs ls s).description =
      if s.desired.jiraDescription ≠ s.current.jiraDescription then
        some s.desired.jiraDescription else none := by
  unfold jiraUpdateKwargs
  rw [kwExtraPart_description, kwEpicPart_description, kwLabelsPart_description]
  unfold kwDescriptionPart
  split
  · rfl
  · rw [kwSummaryPart_description]

/-- The labels keyword is sent exactly when the desired-plus-ad-hoc union
differs. -/
theorem jiraUpdateKwargs_labels (ls : LabelSets) (s : FixState) :
    (jiraUpdateKwargs ls s).labels =
      if s.desired.jiraLabels ∪ (s.current.jiraLabels \ ls.jiraCategory)
          ≠ s.current.jiraLabels then
        some s.desired.jiraLabels else none := by
  unfold jiraUpdateKwargs
  rw [kwExtraPart_labels, kwEpicPart_labels]
  unfold kwLabelsPart
  split
  · rfl
  · rw [kwDescriptionPart_labels, kwSummaryPart_labels]

/-- The extra-fields keyword is sent exactly when the desired extra fields
differ from the current ones restricted to the desired keys. -/
theorem jiraUpdateKwargs_extraFields (ls : LabelSets) (s : FixState) :
    (jiraUpdateKwargs ls s).extraFields =
      if s.desired.jiraExtraFields
          ≠ restrictToDesired s.current.jiraExtraFields s.desired.jiraExtraFields
      then some s.desired.jiraExtraFields else none := by
  unfold jiraUpdateKwargs
  unfold kwExtraPart
  split
  · rfl
  · rw [kwEpicPart_extraFields, (kwLabelsPart_frame ls s _).2,
      (kwDescriptionPart_frame s _).2, (kwSummaryPart_frame s _).2]

/-- Empty update kwargs mean every field condition already holds. -/
theorem jiraUpdateKwargs_eq_empty (ls : LabelSets) (s : FixState)
    (h : jiraUpdateKwargs ls s = ({} : UpdateKwargs)) :
    s.desired.jiraTitle = s.current.jiraTitle ∧
    s.desired.jiraDescription = s.current.jiraDescription ∧
    s.desired.jiraLabels ∪ (s.current.jiraLabels \ ls.jiraCategory)
      = s.current.jiraLabels ∧
    s.desired.jiraExtraFields
      = restrictToDesired s.current.jiraExtraFields s.desired.jiraExtraFields := by
  refine ⟨?_, ?_, ?_, ?_⟩
  · have hc := jiraUpdateKwargs_summary ls s
    rw [h] at hc
    by_cases hd : s.desired.jiraTitle = s.current.jiraTitle
    · exact hd
    · rw [if_pos hd] at hc
      exact Option.noConfusion hc
  · have hc := jiraUpdateKwargs_description ls s
    rw [h] at hc
    by_cases hd : s.desired.jiraDescription = s.current.jiraDescription
    · exact hd
    · rw [if_pos hd] at hc
      exact Option.noConfusion hc
  · have hc := jiraUpdateKwargs_labels ls s
    rw [h] at hc
    by_cases hd : s.desired.jiraLabels ∪ (s.current.jiraLabels \ ls.jiraCategory)
        = s.current.jiraLabels
    · exact hd
    · rw [if_pos hd] at hc
      exact Option.noConfusion hc
  · have hc := jiraUpdateKwargs_extraFields ls s
    rw [h] at hc
    by_cases hd : s.desired.jiraExtraFields
        = restrictToDesired s.current.jiraExtraFields s.desired.jiraExtraFields
    · exact hd
    · rw [if_pos hd] at hc
      exact Option.noConfusion hc

/-- A trace applies one prefix after the other. -/
theorem applyTrace_append (w : World) (l1 l2 : List Action) :
    World.applyTrace w (l1 ++ l2) =
      World.applyTrace (World.applyTrace w l1) l2 :=
  List.foldl_append _ _ _ _

/-- The stored summary after an update. -/
theorem applyUpdate_summary (t : JiraTicket) (kw : UpdateKwargs) :
    (t.applyUpdate kw).summary =
      match kw.summary with
      | some v => v.getD ""
      | none => t.summary := by
  unfold JiraTicket.applyUpdate
  cases kw.summary <;> cases kw.description <;> cases kw.labels <;>
    cases kw.extraFields <;> cases kw.epicLink <;> rfl

/-- The stored description after an update. -/
theorem applyUpdate_description (t : JiraTicket) (kw : UpdateKwargs) :
    (t.applyUpdate kw).description =
      match kw.description with
      | some v => v.getD ""
      | none => t.description := by
  unfold JiraTicket.applyUpdate
  cases kw.summary <;> cases kw.description <;> cases kw.labels <;>
    cases kw.extraFields <;> cases kw.epicLink <;> rfl

/-- The stored labels after an update. -/
theorem applyUpdate_labels (t : JiraTicket) (kw : UpdateKwargs) :
    (t.applyUpdate kw).labels =
      match kw.labels with
      | some lbls => lbls
      | none => t.labels := by
  unfold JiraTicket.applyUpdate
  cases kw.summary <;> cases kw.description <;> cases kw.labels <;>
    cases kw.extraFields <;> cases kw.epicLink <;> rfl

/-- The stored status after an update: updates never transition. -/
theorem applyUpdate_status (t : JiraTicket) (kw : UpdateKwargs) :
    (t.applyUpdate kw).status = t.status := by
  unfold JiraTicket.applyUpdate
  cases kw.summary <;> cases kw.description <;> cases kw.labels <;>
    cases kw.extraFields <;> cases kw.epicLink <;> rfl

/-- The stored extra fields after an update with no epic-link keyword. -/
theorem applyUpdate_extra (t : JiraTicket) (kw : UpdateKwargs)
    (hel : kw.epicLink = none) :
    (t.applyUpdate kw).extra =
      match kw.extraFields with
      | some e => mergeExtra t.extra e
      | none => t.extra := by
  unfold JiraTicket.applyUpdate
  rw [hel]
  cases kw.summary <;> cases kw.description <;> cases kw.labels <;>
    cases kw.extraFields <;> rfl

/-- Merging a dict with itself changes nothing. -/
theorem pickField_self (a : Option String) : pickField a a = a := by
  cases a <;> rfl

/-- Restricting the six stored fields of a self-merged dict to the desired
keys recovers the desired dict, when no epic link is desired. -/
theorem restrict_merge_self (tx des : ExtraFields) (hde : des.epicLink = none) :
    restrictToDesired (restrictSix (mergeExtra tx des)) des = des := by
  rcases des with ⟨p1, p2, p3, p4, p5, p6, p7⟩
  cases hde
  unfold restrictToDesired restrictSix mergeExtra pickField
  rcases p1 with _ | v1 <;> rcases p2 with _ | v2 <;> rcases p3 with _ | v3 <;>
    rcases p4 with _ | v4 <;> rcases p5 with _ | v5 <;> rcases p6 with _ | v6 <;>
    rfl

/-- Merging a dict into itself is the identity. -/
theorem mergeExtra_self (d : ExtraFields) : mergeExtra d d = d := by
  rcases d with ⟨p1, p2, p3, p4, p5, p6, p7⟩
  unfold mergeExtra
  rw [pickField_self, pickField_self, pickField_self, pickField_self,
    pickField_self, pickField_self, pickField_self]

/-- `find?` skips a prefix with no match. -/
theorem find?_append_none {α : Type} (p : α → Bool) (l1 l2 : List α)
    (h : l1.find? p = none) : (l1 ++ l2).find? p = l2.find? p := by
  induction l1 with
  | nil => rfl
  | cons a l ih =>
    by_cases hpa : p a = true
    · rw [List.find?_cons_of_pos _ hpa] at h
      exact Option.noConfusion h
    · rw [List.find?_cons_of_neg _ (by simpa using hpa)] at h
      rw [List.cons_append, List.find?_cons_of_neg _ (by simpa using hpa)]
      exact ih h

/-- Folding kind sets from any accumulator. -/
theorem kindsFold (l : List CommentRec) (acc : Finset BotComment) :
    l.foldl (fun s c => s ∪ c.kindsOf) acc =
      acc ∪ l.foldl (fun s c => s ∪ c.kindsOf) ∅ := by
  induction l generalizing acc with
  | nil => simp
  | cons c l ih =>
    show l.foldl _ (acc ∪ c.kindsOf) = acc ∪ l.foldl _ (∅ ∪ c.kindsOf)
    rw [ih (acc ∪ c.kindsOf), ih (∅ ∪ c.kindsOf)]
    rw [Finset.empty_union, Finset.union_assoc]

/-- The comment-kind indicators of a world with a first comment. -/
theorem existingBotCommentKinds_cons (w : World) (c : CommentRec)
    (rest : List CommentRec) (h : w.comments = c :: rest) :
    existingBotCommentKinds w =
      c.kindsOf ∪ rest.foldl (fun s c => s ∪ c.kindsOf) ∅ := by
  unfold existingBotCommentKinds
  rw [h]
  show rest.foldl _ (∅ ∪ c.kindsOf) = _
  rw [kindsFold, Finset.empty_union]

/-- Re-reconciling an already reconciled label set is a no-op: the wanted
labels plus the ad-hoc part of the previous result are the previous
result. -/
theorem steady_label_target (X L K1 K2 : Finset String) :
    X ∪ (((X ∪ ((L \ K1) \ K2)) \ K1) \ K2) = X ∪ ((L \ K1) \ K2) := by
  ext x
  simp only [Finset.mem_union, Finset.mem_sdiff]
  tauto

/-- The policy never reads the snapshot's label set. -/
theorem desiredSupportState_labels_irrel (env : Env) (pr : PrSnapshot)
    (L : Finset String) :
    desiredSupportState env { pr with labels := L } =
      desiredSupportState env pr := rfl

/-- The renderer-visible view never reads the snapshot's label set. -/
theorem view_labels_irrel (pr : PrSnapshot) (L : Finset String) :
    ({ pr with labels := L } : PrSnapshot).view = pr.view := rfl

/-- What the project branch can change, what project it picks, and which
first-comment kind it chooses. -/
theorem desiredProjectPart_frames (env : Env) (pr : PrSnapshot)
    (d : PrDesiredInfo) :
    (desiredProjectPart env pr d).1.jiraTitle = d.jiraTitle ∧
    (desiredProjectPart env pr d).1.jiraDescription = d.jiraDescription ∧
    (desiredProjectPart env pr d).1.jiraStatus = d.jiraStatus ∧
    (desiredProjectPart env pr d).1.jiraExtraFields.epicLink
      = d.jiraExtraFields.epicLink ∧
    ((desiredProjectPart env pr d).1.jiraProject = some "OSPR" ∨
      (desiredProjectPart env pr d).1.jiraProject = some "BLENDED") ∧
    ((desiredProjectPart env pr d).1.jiraInitialStatus = d.jiraInitialStatus ∨
      (desiredProjectPart env pr d).1.jiraInitialStatus
        = some "Waiting on Author") ∧
    ((desiredProjectPart env pr d).2 = BotComment.welcome ∨
      (desiredProjectPart env pr d).2 = BotComment.coreCommitter ∨
      (desiredProjectPart env pr d).2 = BotComment.blended) := by
  unfold desiredProjectPart
  rcases pr.blendedId with _ | bid
  · dsimp only
    by_cases hc : pr.isCommitter = true
    · rw [if_pos hc]
      by_cases hm : prState pr = "merged"
      · rw [if_pos hm]
        exact ⟨rfl, rfl, rfl, rfl, Or.inl rfl, Or.inr rfl,
          Or.inr (Or.inl rfl)⟩
      · rw [if_neg hm]
        exact ⟨rfl, rfl, rfl, rfl, Or.inl rfl, Or.inr rfl,
          Or.inr (Or.inl rfl)⟩
    · rw [if_neg hc]
      exact ⟨rfl, rfl, rfl, rfl, Or.inl rfl, Or.inl rfl, Or.inl rfl⟩
  · dsimp only
    rcases Option.eq_none_or_eq_some (env.blendedEpic bid) with he | ⟨epic, he⟩ <;>
      rw [he]
    · exact ⟨rfl, rfl, rfl, rfl, Or.inr rfl, Or.inl rfl,
        Or.inr (Or.inr rfl)⟩
    · dsimp only
      rcases Option.eq_none_or_eq_some epic.platformMap12 with hp | ⟨v, hp⟩ <;>
        rw [hp]
      · exact ⟨rfl, rfl, rfl, rfl, Or.inr rfl, Or.inl rfl,
          Or.inr (Or.inr rfl)⟩
      · exact ⟨rfl, rfl, rfl, rfl, Or.inr rfl, Or.inl rfl,
          Or.inr (Or.inr rfl)⟩

/-- The shape of the desired state before the trailing rules. -/
theorem desiredBase_shape (env : Env) (pr : PrSnapshot) :
    (desiredBase env pr).jiraTitle = some pr.title ∧
    (desiredBase env pr).jiraDescription = some (pr.body.getD "") ∧
    (desiredBase env pr).jiraStatus = none ∧
    (desiredBase env pr).jiraExtraFields.epicLink = none ∧
    ((desiredBase env pr).jiraProject = some "OSPR" ∨
      (desiredBase env pr).jiraProject = some "BLENDED") ∧
    (∃ ini, (desiredBase env pr).jiraInitialStatus = some ini) ∧
    (BotComment.welcome ∈ (desiredBase env pr).botComments ∨
      BotComment.coreCommitter ∈ (desiredBase env pr).botComments ∨
      BotComment.blended ∈ (desiredBase env pr).botComments) := by
  obtain ⟨hT, hD, hS, hX, hP, hI, hK⟩ := desiredProjectPart_frames env pr
    { jiraInitialStatus := some "Needs Triage",
      jiraTitle := some pr.title,
      jiraDescription := some (pr.body.getD "") }
  have hmem : BotComment.welcome ∈
        insert (desiredProjectPart env pr
          { jiraInitialStatus := some "Needs Triage",
            jiraTitle := some pr.title,
            jiraDescription := some (pr.body.getD "") }).2
          (desiredProjectPart env pr
            { jiraInitialStatus := some "Needs Triage",
              jiraTitle := some pr.title,
              jiraDescription := some (pr.body.getD "") }).1.botComments ∨
      BotComment.coreCommitter ∈
        insert (desiredProjectPart env pr
          { jiraInitialStatus := some "Needs Triage",
            jiraTitle := some pr.title,
            jiraDescription := some (pr.body.getD "") }).2
          (desiredProjectPart env pr
            { jiraInitialStatus := some "Needs Triage",
              jiraTitle := some pr.title,
              jiraDescription := some (pr.body.getD "") }).1.botComments ∨
      BotComment.blended ∈
        insert (desiredProjectPart env pr
          { jiraInitialStatus := some "Needs Triage",
            jiraTitle := some pr.title,
            jiraDescription := some (pr.body.getD "") }).2
          (desiredProjectPart env pr
            { jiraInitialStatus := some "Needs Triage",
              jiraTitle := some pr.title,
              jiraDescription := some (pr.body.getD "") }).1.botComments := by
    rcases hK with hk | hk | hk
    · exact Or.inl (by rw [← hk]; exact Finset.mem_insert_self _ _)
    · exact Or.inr (Or.inl (by rw [← hk]; exact Finset.mem_insert_self _ _))
    · exact Or.inr (Or.inr (by rw [← hk]; exact Finset.mem_insert_self _ _))
  unfold desiredBase
  dsimp only
  by_cases hd : pr.isDraft = true
  · rw [if_pos hd]
    refine ⟨hT, hD, hS, hX, hP, ⟨"Waiting on Author", rfl⟩, ?_⟩
    rcases hmem with hm | hm | hm
    · exact Or.inl (Finset.mem_insert_of_mem hm)
    · exact Or.inr (Or.inl (Finset.mem_insert_of_mem hm))
    · exact Or.inr (Or.inr (Finset.mem_insert_of_mem hm))
  · rw [if_neg hd]
    refine ⟨hT, hD, hS, hX, hP, ?_, hmem⟩
    rcases hI with hi | hi
    · exact ⟨"Needs Triage", hi⟩
    · exact ⟨"Waiting on Author", hi⟩

/-- The shape of every desired state the policy produces for a
non-contractor pull request. -/
theorem desiredSupportState_shape (env : Env) (pr : PrSnapshot)
    (des : PrDesiredInfo) (h : desiredSupportState env pr = some des)
    (hc : pr.isContractor = false) :
    des.jiraTitle = some pr.title ∧
    des.jiraDescription = some (pr.body.getD "") ∧
    (des.jiraProject = some "OSPR" ∨ des.jiraProject = some "BLENDED") ∧
    (∃ ini, des.jiraInitialStatus = some ini) ∧
    des.jiraExtraFields.epicLink = none ∧
    (BotComment.welcome ∈ des.botComments ∨
      BotComment.coreCommitter ∈ des.botComments ∨
      BotComment.blended ∈ des.botComments) := by
  unfold desiredSupportState at h
  by_cases hb : pr.isBot = true
  · rw [if_pos hb] at h
    exact Option.noConfusion h
  rw [if_neg hb] at h
  by_cases hi : pr.isInternal = true
  · rw [if_pos hi] at h
    exact Option.noConfusion h
  rw [if_neg hi] at h
  rw [if_neg (by rw [hc]; exact Bool.noConfusion)] at h
  have hdes : des = desiredTail pr (desiredBase env pr) :=
    (Option.some_inj.mp h).symm
  subst hdes
  obtain ⟨hBT, hBD, hBS, hBX, hBP, ⟨ini0, hBI⟩, hBK⟩ := desiredBase_shape env pr
  obtain ⟨hCT, hCD, hCP, hCS, hCE, hCX, hCL, hCI, hCbc⟩ :=
    tailClaPart_frames pr (desiredBase env pr)
  obtain ⟨hST, hSD, hSP, hSI, hSE, hSX, hSL, hSbc, hSgh⟩ :=
    tailStatusPart_frames pr (tailClaPart pr (desiredBase env pr))
  obtain ⟨hOT, hOD, hOP, hOI, hOS, hOE, hOX, hOL, hOgh, hObc⟩ :=
    tailOkPart_frames pr (tailStatusPart pr (tailClaPart pr (desiredBase env pr)))
  obtain ⟨hLT, hLD, hLP, hLI, hLS, hLE, hLX, hLL, hLbc, hLgh⟩ :=
    tailLinesPart_frames pr (tailOkPart pr (tailStatusPart pr (tailClaPart pr
      (desiredBase env pr))))
  unfold desiredTail
  refine ⟨?_, ?_, ?_, ?_, ?_, ?_⟩
  · rw [hLT, hOT, hST, hCT, hBT]
  · rw [hLD, hOD, hSD, hCD, hBD]
  · rw [hLP, hOP, hSP, hCP]
    exact hBP
  · rw [hLI, hOI, hSI]
    rcases hCI with hi | hi
    · exact ⟨ini0, by rw [hi, hBI]⟩
    · exact ⟨"Community Manager Review", hi⟩
  · rw [hLX, hOX, hSX, hCX]
    exact hBX
  · have step : ∀ k, k ∈ (desiredBase env pr).botComments →
        k ∈ (tailLinesPart pr (tailOkPart pr (tailStatusPart pr (tailClaPart pr
          (desiredBase env pr))))).botComments := by
      intro k hk
      rw [hLbc]
      exact hObc k (by rw [hSbc]; exact hCbc k hk)
    rcases hBK with hm | hm | hm
    · exact Or.inl (step _ hm)
    · exact Or.inr (Or.inl (step _ hm))
    · exact Or.inr (Or.inr (step _ hm))

/-- The contractor branch of the policy. -/
theorem desiredSupportState_contractor (env : Env) (pr : PrSnapshot)
    (des : PrDesiredInfo) (h : desiredSupportState env pr = some des)
    (hc : pr.isContractor = true) :
    des = { botComments := {BotComment.contractor} } := by
  unfold desiredSupportState at h
  by_cases hb : pr.isBot = true
  · rw [if_pos hb] at h
    exact Option.noConfusion h
  rw [if_neg hb] at h
  by_cases hi : pr.isInternal = true
  · rw [if_pos hi] at h
    exact Option.noConfusion h
  rw [if_neg hi] at h
  rw [if_pos hc] at h
  exact (Option.some_inj.mp h).symm

/-- The key the tracker assigns keeps its project as prefix and is not
empty, for the two projects the policy uses. -/
theorem mkJiraKey_shape (P : String) (hP : P = "OSPR" ∨ P = "BLENDED")
    (n : Nat) :
    projectOf (mkJiraKey P n) = P ∧ mkJiraKey P n ≠ "" := by
  rcases hP with h | h <;> subst h <;>
    exact ⟨rfl, fun hh => List.noConfusion (congrArg String.data hh)⟩

/-- Re-remembering the same draft flag leaves the blob unchanged. -/
theorem blob_set_same (b : Blob) (x : Option Bool) (h : b.draft = x) :
    ({ b with draft := x } : Blob) = b := by
  rcases b with ⟨bd, br⟩
  cases h
  rfl

/-- A non-empty optional string is truthy. -/
theorem optTruthy_some (k : String) (h : k ≠ "") :
    optTruthy (some k) = true := by
  unfold optTruthy
  exact bne_iff_ne.mpr h

/-- Python `or` keeps a truthy left operand. -/
theorem optOr_truthy (a b : Option String) (h : optTruthy a = true) :
    optOr a b = a := by
  unfold optOr
  rw [h]
  rfl

/-- Python `or` skips a `None` left operand. -/
theorem optOr_none (b : Option String) : optOr none b = b := rfl

/-- No summary entry when the title already matches. -/
theorem kwSummaryPart_noop (s : FixState) (kw : UpdateKwargs)
    (h : s.desired.jiraTitle = s.current.jiraTitle) :
    kwSummaryPart s kw = kw := by
  unfold kwSummaryPart
  rw [if_neg (fun hne => hne h)]

/-- No description entry when the description already matches. -/
theorem kwDescriptionPart_noop (s : FixState) (kw : UpdateKwargs)
    (h : s.desired.jiraDescription = s.current.jiraDescription) :
    kwDescriptionPart s kw = kw := by
  unfold kwDescriptionPart
  rw [if_neg (fun hne => hne h)]

/-- No labels entry when the union already matches. -/
theorem kwLabelsPart_noop (ls : LabelSets) (s : FixState) (kw : UpdateKwargs)
    (h : s.desired.jiraLabels ∪ (s.current.jiraLabels \ ls.jiraCategory)
      = s.current.jiraLabels) :
    kwLabelsPart ls s kw = kw := by
  unfold kwLabelsPart
  rw [if_neg (fun hne => hne h)]

/-- No extra-fields entry when the restriction already matches. -/
theorem kwExtraPart_noop (s : FixState) (kw : UpdateKwargs)
    (h : s.desired.jiraExtraFields
      = restrictToDesired s.current.jiraExtraFields s.desired.jiraExtraFields) :
    kwExtraPart s kw = kw := by
  unfold kwExtraPart
  rw [if_neg (fun hne => hne h)]

/-- Empty update kwargs when every field condition already holds. -/
theorem jiraUpdateKwargs_noop (ls : LabelSets) (s : FixState)
    (h1 : s.desired.jiraTitle = s.current.jiraTitle)
    (h2 : s.desired.jiraDescription = s.current.jiraDescription)
    (h3 : s.desired.jiraLabels ∪ (s.current.jiraLabels \ ls.jiraCategory)
      = s.current.jiraLabels)
    (hE : s.desired.jiraEpic = none)
    (h4 : s.desired.jiraExtraFields
      = restrictToDesired s.current.jiraExtraFields s.desired.jiraExtraFields) :
    jiraUpdateKwargs ls s = ({} : UpdateKwargs) := by
  unfold jiraUpdateKwargs
  rw [kwSummaryPart_noop s _ h1, kwDescriptionPart_noop s _ h2,
    kwLabelsPart_noop ls s _ h3, kwEpicPart_none s _ hE, kwExtraPart_noop s _ h4]

/-- A fixer state whose current and desired sides already agree is left
untouched by every step after the draft-flag recording: no transition, no
ticket update, no relabel, no comment edit, no secondary comment. -/
theorem tailSteps_steady (ls : LabelSets) (s : FixState)
    (he : s.err = none)
    (hT : optTruthy s.current.jiraId = true →
      s.current.authorActed = false ∧
      (s.desired.jiraStatus = none ∨ s.desired.jiraStatus = s.current.jiraStatus) ∧
      s.desired.jiraTitle = s.current.jiraTitle ∧
      s.desired.jiraDescription = s.current.jiraDescription ∧
      s.desired.jiraLabels ∪ (s.current.jiraLabels \ ls.jiraCategory)
        = s.current.jiraLabels ∧
      s.desired.jiraExtraFields
        = restrictToDesired s.current.jiraExtraFields s.desired.jiraExtraFields)
    (hE : s.desired.jiraEpic = none)
    (hG : githubLabelsTarget ls s = s.current.githubLabels)
    (hH : (s.pr.state = "closed" ∧ s.current.botComments ≠ ∅) ∨
      some (builtPrimary s) = s.current.botComment0Text)
    (hI : secondaryNeeded s = ∅) :
    addBotComments (commentStep (fixGithubLabels ls (jiraStep ls s))) = s := by
  have e5 : jiraStep ls s = s := by
    rcases hx : optTruthy s.current.jiraId with _ | _
    · exact jiraStep_noTicket ls s he hx
    · obtain ⟨hAA, hSt, hTt, hDd, hLl, hXx⟩ := hT hx
      rw [jiraStep_ticket ls s he hx]
      have hov : authorActedOverride s = s := authorActedOverride_skip s (by
        rintro ⟨ha, _⟩
        rw [hAA] at ha
        exact Bool.noConfusion ha)
      have htc : transitionCheck s = s := transitionCheck_noop s hSt
      have hkw : jiraUpdateKwargs ls s = ({} : UpdateKwargs) :=
        jiraUpdateKwargs_noop ls s hTt hDd hLl hE hXx
      rw [show statusTransitionStep s
          = transitionCheck (authorActedOverride s) from rfl, hov, htc]
      exact fixJiraInformation_noop ls s he hkw
  have e6 : fixGithubLabels ls s = s := fixGithubLabels_noop ls s he hG
  have e7 : commentStep s = s := by
    by_cases hsk : s.pr.state = "closed" ∧ s.current.botComments ≠ ∅
    · exact commentStep_skip s he hsk.1 hsk.2
    · rw [commentStep_run s he hsk]
      rcases hH with hH1 | hH1
      · exact absurd hH1 hsk
      · exact fixBotComment_noop s he hH1
  have e8 : addBotComments s = s := addBotComments_noop s he (by
    rw [hI]
    exact Finset.not_mem_empty _)
  rw [e5, e6, e7, e8]

/-- A whole `fix` run on a steady state: the snapshot, the world-derived
current info and the policy-derived desired info already agree, so the
run's only sink call is the unconditional label-taxonomy sync and
`changed` stays false. -/
theorem fixRun_steady (ls : LabelSets) (keyNum : Nat) (pr : PrSnapshot)
    (cur : PrCurrentInfo) (des : PrDesiredInfo)
    (ssA : cur.jiraId = none ∨ ∃ k, cur.jiraId = some k ∧
      cur.jiraMentionedId = some k ∧ des.jiraProject = some (projectOf k))
    (ssB : cur.jiraMentionedId = none → des.jiraProject = none)
    (ssE : des.jiraEpic = none)
    (ssT : optTruthy cur.jiraId = true →
      cur.authorActed = false ∧
      (des.jiraStatus = none ∨ des.jiraStatus = cur.jiraStatus) ∧
      des.jiraTitle = cur.jiraTitle ∧
      des.jiraDescription = cur.jiraDescription ∧
      des.jiraLabels ∪ (cur.jiraLabels \ ls.jiraCategory) = cur.jiraLabels ∧
      des.jiraExtraFields
        = restrictToDesired cur.jiraExtraFields des.jiraExtraFields)
    (ssG : githubLabelsTarget ls (initState pr cur des) = cur.githubLabels)
    (ssH : (pr.state = "closed" ∧ cur.botComments ≠ ∅) ∨
      some (CommentRec.primary (buildPrimaryBody pr.view
        (des.botComments ∩ BOT_COMMENTS_FIRST)
        (optOr cur.jiraId cur.jiraMentionedId) none cur.jiraEpic
        { cur.lastSeenState with draft := some pr.isDraft }))
        = cur.botComment0Text)
    (ssI : (des.botComments \ cur.botComments) \ BOT_COMMENTS_FIRST = ∅) :
    (fixRun ls keyNum pr cur des).acts =
      [Action.synchronizeLabels pr.repoFullName] ∧
    (fixRun ls keyNum pr cur des).happened = false ∧
    (fixRun ls keyNum pr cur des).err = none := by
  have e1 : identityStep (initState pr cur des) = initState pr cur des := by
    rcases ssA with h | ⟨k, h1, h2, h3⟩
    · exact identityStep_noId _ h
    · exact identityStep_keep _ k k h1 h2 (Or.inl h3)
  have e2 : makeIssueFlagStep (initState pr cur des) = initState pr cur des := by
    refine makeIssueFlagStep_skip _ rfl ?_
    rintro ⟨hp, hm⟩
    have hp2 : des.jiraProject.isSome = true := hp
    rw [ssB hm] at hp2
    exact Bool.noConfusion hp2
  have e3 : createOrAdoptStep keyNum (initState pr cur des)
      = initState pr cur des :=
    createOrAdoptStep_noEpic keyNum _ rfl rfl ssE
  have e9 := tailSteps_steady ls
    { initState pr cur des with lastSeenState :=
        { (initState pr cur des).lastSeenState with
            draft := some (initState pr cur des).pr.isDraft } }
    rfl ssT ssE ssG ssH ssI
  unfold fixRun
  rw [e1, e2, e3, draftStep_eq (initState pr cur des) rfl, e9]
  exact ⟨rfl, rfl, rfl⟩

/-- `current_support_state` without a truthy mentioned ticket id. -/
theorem currentSupportState_noId (pr : PrSnapshot) (w : World)
    (h : optTruthy (getJiraIssueKey w) = false) :
    currentSupportState pr w = currentBase pr w := by
  unfold currentSupportState
  dsimp only
  rw [if_neg (fun hc : optTruthy (currentBase pr w).jiraId = true => by
    have hc2 : optTruthy (getJiraIssueKey w) = true := hc
    rw [h] at hc2
    exact Bool.noConfusion hc2)]

/-- `current_support_state` when the mentioned ticket was deleted. -/
theorem currentSupportState_deleted (pr : PrSnapshot) (w : World) (k : String)
    (hk : getJiraIssueKey w = some k) (htr : optTruthy (some k) = true)
    (hnone : w.getJiraIssue k = none) :
    currentSupportState pr w = { currentBase pr w with jiraId := none } := by
  unfold currentSupportState
  dsimp only
  rw [if_pos (show optTruthy (currentBase pr w).jiraId = true by
    show optTruthy (getJiraIssueKey w) = true
    rw [hk]
    exact htr)]
  have harg : (currentBase pr w).jiraId.getD "" = k := by
    show (getJiraIssueKey w).getD "" = k
    rw [hk]
    rfl
  rw [harg, hnone]

/-- `current_support_state` when the mentioned ticket exists. -/
theorem currentSupportState_ticket (pr : PrSnapshot) (w : World) (k : String)
    (t : JiraTicket)
    (hk : getJiraIssueKey w = some k) (htr : optTruthy (some k) = true)
    (hsome : w.getJiraIssue k = some t) :
    currentSupportState pr w =
      { currentBase pr w with
          jiraId := some t.key,
          jiraTitle := some t.summary,
          jiraDescription := some t.description,
          jiraStatus := some t.status,
          jiraLabels := t.labels,
          jiraEpicKey := t.extra.epicLink,
          jiraExtraFields := restrictSix t.extra } := by
  unfold currentSupportState
  dsimp only
  rw [if_pos (show optTruthy (currentBase pr w).jiraId = true by
    show optTruthy (getJiraIssueKey w) = true
    rw [hk]
    exact htr)]
  have harg : (currentBase pr w).jiraId.getD "" = k := by
    show (getJiraIssueKey w).getD "" = k
    rw [hk]
    rfl
  rw [harg, hsome]

/-- A trace with no comment action leaves the comments alone. -/
theorem applyTrace_comments_frame (acts : List Action) :
    ∀ w : World, (∀ a ∈ acts, a.isCommentAction = false) →
      (World.applyTrace w acts).comments = w.comments := by
  induction acts with
  | nil =>
    intro w _
    rfl
  | cons a rest ih =>
    intro w h
    have hstep : World.applyTrace w (a :: rest)
        = World.applyTrace (w.applyAction a) rest := rfl
    rw [hstep, ih _ (fun x hx => h x (List.mem_cons_of_mem _ hx))]
    have ha := h a (List.mem_cons_self _ _)
    cases a <;> first | rfl | exact Bool.noConfusion ha

/-- A trace with no relabel action leaves the pull-request labels alone. -/
theorem applyTrace_prLabels_frame (acts : List Action) :
    ∀ w : World, (∀ a ∈ acts, a.isRelabel = false) →
      (World.applyTrace w acts).prLabels = w.prLabels := by
  induction acts with
  | nil =>
    intro w _
    rfl
  | cons a rest ih =>
    intro w h
    have hstep : World.applyTrace w (a :: rest)
        = World.applyTrace (w.applyAction a) rest := rfl
    rw [hstep, ih _ (fun x hx => h x (List.mem_cons_of_mem _ hx))]
    have ha := h a (List.mem_cons_self _ _)
    cases a <;> first | rfl | exact Bool.noConfusion ha

/-- A trace with no ticket action leaves the tickets alone. -/
theorem applyTrace_tickets_frame (acts : List Action) :
    ∀ w : World, (∀ a ∈ acts, a.isTicketAction = false) →
      (World.applyTrace w acts).tickets = w.tickets := by
  induction acts with
  | nil =>
    intro w _
    rfl
  | cons a rest ih =>
    intro w h
    have hstep : World.applyTrace w (a :: rest)
        = World.applyTrace (w.applyAction a) rest := rfl
    rw [hstep, ih _ (fun x hx => h x (List.mem_cons_of_mem _ hx))]
    have ha := h a (List.mem_cons_self _ _)
    cases a <;> first | rfl | exact Bool.noConfusion ha

/-- `applyUpdate` never changes the remembered old keys. -/
theorem applyUpdate_oldKeys (t : JiraTicket) (kw : UpdateKwargs) :
    (t.applyUpdate kw).oldKeys = t.oldKeys := by
  unfold JiraTicket.applyUpdate
  cases kw.summary <;> cases kw.description <;> cases kw.labels <;>
    cases kw.extraFields <;> cases kw.epicLink <;> rfl

/-- `find?` commutes with a map that preserves the predicate. -/
theorem find?_map_pres {α : Type} (p : α → Bool) (f : α → α)
    (hf : ∀ x, p (f x) = p x) (l : List α) (t : α)
    (h : l.find? p = some t) : (l.map f).find? p = some (f t) := by
  induction l with
  | nil => exact Option.noConfusion h
  | cons a rest ih =>
    by_cases hpa : p a = true
    · rw [List.find?_cons_of_pos _ hpa] at h
      rw [List.map_cons, List.find?_cons_of_pos _ (by rw [hf]; exact hpa)]
      cases h
      rfl
    · rw [List.find?_cons_of_neg _ (by simpa using hpa)] at h
      rw [List.map_cons, List.find?_cons_of_neg _ (by
        rw [hf]
        simpa using hpa)]
      exact ih h

/-- With a truthy mentioned id, the first comment's reference is it. -/
theorem getJiraIssueKey_head (w : World) (b : PrimaryBody)
    (rest : List CommentRec)
    (h : w.comments = CommentRec.primary b :: rest) :
    getJiraIssueKey w = b.jiraId := by
  unfold getJiraIssueKey
  rw [h]
  rfl

/-- With the status rule inactive, the policy asks for no forcing status. -/
theorem desiredSupportState_status_open (env : Env) (pr : PrSnapshot)
    (des : PrDesiredInfo) (h : desiredSupportState env pr = some des)
    (hc : pr.isContractor = false) (hopen : prState pr = "open") :
    des.jiraStatus = none := by
  unfold desiredSupportState at h
  by_cases hb : pr.isBot = true
  · rw [if_pos hb] at h
    exact Option.noConfusion h
  rw [if_neg hb] at h
  by_cases hi : pr.isInternal = true
  · rw [if_pos hi] at h
    exact Option.noConfusion h
  rw [if_neg hi] at h
  rw [if_neg (by rw [hc]; exact Bool.noConfusion)] at h
  have hdes : des = desiredTail pr (desiredBase env pr) :=
    (Option.some_inj.mp h).symm
  subst hdes
  have hstat : tailStatusPart pr (tailClaPart pr (desiredBase env pr))
      = tailClaPart pr (desiredBase env pr) := by
    unfold tailStatusPart
    rw [if_neg (by rw [hopen]; decide), if_neg (by rw [hopen]; decide)]
  obtain ⟨_, _, _, _, hLS, _, _, _, _, _⟩ :=
    tailLinesPart_frames pr (tailOkPart pr (tailStatusPart pr (tailClaPart pr
      (desiredBase env pr))))
  obtain ⟨_, _, _, _, hOS, _, _, _, _, _⟩ :=
    tailOkPart_frames pr (tailStatusPart pr (tailClaPart pr (desiredBase env pr)))
  obtain ⟨_, _, _, hCS, _, _, _, _, _⟩ :=
    tailClaPart_frames pr (desiredBase env pr)
  obtain ⟨_, _, hBS, _, _, _, _⟩ := desiredBase_shape env pr
  unfold desiredTail
  rw [hLS, hOS, hstat, hCS, hBS]

/-- A per-key map over tickets is the identity on fresh keys. -/
theorem map_fresh (lt : List JiraTicket) (k : String)
    (f : JiraTicket → JiraTicket) (hf : ∀ t, t.key ≠ k → f t = t)
    (hfresh : ∀ t ∈ lt, t.key ≠ k) : lt.map f = lt := by
  induction lt with
  | nil => rfl
  | cons a l ih =>
    rw [List.map_cons, hf a (hfresh a (List.mem_cons_self _ _)),
      ih (fun t ht => hfresh t (List.mem_cons_of_mem _ ht))]

/-- Remembering a draft and seeing a non-draft never coincide. -/
theorem draft_and_not_draft (b : Bool) : (b && !b) = false := by
  cases b <;> rfl

/-- The desired labels plus their own ad-hoc part are the desired labels. -/
theorem union_own_sdiff (A C : Finset String) : A ∪ (A \ C) = A :=
  Finset.union_eq_left.mpr Finset.sdiff_subset

/-- `applyUpdate` with only extra fields in the kwargs merges them in. -/
theorem applyUpdate_extraOnly (t : JiraTicket) (d : ExtraFields) :
    t.applyUpdate
      { summary := none, description := none, labels := none,
        epicLink := none, extraFields := some d }
      = { t with extra := mergeExtra t.extra d } := rfl

/-- Restricting an epic-free dict to itself is the identity. -/
theorem restrict_six_self (d : ExtraFields) (h : d.epicLink = none) :
    restrictToDesired (restrictSix d) d = d := by
  have hr := restrict_merge_self d d h
  rw [mergeExtra_self] at hr
  exact hr

/-- With no desired epic, `makeIssueExtra` is just the desired extra fields. -/
theorem makeIssueExtra_epicFree (s : FixState)
    (h : s.desired.jiraEpic = none) :
    makeIssueExtra s = s.desired.jiraExtraFields := by
  unfold makeIssueExtra
  rw [h]

/-- With no desired epic, `madeIssueCurrent` adopts the desired fields and
keeps the epic key empty. -/
theorem madeIssueCurrent_epicFree (key : String) (s : FixState)
    (h : s.desired.jiraEpic = none) :
    madeIssueCurrent key s =
      { s.current with
        jiraId := some key,
        jiraStatus := some "Needs Triage",
        jiraTitle := s.desired.jiraTitle,
        jiraDescription := s.desired.jiraDescription,
        jiraLabels := s.desired.jiraLabels,
        jiraEpic := none } := by
  unfold madeIssueCurrent
  rw [h]

/-- With no desired epic, `jiraInfoUpdatedCurrent` adopts the desired
fields and clears the epic. -/
theorem jiraInfoUpdatedCurrent_epicFree (s : FixState)
    (h : s.desired.jiraEpic = none) :
    jiraInfoUpdatedCurrent s =
      { s.current with
        jiraTitle := s.desired.jiraTitle,
        jiraDescription := s.desired.jiraDescription,
        jiraLabels := s.desired.jiraLabels,
        jiraEpic := none,
        jiraExtraFields := s.desired.jiraExtraFields } := by
  unfold jiraInfoUpdatedCurrent
  rw [h]

/-- One run of `fix` on a fresh pull request (no comments yet) in a world
whose labels match the snapshot: the run cannot fail, and it leaves the
world and snapshot in a steady state for the next run. -/
theorem run1_fresh (ls : LabelSets) (keyNum : Nat) (pr : PrSnapshot)
    (wt : List JiraTicket) (des : PrDesiredInfo) (env : Env)
    (H1 : desiredSupportState env pr = some des)
    (hc : pr.isContractor = false)
    (H2 : des.jiraEpic = none)
    (H5 : ∀ P, des.jiraProject = some P → ∀ t ∈ wt,
      t.key ≠ mkJiraKey P keyNum ∧ mkJiraKey P keyNum ∉ t.oldKeys) :
    ∀ w1 pr2 cur2,
      w1 = World.applyTrace ⟨wt, pr.labels, []⟩
        (fixRun ls keyNum pr
          (currentSupportState pr ⟨wt, pr.labels, []⟩) des).acts →
      pr2 = { pr with labels := w1.prLabels } →
      cur2 = currentSupportState pr2 w1 →
      (fixRun ls keyNum pr (currentSupportState pr ⟨wt, pr.labels, []⟩) des).err
        = none ∧
      (cur2.jiraId = none ∨ ∃ k, cur2.jiraId = some k ∧
        cur2.jiraMentionedId = some k ∧ des.jiraProject = some (projectOf k)) ∧
      (cur2.jiraMentionedId = none → des.jiraProject = none) ∧
      (optTruthy cur2.jiraId = true →
        cur2.authorActed = false ∧
        (des.jiraStatus = none ∨ des.jiraStatus = cur2.jiraStatus) ∧
        des.jiraTitle = cur2.jiraTitle ∧
        des.jiraDescription = cur2.jiraDescription ∧
        des.jiraLabels ∪ (cur2.jiraLabels \ ls.jiraCategory) = cur2.jiraLabels ∧
        des.jiraExtraFields
          = restrictToDesired cur2.jiraExtraFields des.jiraExtraFields) ∧
      githubLabelsTarget ls (initState pr2 cur2 des) = cur2.githubLabels ∧
      ((pr2.state = "closed" ∧ cur2.botComments ≠ ∅) ∨
        some (CommentRec.primary (buildPrimaryBody pr2.view
          (des.botComments ∩ BOT_COMMENTS_FIRST)
          (optOr cur2.jiraId cur2.jiraMentionedId) none cur2.jiraEpic
          { cur2.lastSeenState with draft := some pr2.isDraft }))
          = cur2.botComment0Text) ∧
      (des.botComments \ cur2.botComments) \ BOT_COMMENTS_FIRST = ∅ := by
  have hcur : currentSupportState pr ⟨wt, pr.labels, []⟩
      = ({ githubLabels := pr.labels } : PrCurrentInfo) := by
    rw [currentSupportState_noId pr ⟨wt, pr.labels, []⟩ rfl]
    rfl
  obtain ⟨hsT, hsD, hsP, ⟨ini, hsI⟩, hsX, hsK⟩ :=
    desiredSupportState_shape env pr des H1 hc
  obtain ⟨P, hProj, hPor⟩ : ∃ P, des.jiraProject = some P ∧
      (P = "OSPR" ∨ P = "BLENDED") := by
    rcases hsP with h | h
    · exact ⟨_, h, Or.inl rfl⟩
    · exact ⟨_, h, Or.inr rfl⟩
  obtain ⟨hPproj, hPne⟩ := mkJiraKey_shape P hPor keyNum
  have hfr : ∀ t ∈ wt, t.key ≠ mkJiraKey P keyNum :=
    fun t ht => (H5 P hProj t ht).1
  have hfr2 : ∀ t ∈ wt, mkJiraKey P keyNum ∉ t.oldKeys :=
    fun t ht => (H5 P hProj t ht).2
  have htr : optTruthy (some (mkJiraKey P keyNum)) = true := optTruthy_some _ hPne
  rw [hcur]
  intro w1 pr2 cur2 hw1 hpr2 hcur2
  subst hw1
  subst hpr2
  subst hcur2
  have d1 : identityStep (initState pr { githubLabels := pr.labels } des)
      = initState pr { githubLabels := pr.labels } des :=
    identityStep_noId _ rfl
  have d2 : makeIssueFlagStep (initState pr { githubLabels := pr.labels } des)
      = { pr := pr, current := { githubLabels := pr.labels }, desired := des,
          lastSeenState := {},
          acts := [Action.synchronizeLabels pr.repoFullName],
          makeIssue := true } := by
    rw [makeIssueFlagStep_set _ rfl (by
      show des.jiraProject.isSome = true
      rw [hProj]
      rfl) rfl]
    rfl
  have hmex : makeIssueExtra
      { pr := pr, current := { githubLabels := pr.labels }, desired := des,
        lastSeenState := {},
        acts := [Action.synchronizeLabels pr.repoFullName],
        makeIssue := true } = des.jiraExtraFields :=
    makeIssueExtra_epicFree _ H2
  have hmic : madeIssueCurrent (mkJiraKey P keyNum)
      { pr := pr, current := { githubLabels := pr.labels }, desired := des,
        lastSeenState := {},
        acts := [Action.synchronizeLabels pr.repoFullName],
        makeIssue := true } =
      { jiraMentionedId := none, jiraId := some (mkJiraKey P keyNum),
        jiraTitle := des.jiraTitle, jiraDescription := des.jiraDescription,
        jiraStatus := some "Needs Triage", jiraLabels := des.jiraLabels,
        githubLabels := pr.labels } := by
    rw [madeIssueCurrent_epicFree _ _ H2]
  obtain ⟨δc, d3, hwc⟩ :
      ∃ δc,
        createOrAdoptStep keyNum
          { pr := pr, current := { githubLabels := pr.labels }, desired := des,
            lastSeenState := {},
            acts := [Action.synchronizeLabels pr.repoFullName],
            makeIssue := true } =
          { pr := pr,
            current :=
              { jiraMentionedId := none,
                jiraId := some (mkJiraKey P keyNum),
                jiraTitle := des.jiraTitle,
                jiraDescription := des.jiraDescription,
                jiraStatus := some ini, jiraLabels := des.jiraLabels,
                githubLabels := pr.labels },
            desired := des, lastSeenState := {}, happened := true,
            acts := Action.synchronizeLabels pr.repoFullName :: δc,
            makeIssue := true } ∧
        ∀ (lt : List JiraTicket) (pl : Finset String) (cs : List CommentRec),
          (∀ t ∈ lt, t.key ≠ mkJiraKey P keyNum) →
          World.applyTrace ⟨lt, pl, cs⟩ δc =
            ⟨lt ++ [freshTicket P keyNum des ini], pl, cs⟩ := by
    by_cases hnt : ini = "Needs Triage"
    · subst hnt
      refine ⟨[Action.createOsprIssue (mkJiraKey P keyNum) pr.htmlUrl P
        des.jiraTitle des.jiraDescription des.jiraLabels pr.userName
        pr.institution des.jiraExtraFields], ?_, ?_⟩
      · rw [createOrAdoptStep_create keyNum _ rfl rfl]
        rw [makeJiraIssue_noTrans keyNum _ P rfl hProj hsI]
        rw [hmex, hmic]
        rfl
      · intro lt pl cs _
        rfl
    · refine ⟨[Action.createOsprIssue (mkJiraKey P keyNum) pr.htmlUrl P
        des.jiraTitle des.jiraDescription des.jiraLabels pr.userName
        pr.institution des.jiraExtraFields,
        Action.transitionJiraIssue (mkJiraKey P keyNum) ini], ?_, ?_⟩
      · rw [createOrAdoptStep_create keyNum _ rfl rfl]
        rw [makeJiraIssue_trans keyNum _ P ini rfl hProj hsI hnt]
        rw [hmex, hmic]
        rfl
      · intro lt pl cs hfresh
        show (⟨(lt ++ [freshTicket P keyNum des "Needs Triage"]).map
                  (fun t => if t.key = mkJiraKey P keyNum then
                    { t with status := ini } else t), pl, cs⟩ : World) = _
        rw [List.map_append,
          map_fresh lt (mkJiraKey P keyNum) _ (fun t ht => if_neg ht) hfresh]
        refine congrArg (fun z => (⟨lt ++ z, pl, cs⟩ : World)) ?_
        rw [List.map_cons, List.map_nil]
        rw [if_pos (show (freshTicket P keyNum des "Needs Triage").key
          = mkJiraKey P keyNum from rfl)]
        rfl
  have d4 : draftStep
      { pr := pr,
        current :=
          { jiraMentionedId := none,
            jiraId := some (mkJiraKey P keyNum),
            jiraTitle := des.jiraTitle, jiraDescription := des.jiraDescription,
            jiraStatus := some ini, jiraLabels := des.jiraLabels,
            githubLabels := pr.labels },
        desired := des, lastSeenState := {}, happened := true,
        acts := Action.synchronizeLabels pr.repoFullName :: δc,
        makeIssue := true } =
      { pr := pr,
        current :=
          { jiraMentionedId := none,
            jiraId := some (mkJiraKey P keyNum),
            jiraTitle := des.jiraTitle, jiraDescription := des.jiraDescription,
            jiraStatus := some ini, jiraLabels := des.jiraLabels,
            githubLabels := pr.labels },
        desired := des, lastSeenState := { draft := some pr.isDraft },
        happened := true,
        acts := Action.synchronizeLabels pr.repoFullName :: δc,
        makeIssue := true } := by
    rw [draftStep_eq _ rfl]
  obtain ⟨stF, δj, xf, hSD, d5, hwj⟩ :
      ∃ stF δj xf,
        (des.jiraStatus = none ∨ des.jiraStatus = some stF) ∧
        jiraStep ls
          { pr := pr,
            current :=
              { jiraMentionedId := none,
                jiraId := some (mkJiraKey P keyNum),
                jiraTitle := des.jiraTitle,
                jiraDescription := des.jiraDescription,
                jiraStatus := some ini, jiraLabels := des.jiraLabels,
                githubLabels := pr.labels },
            desired := des, lastSeenState := { draft := some pr.isDraft },
            happened := true,
            acts := Action.synchronizeLabels pr.repoFullName :: δc,
            makeIssue := true } =
          { pr := pr,
            current :=
              { jiraMentionedId := none,
                jiraId := some (mkJiraKey P keyNum),
                jiraTitle := des.jiraTitle,
                jiraDescription := des.jiraDescription,
                jiraStatus := some stF, jiraLabels := des.jiraLabels,
                jiraExtraFields := xf,
                githubLabels := pr.labels },
            desired := des, lastSeenState := { draft := some pr.isDraft },
            happened := true,
            acts := (Action.synchronizeLabels pr.repoFullName :: δc) ++ δj,
            makeIssue := true } ∧
        ∀ (lt : List JiraTicket) (pl : Finset String) (cs : List CommentRec),
          (∀ t ∈ lt, t.key ≠ mkJiraKey P keyNum) →
          World.applyTrace
            ⟨lt ++ [freshTicket P keyNum des ini], pl, cs⟩ δj =
            ⟨lt ++ [freshTicket P keyNum des stF], pl, cs⟩ := by
    have hfixu : ∀ (st : String) (ac : List Action),
        ∃ (δu : List Action) (xf : ExtraFields),
          fixJiraInformation ls
            { pr := pr,
              current :=
                { jiraMentionedId := none,
                  jiraId := some (mkJiraKey P keyNum),
                  jiraTitle := des.jiraTitle,
                  jiraDescription := des.jiraDescription,
                  jiraStatus := some st, jiraLabels := des.jiraLabels,
                  githubLabels := pr.labels },
              desired := des, lastSeenState := { draft := some pr.isDraft },
              happened := true, acts := ac, makeIssue := true } =
            { pr := pr,
              current :=
                { jiraMentionedId := none,
                  jiraId := some (mkJiraKey P keyNum),
                  jiraTitle := des.jiraTitle,
                  jiraDescription := des.jiraDescription,
                  jiraStatus := some st, jiraLabels := des.jiraLabels,
                  jiraExtraFields := xf,
                  githubLabels := pr.labels },
              desired := des, lastSeenState := { draft := some pr.isDraft },
              happened := true, acts := ac ++ δu, makeIssue := true } ∧
          ∀ (lt : List JiraTicket) (pl : Finset String) (cs : List CommentRec),
            (∀ t ∈ lt, t.key ≠ mkJiraKey P keyNum) →
            World.applyTrace
              ⟨lt ++ [freshTicket P keyNum des st], pl, cs⟩ δu =
              ⟨lt ++ [freshTicket P keyNum des st], pl, cs⟩ := by
      intro st ac
      by_cases hkw : jiraUpdateKwargs ls
          { pr := pr,
            current :=
              { jiraMentionedId := none,
                jiraId := some (mkJiraKey P keyNum),
                jiraTitle := des.jiraTitle,
                jiraDescription := des.jiraDescription,
                jiraStatus := some st, jiraLabels := des.jiraLabels,
                githubLabels := pr.labels },
            desired := des, lastSeenState := { draft := some pr.isDraft },
            happened := true, acts := ac, makeIssue := true }
          = ({} : UpdateKwargs)
      · refine ⟨[], ({} : ExtraFields), ?_, ?_⟩
        · rw [fixJiraInformation_noop ls _ rfl hkw, List.append_nil]
        · intro lt pl cs _
          rfl
      · have hks : (jiraUpdateKwargs ls
            { pr := pr,
              current :=
                { jiraMentionedId := none,
                  jiraId := some (mkJiraKey P keyNum),
                  jiraTitle := des.jiraTitle,
                  jiraDescription := des.jiraDescription,
                  jiraStatus := some st, jiraLabels := des.jiraLabels,
                  githubLabels := pr.labels },
              desired := des, lastSeenState := { draft := some pr.isDraft },
              happened := true, acts := ac, makeIssue := true }).summary
            = none := by
          rw [jiraUpdateKwargs_summary]
          rw [if_neg (fun hne => hne rfl)]
        have hkd : (jiraUpdateKwargs ls
            { pr := pr,
              current :=
                { jiraMentionedId := none,
                  jiraId := some (mkJiraKey P keyNum),
                  jiraTitle := des.jiraTitle,
                  jiraDescription := des.jiraDescription,
                  jiraStatus := some st, jiraLabels := des.jiraLabels,
                  githubLabels := pr.labels },
              desired := des, lastSeenState := { draft := some pr.isDraft },
              happened := true, acts := ac, makeIssue := true }).description
            = none := by
          rw [jiraUpdateKwargs_description]
          rw [if_neg (fun hne => hne rfl)]
        have hkl : (jiraUpdateKwargs ls
            { pr := pr,
              current :=
                { jiraMentionedId := none,
                  jiraId := some (mkJiraKey P keyNum),
                  jiraTitle := des.jiraTitle,
                  jiraDescription := des.jiraDescription,
                  jiraStatus := some st, jiraLabels := des.jiraLabels,
                  githubLabels := pr.labels },
              desired := des, lastSeenState := { draft := some pr.isDraft },
              happened := true, acts := ac, makeIssue := true }).labels
            = none := by
          rw [jiraUpdateKwargs_labels]
          rw [if_neg (fun hne => hne (union_own_sdiff _ _))]
        have hke : (jiraUpdateKwargs ls
            { pr := pr,
              current :=
                { jiraMentionedId := none,
                  jiraId := some (mkJiraKey P keyNum),
                  jiraTitle := des.jiraTitle,
                  jiraDescription := des.jiraDescription,
                  jiraStatus := some st, jiraLabels := des.jiraLabels,
                  githubLabels := pr.labels },
              desired := des, lastSeenState := { draft := some pr.isDraft },
              happened := true, acts := ac, makeIssue := true }).epicLink
            = none :=
          (jiraUpdateKwargs_epicFree ls _ H2 hsX).1
        have hkx : (jiraUpdateKwargs ls
            { pr := pr,
              current :=
                { jiraMentionedId := none,
                  jiraId := some (mkJiraKey P keyNum),
                  jiraTitle := des.jiraTitle,
                  jiraDescription := des.jiraDescription,
                  jiraStatus := some st, jiraLabels := des.jiraLabels,
                  githubLabels := pr.labels },
              desired := des, lastSeenState := { draft := some pr.isDraft },
              happened := true, acts := ac, makeIssue := true }).extraFields
            = some des.jiraExtraFields := by
          rw [jiraUpdateKwargs_extraFields]
          by_cases hxx : des.jiraExtraFields
              ≠ restrictToDesired ({} : ExtraFields) des.jiraExtraFields
          · rw [if_pos hxx]
          · exfalso
            apply hkw
            have h5 : jiraUpdateKwargs ls
                { pr := pr,
                  current :=
                    { jiraMentionedId := none,
                      jiraId := some (mkJiraKey P keyNum),
                      jiraTitle := des.jiraTitle,
                      jiraDescription := des.jiraDescription,
                      jiraStatus := some st, jiraLabels := des.jiraLabels,
                      githubLabels := pr.labels },
                  desired := des, lastSeenState := { draft := some pr.isDraft },
                  happened := true, acts := ac, makeIssue := true } =
                { summary := (jiraUpdateKwargs ls _).summary,
                  description := (jiraUpdateKwargs ls _).description,
                  labels := (jiraUpdateKwargs ls _).labels,
                  epicLink := (jiraUpdateKwargs ls _).epicLink,
                  extraFields := (jiraUpdateKwargs ls _).extraFields } := rfl
            rw [hks, hkd, hkl, hke, jiraUpdateKwargs_extraFields,
              if_neg hxx] at h5
            exact h5
        have hKW : jiraUpdateKwargs ls
            { pr := pr,
              current :=
                { jiraMentionedId := none,
                  jiraId := some (mkJiraKey P keyNum),
                  jiraTitle := des.jiraTitle,
                  jiraDescription := des.jiraDescription,
                  jiraStatus := some st, jiraLabels := des.jiraLabels,
                  githubLabels := pr.labels },
              desired := des, lastSeenState := { draft := some pr.isDraft },
              happened := true, acts := ac, makeIssue := true } =
            { summary := none, description := none, labels := none,
              epicLink := none,
              extraFields := some des.jiraExtraFields } := by
          have h5 : jiraUpdateKwargs ls
              { pr := pr,
                current :=
                  { jiraMentionedId := none,
                    jiraId := some (mkJiraKey P keyNum),
                    jiraTitle := des.jiraTitle,
                    jiraDescription := des.jiraDescription,
                    jiraStatus := some st, jiraLabels := des.jiraLabels,
                    githubLabels := pr.labels },
                desired := des, lastSeenState := { draft := some pr.isDraft },
                happened := true, acts := ac, makeIssue := true } =
              { summary := (jiraUpdateKwargs ls _).summary,
                description := (jiraUpdateKwargs ls _).description,
                labels := (jiraUpdateKwargs ls _).labels,
                epicLink := (jiraUpdateKwargs ls _).epicLink,
                extraFields := (jiraUpdateKwargs ls _).extraFields } := rfl
          rw [hks, hkd, hkl, hke, hkx] at h5
          exact h5
        have hjic : jiraInfoUpdatedCurrent
            { pr := pr,
              current :=
                { jiraMentionedId := none,
                  jiraId := some (mkJiraKey P keyNum),
                  jiraTitle := des.jiraTitle,
                  jiraDescription := des.jiraDescription,
                  jiraStatus := some st, jiraLabels := des.jiraLabels,
                  githubLabels := pr.labels },
              desired := des, lastSeenState := { draft := some pr.isDraft },
              happened := true, acts := ac, makeIssue := true } =
            { jiraMentionedId := none, jiraId := some (mkJiraKey P keyNum),
              jiraTitle := des.jiraTitle,
              jiraDescription := des.jiraDescription,
              jiraStatus := some st, jiraLabels := des.jiraLabels,
              jiraExtraFields := des.jiraExtraFields,
              githubLabels := pr.labels } := by
          rw [jiraInfoUpdatedCurrent_epicFree _ H2]
        refine ⟨[Action.updateJiraIssue (mkJiraKey P keyNum)
          (jiraUpdateKwargs ls
            { pr := pr,
              current :=
                { jiraMentionedId := none,
                  jiraId := some (mkJiraKey P keyNum),
                  jiraTitle := des.jiraTitle,
                  jiraDescription := des.jiraDescription,
                  jiraStatus := some st, jiraLabels := des.jiraLabels,
                  githubLabels := pr.labels },
              desired := des, lastSeenState := { draft := some pr.isDraft },
              happened := true, acts := ac, makeIssue := true })],
          des.jiraExtraFields, ?_, ?_⟩
        · rw [fixJiraInformation_update ls _ (mkJiraKey P keyNum) rfl hkw rfl]
          rw [hjic]
        · intro lt pl cs hfresh
          rw [hKW]
          show (⟨(lt ++ [freshTicket P keyNum des st]).map
                    (fun t => if t.key = mkJiraKey P keyNum then
                      t.applyUpdate
                        { summary := none, description := none,
                          labels := none, epicLink := none,
                          extraFields := some des.jiraExtraFields } else t),
                  pl, cs⟩ : World) = _
          rw [List.map_append,
            map_fresh lt (mkJiraKey P keyNum) _ (fun t ht => if_neg ht) hfresh]
          refine congrArg (fun z => (⟨lt ++ z, pl, cs⟩ : World)) ?_
          rw [List.map_cons, List.map_nil]
          rw [if_pos (show (freshTicket P keyNum des st).key
            = mkJiraKey P keyNum from rfl)]
          rw [applyUpdate_extraOnly]
          rw [show (freshTicket P keyNum des st).extra = des.jiraExtraFields
            from rfl, mergeExtra_self]
          rfl
    rcases Option.eq_none_or_eq_some des.jiraStatus with hds | ⟨v, hds⟩
    · obtain ⟨δu, xf, hu, hwu⟩ := hfixu ini
        (Action.synchronizeLabels pr.repoFullName :: δc)
      refine ⟨ini, δu, xf, Or.inl hds, ?_, hwu⟩
      rw [jiraStep_ticket ls _ rfl htr,
        show statusTransitionStep
          { pr := pr,
            current :=
              { jiraMentionedId := none,
                jiraId := some (mkJiraKey P keyNum),
                jiraTitle := des.jiraTitle,
                jiraDescription := des.jiraDescription,
                jiraStatus := some ini, jiraLabels := des.jiraLabels,
                githubLabels := pr.labels },
            desired := des, lastSeenState := { draft := some pr.isDraft },
            happened := true,
            acts := Action.synchronizeLabels pr.repoFullName :: δc,
            makeIssue := true } =
          transitionCheck (authorActedOverride
            { pr := pr,
              current :=
                { jiraMentionedId := none,
                  jiraId := some (mkJiraKey P keyNum),
                  jiraTitle := des.jiraTitle,
                  jiraDescription := des.jiraDescription,
                  jiraStatus := some ini, jiraLabels := des.jiraLabels,
                  githubLabels := pr.labels },
              desired := des, lastSeenState := { draft := some pr.isDraft },
              happened := true,
              acts := Action.synchronizeLabels pr.repoFullName :: δc,
              makeIssue := true }) from rfl,
        authorActedOverride_skip _ (by
          rintro ⟨ha, _⟩
          exact Bool.noConfusion ha),
        transitionCheck_noop _ (Or.inl hds)]
      exact hu
    · by_cases hveq : v = ini
      · subst hveq
        obtain ⟨δu, xf, hu, hwu⟩ := hfixu v
          (Action.synchronizeLabels pr.repoFullName :: δc)
        refine ⟨v, δu, xf, Or.inr hds, ?_, hwu⟩
        rw [jiraStep_ticket ls _ rfl htr,
          show statusTransitionStep
            { pr := pr,
              current :=
                { jiraMentionedId := none,
                  jiraId := some (mkJiraKey P keyNum),
                  jiraTitle := des.jiraTitle,
                  jiraDescription := des.jiraDescription,
                  jiraStatus := some v, jiraLabels := des.jiraLabels,
                  githubLabels := pr.labels },
              desired := des, lastSeenState := { draft := some pr.isDraft },
              happened := true,
              acts := Action.synchronizeLabels pr.repoFullName :: δc,
              makeIssue := true } =
            transitionCheck (authorActedOverride
              { pr := pr,
                current :=
                  { jiraMentionedId := none,
                    jiraId := some (mkJiraKey P keyNum),
                    jiraTitle := des.jiraTitle,
                    jiraDescription := des.jiraDescription,
                    jiraStatus := some v, jiraLabels := des.jiraLabels,
                    githubLabels := pr.labels },
                desired := des, lastSeenState := { draft := some pr.isDraft },
                happened := true,
                acts := Action.synchronizeLabels pr.repoFullName :: δc,
                makeIssue := true }) from rfl,
          authorActedOverride_skip _ (by
            rintro ⟨ha, _⟩
            exact Bool.noConfusion ha),
          transitionCheck_noop _ (Or.inr hds)]
        exact hu
      · obtain ⟨δu, xf, hu, hwu⟩ := hfixu v
          ((Action.synchronizeLabels pr.repoFullName :: δc)
            ++ [Action.transitionJiraIssue (mkJiraKey P keyNum) v])
        refine ⟨v, [Action.transitionJiraIssue (mkJiraKey P keyNum) v] ++ δu,
          xf, Or.inr hds, ?_, ?_⟩
        · rw [jiraStep_ticket ls _ rfl htr,
            show statusTransitionStep
              { pr := pr,
                current :=
                  { jiraMentionedId := none,
                    jiraId := some (mkJiraKey P keyNum),
                    jiraTitle := des.jiraTitle,
                    jiraDescription := des.jiraDescription,
                    jiraStatus := some ini, jiraLabels := des.jiraLabels,
                    githubLabels := pr.labels },
                desired := des, lastSeenState := { draft := some pr.isDraft },
                happened := true,
                acts := Action.synchronizeLabels pr.repoFullName :: δc,
                makeIssue := true } =
              transitionCheck (authorActedOverride
                { pr := pr,
                  current :=
                    { jiraMentionedId := none,
                      jiraId := some (mkJiraKey P keyNum),
                      jiraTitle := des.jiraTitle,
                      jiraDescription := des.jiraDescription,
                      jiraStatus := some ini, jiraLabels := des.jiraLabels,
                      githubLabels := pr.labels },
                  desired := des, lastSeenState := { draft := some pr.isDraft },
                  happened := true,
                  acts := Action.synchronizeLabels pr.repoFullName :: δc,
                  makeIssue := true }) from rfl,
            authorActedOverride_skip _ (by
              rintro ⟨ha, _⟩
              exact Bool.noConfusion ha),
            transitionCheck_transition _ v (mkJiraKey P keyNum) hds
              (fun hcon => hveq (Option.some_inj.mp hcon)) rfl]
          dsimp only
          rw [hu, List.append_assoc]
        · intro lt pl cs hfresh
          rw [applyTrace_append]
          rw [show World.applyTrace
              ⟨lt ++ [freshTicket P keyNum des ini], pl, cs⟩
              [Action.transitionJiraIssue (mkJiraKey P keyNum) v] =
              ⟨lt ++ [freshTicket P keyNum des v], pl, cs⟩ from by
            show (⟨(lt ++ [freshTicket P keyNum des ini]).map
                      (fun t => if t.key = mkJiraKey P keyNum then
                        { t with status := v } else t), pl, cs⟩ : World) = _
            rw [List.map_append,
              map_fresh lt (mkJiraKey P keyNum) _ (fun t ht => if_neg ht)
                hfresh]
            refine congrArg (fun z => (⟨lt ++ z, pl, cs⟩ : World)) ?_
            rw [List.map_cons, List.map_nil]
            rw [if_pos (show (freshTicket P keyNum des ini).key
              = mkJiraKey P keyNum from rfl)]
            rfl]
          exact hwu lt pl cs hfresh
  obtain ⟨δl, d6, hwl⟩ :
      ∃ δl,
        fixGithubLabels ls
          { pr := pr,
            current :=
              { jiraMentionedId := none,
                jiraId := some (mkJiraKey P keyNum),
                jiraTitle := des.jiraTitle,
                jiraDescription := des.jiraDescription,
                jiraStatus := some stF, jiraLabels := des.jiraLabels,
                jiraExtraFields := xf,
                githubLabels := pr.labels },
            desired := des, lastSeenState := { draft := some pr.isDraft },
            happened := true,
            acts := (Action.synchronizeLabels pr.repoFullName :: δc) ++ δj,
            makeIssue := true } =
          { pr := pr,
            current :=
              { jiraMentionedId := none,
                jiraId := some (mkJiraKey P keyNum),
                jiraTitle := des.jiraTitle,
                jiraDescription := des.jiraDescription,
                jiraStatus := some stF, jiraLabels := des.jiraLabels,
                jiraExtraFields := xf,
                githubLabels := pr.labels },
            desired := des, lastSeenState := { draft := some pr.isDraft },
            happened := true,
            acts := ((Action.synchronizeLabels pr.repoFullName :: δc) ++ δj)
              ++ δl,
            makeIssue := true } ∧
        ∀ (lt : List JiraTicket) (cs : List CommentRec),
          World.applyTrace ⟨lt, pr.labels, cs⟩ δl =
            ⟨lt, githubLabelsTarget ls
              { pr := pr,
                current :=
                  { jiraMentionedId := none,
                    jiraId := some (mkJiraKey P keyNum),
                    jiraTitle := des.jiraTitle,
                    jiraDescription := des.jiraDescription,
                    jiraStatus := some stF, jiraLabels := des.jiraLabels,
                    jiraExtraFields := xf,
                    githubLabels := pr.labels },
                desired := des, lastSeenState := { draft := some pr.isDraft },
                happened := true,
                acts := (Action.synchronizeLabels pr.repoFullName :: δc) ++ δj,
                makeIssue := true }, cs⟩ := by
    by_cases hlc : githubLabelsTarget ls
        { pr := pr,
          current :=
            { jiraMentionedId := none,
              jiraId := some (mkJiraKey P keyNum),
              jiraTitle := des.jiraTitle,
              jiraDescription := des.jiraDescription,
              jiraStatus := some stF, jiraLabels := des.jiraLabels,
              jiraExtraFields := xf,
              githubLabels := pr.labels },
          desired := des, lastSeenState := { draft := some pr.isDraft },
          happened := true,
          acts := (Action.synchronizeLabels pr.repoFullName :: δc) ++ δj,
          makeIssue := true } = pr.labels
    · refine ⟨[], ?_, ?_⟩
      · rw [fixGithubLabels_noop ls _ rfl hlc, List.append_nil]
      · intro lt cs
        rw [hlc]
        rfl
    · refine ⟨[Action.updateLabelsOnPullRequest (githubLabelsTarget ls
        { pr := pr,
          current :=
            { jiraMentionedId := none,
              jiraId := some (mkJiraKey P keyNum),
              jiraTitle := des.jiraTitle,
              jiraDescription := des.jiraDescription,
              jiraStatus := some stF, jiraLabels := des.jiraLabels,
              jiraExtraFields := xf,
              githubLabels := pr.labels },
          desired := des, lastSeenState := { draft := some pr.isDraft },
          happened := true,
          acts := (Action.synchronizeLabels pr.repoFullName :: δc) ++ δj,
          makeIssue := true })], ?_, ?_⟩
      · rw [fixGithubLabels_update ls _ rfl hlc]
      · intro lt cs
        rfl
  have hbuilt : builtPrimary
      { pr := pr,
        current :=
          { jiraMentionedId := none,
            jiraId := some (mkJiraKey P keyNum),
            jiraTitle := des.jiraTitle,
            jiraDescription := des.jiraDescription,
            jiraStatus := some stF, jiraLabels := des.jiraLabels,
            jiraExtraFields := xf,
            githubLabels := pr.labels },
        desired := des, lastSeenState := { draft := some pr.isDraft },
        happened := true,
        acts := ((Action.synchronizeLabels pr.repoFullName :: δc) ++ δj) ++ δl,
        makeIssue := true } =
      CommentRec.primary (buildPrimaryBody pr.view
        (des.botComments ∩ BOT_COMMENTS_FIRST) (some (mkJiraKey P keyNum))
        none none { draft := some pr.isDraft }) := by
    show CommentRec.primary (buildPrimaryBody pr.view
      (des.botComments ∩ BOT_COMMENTS_FIRST)
      (optOr (some (mkJiraKey P keyNum)) none)
      none none { draft := some pr.isDraft }) = _
    rw [optOr_truthy (some (mkJiraKey P keyNum)) none htr]
  have d7 : commentStep
      { pr := pr,
        current :=
          { jiraMentionedId := none,
            jiraId := some (mkJiraKey P keyNum),
            jiraTitle := des.jiraTitle,
            jiraDescription := des.jiraDescription,
            jiraStatus := some stF, jiraLabels := des.jiraLabels,
            jiraExtraFields := xf,
            githubLabels := pr.labels },
        desired := des, lastSeenState := { draft := some pr.isDraft },
        happened := true,
        acts := ((Action.synchronizeLabels pr.repoFullName :: δc) ++ δj) ++ δl,
        makeIssue := true } =
      { pr := pr,
        current :=
          { jiraMentionedId := none,
            jiraId := some (mkJiraKey P keyNum),
            jiraTitle := des.jiraTitle,
            jiraDescription := des.jiraDescription,
            jiraStatus := some stF, jiraLabels := des.jiraLabels,
            jiraExtraFields := xf,
            githubLabels := pr.labels },
        desired := des, lastSeenState := { draft := some pr.isDraft },
        happened := true,
        acts := (((Action.synchronizeLabels pr.repoFullName :: δc) ++ δj)
            ++ δl)
          ++ [Action.addCommentToPullRequest (CommentRec.primary
            (buildPrimaryBody pr.view (des.botComments ∩ BOT_COMMENTS_FIRST)
              (some (mkJiraKey P keyNum)) none none
              { draft := some pr.isDraft }))],
        makeIssue := true } := by
    rw [commentStep_run _ rfl (fun hh => hh.2 rfl)]
    rw [fixBotComment_add _ rfl (fun hcon => Option.noConfusion hcon) rfl]
    rw [hbuilt]
  have hsn : secondaryNeeded
      { pr := pr,
        current :=
          { jiraMentionedId := none,
            jiraId := some (mkJiraKey P keyNum),
            jiraTitle := des.jiraTitle,
            jiraDescription := des.jiraDescription,
            jiraStatus := some stF, jiraLabels := des.jiraLabels,
            jiraExtraFields := xf,
            githubLabels := pr.labels },
        desired := des, lastSeenState := { draft := some pr.isDraft },
        happened := true,
        acts := (((Action.synchronizeLabels pr.repoFullName :: δc) ++ δj)
            ++ δl)
          ++ [Action.addCommentToPullRequest (CommentRec.primary
            (buildPrimaryBody pr.view (des.botComments ∩ BOT_COMMENTS_FIRST)
              (some (mkJiraKey P keyNum)) none none
              { draft := some pr.isDraft }))],
        makeIssue := true } =
      des.botComments \ BOT_COMMENTS_FIRST := by
    show (des.botComments \ (∅ : Finset BotComment)) \ BOT_COMMENTS_FIRST = _
    rw [Finset.sdiff_empty]
  obtain ⟨δp, pcs, d8, hwp, hpc⟩ :
      ∃ δp pcs,
        addBotComments
          { pr := pr,
            current :=
              { jiraMentionedId := none,
                jiraId := some (mkJiraKey P keyNum),
                jiraTitle := des.jiraTitle,
                jiraDescription := des.jiraDescription,
                jiraStatus := some stF, jiraLabels := des.jiraLabels,
                jiraExtraFields := xf,
                githubLabels := pr.labels },
            desired := des, lastSeenState := { draft := some pr.isDraft },
            happened := true,
            acts := (((Action.synchronizeLabels pr.repoFullName :: δc) ++ δj)
                ++ δl)
              ++ [Action.addCommentToPullRequest (CommentRec.primary
                (buildPrimaryBody pr.view
                  (des.botComments ∩ BOT_COMMENTS_FIRST)
                  (some (mkJiraKey P keyNum)) none none
                  { draft := some pr.isDraft }))],
            makeIssue := true } =
          { pr := pr,
            current :=
              { jiraMentionedId := none,
                jiraId := some (mkJiraKey P keyNum),
                jiraTitle := des.jiraTitle,
                jiraDescription := des.jiraDescription,
                jiraStatus := some stF, jiraLabels := des.jiraLabels,
                jiraExtraFields := xf,
                githubLabels := pr.labels },
            desired := des, lastSeenState := { draft := some pr.isDraft },
            happened := true,
            acts := ((((Action.synchronizeLabels pr.repoFullName :: δc) ++ δj)
                ++ δl)
              ++ [Action.addCommentToPullRequest (CommentRec.primary
                (buildPrimaryBody pr.view
                  (des.botComments ∩ BOT_COMMENTS_FIRST)
                  (some (mkJiraKey P keyNum)) none none
                  { draft := some pr.isDraft }))]) ++ δp,
            makeIssue := true } ∧
        (∀ (lt : List JiraTicket) (pl : Finset String) (cs : List CommentRec),
          World.applyTrace ⟨lt, pl, cs⟩ δp = ⟨lt, pl, cs ++ pcs⟩) ∧
        (BotComment.championMergePing ∈ des.botComments →
          BotComment.championMergePing ∈
            List.foldl (fun s c => s ∪ CommentRec.kindsOf c) ∅ pcs) := by
    by_cases hping : BotComment.championMergePing ∈ des.botComments
    · refine ⟨[Action.addCommentToPullRequest
        (CommentRec.championPing pr.view pr.champions)],
        [CommentRec.championPing pr.view pr.champions], ?_, ?_, ?_⟩
      · rw [addBotComments_ping _ rfl (by
          rw [hsn, Finset.mem_sdiff]
          exact ⟨hping, by decide⟩)]
      · intro lt pl cs
        rfl
      · intro _
        show BotComment.championMergePing ∈
          (∅ ∪ ({BotComment.championMergePing} : Finset BotComment))
        rw [Finset.empty_union]
        exact Finset.mem_singleton_self _
    · refine ⟨[], [], ?_, ?_, ?_⟩
      · rw [addBotComments_noop _ rfl (by
          rw [hsn, Finset.mem_sdiff]
          rintro ⟨hm, _⟩
          exact hping hm), List.append_nil]
      · intro lt pl cs
        rw [List.append_nil]
        rfl
      · intro hm
        exact absurd hm hping
  have hfix : fixRun ls keyNum pr { githubLabels := pr.labels } des =
      { pr := pr,
        current :=
          { jiraMentionedId := none,
            jiraId := some (mkJiraKey P keyNum),
            jiraTitle := des.jiraTitle,
            jiraDescription := des.jiraDescription,
            jiraStatus := some stF, jiraLabels := des.jiraLabels,
            jiraExtraFields := xf,
            githubLabels := pr.labels },
        desired := des, lastSeenState := { draft := some pr.isDraft },
        happened := true,
        acts := ((((Action.synchronizeLabels pr.repoFullName :: δc) ++ δj)
            ++ δl)
          ++ [Action.addCommentToPullRequest (CommentRec.primary
            (buildPrimaryBody pr.view (des.botComments ∩ BOT_COMMENTS_FIRST)
              (some (mkJiraKey P keyNum)) none none
              { draft := some pr.isDraft }))]) ++ δp,
        makeIssue := true } := by
    unfold fixRun
    rw [d1, d2, d3, d4, d5, d6, d7, d8]
  have hfixe : (fixRun ls keyNum pr { githubLabels := pr.labels } des).err
      = none := by
    rw [hfix]
  have hfixa : (fixRun ls keyNum pr { githubLabels := pr.labels } des).acts
      = ((((Action.synchronizeLabels pr.repoFullName :: δc) ++ δj) ++ δl)
        ++ [Action.addCommentToPullRequest (CommentRec.primary
          (buildPrimaryBody pr.view (des.botComments ∩ BOT_COMMENTS_FIRST)
            (some (mkJiraKey P keyNum)) none none
            { draft := some pr.isDraft }))]) ++ δp := by
    rw [hfix]
  rw [hfixa]
  have hW : World.applyTrace ⟨wt, pr.labels, []⟩
      (((((Action.synchronizeLabels pr.repoFullName :: δc) ++ δj) ++ δl)
        ++ [Action.addCommentToPullRequest (CommentRec.primary
          (buildPrimaryBody pr.view (des.botComments ∩ BOT_COMMENTS_FIRST)
            (some (mkJiraKey P keyNum)) none none
            { draft := some pr.isDraft }))]) ++ δp)
      = ⟨wt ++ [freshTicket P keyNum des stF],
          githubLabelsTarget ls
            { pr := pr,
              current :=
                { jiraMentionedId := none,
                  jiraId := some (mkJiraKey P keyNum),
                  jiraTitle := des.jiraTitle,
                  jiraDescription := des.jiraDescription,
                  jiraStatus := some stF, jiraLabels := des.jiraLabels,
                  jiraExtraFields := xf,
                  githubLabels := pr.labels },
              desired := des, lastSeenState := { draft := some pr.isDraft },
              happened := true,
              acts := (Action.synchronizeLabels pr.repoFullName :: δc) ++ δj,
              makeIssue := true },
          CommentRec.primary (buildPrimaryBody pr.view
            (des.botComments ∩ BOT_COMMENTS_FIRST)
            (some (mkJiraKey P keyNum)) none none
            { draft := some pr.isDraft }) :: pcs⟩ := by
    rw [applyTrace_append, applyTrace_append, applyTrace_append,
      applyTrace_append]
    rw [show World.applyTrace ⟨wt, pr.labels, []⟩
        (Action.synchronizeLabels pr.repoFullName :: δc)
      = World.applyTrace ⟨wt, pr.labels, []⟩ δc from rfl]
    rw [hwc wt pr.labels [] hfr]
    rw [hwj wt pr.labels [] hfr]
    rw [hwl (wt ++ [freshTicket P keyNum des stF]) []]
    rw [show World.applyTrace
        ⟨wt ++ [freshTicket P keyNum des stF],
          githubLabelsTarget ls
            { pr := pr,
              current :=
                { jiraMentionedId := none,
                  jiraId := some (mkJiraKey P keyNum),
                  jiraTitle := des.jiraTitle,
                  jiraDescription := des.jiraDescription,
                  jiraStatus := some stF, jiraLabels := des.jiraLabels,
                  jiraExtraFields := xf,
                  githubLabels := pr.labels },
              desired := des, lastSeenState := { draft := some pr.isDraft },
              happened := true,
              acts := (Action.synchronizeLabels pr.repoFullName :: δc) ++ δj,
              makeIssue := true }, []⟩
        [Action.addCommentToPullRequest (CommentRec.primary
          (buildPrimaryBody pr.view (des.botComments ∩ BOT_COMMENTS_FIRST)
            (some (mkJiraKey P keyNum)) none none
            { draft := some pr.isDraft }))]
      = ⟨wt ++ [freshTicket P keyNum des stF],
          githubLabelsTarget ls
            { pr := pr,
              current :=
                { jiraMentionedId := none,
                  jiraId := some (mkJiraKey P keyNum),
                  jiraTitle := des.jiraTitle,
                  jiraDescription := des.jiraDescription,
                  jiraStatus := some stF, jiraLabels := des.jiraLabels,
                  jiraExtraFields := xf,
                  githubLabels := pr.labels },
              desired := des, lastSeenState := { draft := some pr.isDraft },
              happened := true,
              acts := (Action.synchronizeLabels pr.repoFullName :: δc) ++ δj,
              makeIssue := true },
          [CommentRec.primary (buildPrimaryBody pr.view
            (des.botComments ∩ BOT_COMMENTS_FIRST)
            (some (mkJiraKey P keyNum)) none none
            { draft := some pr.isDraft })]⟩ from rfl]
    rw [hwp (wt ++ [freshTicket P keyNum des stF]) _
      [CommentRec.primary (buildPrimaryBody pr.view
        (des.botComments ∩ BOT_COMMENTS_FIRST)
        (some (mkJiraKey P keyNum)) none none
        { draft := some pr.isDraft })]]
    rfl
  rw [hW]
  rw [show (⟨wt ++ [freshTicket P keyNum des stF],
      githubLabelsTarget ls
        { pr := pr,
          current :=
            { jiraMentionedId := none,
              jiraId := some (mkJiraKey P keyNum),
              jiraTitle := des.jiraTitle,
              jiraDescription := des.jiraDescription,
              jiraStatus := some stF, jiraLabels := des.jiraLabels,
              jiraExtraFields := xf,
              githubLabels := pr.labels },
          desired := des, lastSeenState := { draft := some pr.isDraft },
          happened := true,
          acts := (Action.synchronizeLabels pr.repoFullName :: δc) ++ δj,
          makeIssue := true },
      CommentRec.primary (buildPrimaryBody pr.view
        (des.botComments ∩ BOT_COMMENTS_FIRST)
        (some (mkJiraKey P keyNum)) none none
        { draft := some pr.isDraft }) :: pcs⟩ : World).prLabels
    = githubLabelsTarget ls
        { pr := pr,
          current :=
            { jiraMentionedId := none,
              jiraId := some (mkJiraKey P keyNum),
              jiraTitle := des.jiraTitle,
              jiraDescription := des.jiraDescription,
              jiraStatus := some stF, jiraLabels := des.jiraLabels,
              jiraExtraFields := xf,
              githubLabels := pr.labels },
          desired := des, lastSeenState := { draft := some pr.isDraft },
          happened := true,
          acts := (Action.synchronizeLabels pr.repoFullName :: δc) ++ δj,
          makeIssue := true } from rfl]
  have hcond : BotComment.welcome ∈ des.botComments ∩ BOT_COMMENTS_FIRST ∨
      BotComment.coreCommitter ∈ des.botComments ∩ BOT_COMMENTS_FIRST ∨
      BotComment.blended ∈ des.botComments ∩ BOT_COMMENTS_FIRST := by
    rcases hsK with h | h | h
    · exact Or.inl (Finset.mem_inter.mpr ⟨h, by decide⟩)
    · exact Or.inr (Or.inl (Finset.mem_inter.mpr ⟨h, by decide⟩))
    · exact Or.inr (Or.inr (Finset.mem_inter.mpr ⟨h, by decide⟩))
  have hkey2 : getJiraIssueKey
      ⟨wt ++ [freshTicket P keyNum des stF],
        githubLabelsTarget ls
          { pr := pr,
            current :=
              { jiraMentionedId := none,
                jiraId := some (mkJiraKey P keyNum),
                jiraTitle := des.jiraTitle,
                jiraDescription := des.jiraDescription,
                jiraStatus := some stF, jiraLabels := des.jiraLabels,
                jiraExtraFields := xf,
                githubLabels := pr.labels },
            desired := des, lastSeenState := { draft := some pr.isDraft },
            happened := true,
            acts := (Action.synchronizeLabels pr.repoFullName :: δc) ++ δj,
            makeIssue := true },
        CommentRec.primary (buildPrimaryBody pr.view
            (des.botComments ∩ BOT_COMMENTS_FIRST)
            (some (mkJiraKey P keyNum)) none none { draft := some pr.isDraft }) :: pcs⟩
      = some (mkJiraKey P keyNum) := by
    rw [getJiraIssueKey_head _
      (buildPrimaryBody pr.view
        (des.botComments ∩ BOT_COMMENTS_FIRST)
        (some (mkJiraKey P keyNum)) none none { draft := some pr.isDraft }) pcs rfl]
    show (if BotComment.welcome ∈ des.botComments ∩ BOT_COMMENTS_FIRST ∨
        BotComment.coreCommitter ∈ des.botComments ∩ BOT_COMMENTS_FIRST ∨
        BotComment.blended ∈ des.botComments ∩ BOT_COMMENTS_FIRST then
      some (mkJiraKey P keyNum) else none) = some (mkJiraKey P keyNum)
    rw [if_pos hcond]
  have hnone : wt.find? (fun t => t.key == mkJiraKey P keyNum
      || t.oldKeys.contains (mkJiraKey P keyNum)) = none := by
    rw [List.find?_eq_none]
    intro t ht hp
    by_cases hb : (t.key == mkJiraKey P keyNum) = true
    · exact hfr t ht (eq_of_beq hb)
    · rw [Bool.not_eq_true] at hb
      rw [hb, Bool.false_or] at hp
      exact hfr2 t ht (List.mem_of_elem_eq_true hp)
  have hfind : World.getJiraIssue
      ⟨wt ++ [freshTicket P keyNum des stF],
        githubLabelsTarget ls
          { pr := pr,
            current :=
              { jiraMentionedId := none,
                jiraId := some (mkJiraKey P keyNum),
                jiraTitle := des.jiraTitle,
                jiraDescription := des.jiraDescription,
                jiraStatus := some stF, jiraLabels := des.jiraLabels,
                jiraExtraFields := xf,
                githubLabels := pr.labels },
            desired := des, lastSeenState := { draft := some pr.isDraft },
            happened := true,
            acts := (Action.synchronizeLabels pr.repoFullName :: δc) ++ δj,
            makeIssue := true },
        CommentRec.primary (buildPrimaryBody pr.view
            (des.botComments ∩ BOT_COMMENTS_FIRST)
            (some (mkJiraKey P keyNum)) none none { draft := some pr.isDraft }) :: pcs⟩
      (mkJiraKey P keyNum) = some (freshTicket P keyNum des stF) := by
    show (wt ++ [freshTicket P keyNum des stF]).find?
      (fun t => t.key == mkJiraKey P keyNum
        || t.oldKeys.contains (mkJiraKey P keyNum)) = _
    rw [find?_append_none _ wt _ hnone]
    rw [List.find?_cons_of_pos _ (by
      show ((freshTicket P keyNum des stF).key == mkJiraKey P keyNum
        || (freshTicket P keyNum des stF).oldKeys.contains
          (mkJiraKey P keyNum)) = true
      rw [show (freshTicket P keyNum des stF).key = mkJiraKey P keyNum
        from rfl, beq_self_eq_true]
      rfl)]
  have hcb : currentBase
      { pr with
        labels :=
          githubLabelsTarget ls
            { pr := pr,
              current :=
                { jiraMentionedId := none,
                  jiraId := some (mkJiraKey P keyNum),
                  jiraTitle := des.jiraTitle,
                  jiraDescription := des.jiraDescription,
                  jiraStatus := some stF, jiraLabels := des.jiraLabels,
                  jiraExtraFields := xf,
                  githubLabels := pr.labels },
              desired := des, lastSeenState := { draft := some pr.isDraft },
              happened := true,
              acts := (Action.synchronizeLabels pr.repoFullName :: δc) ++ δj,
              makeIssue := true } }
      ⟨wt ++ [freshTicket P keyNum des stF],
        githubLabelsTarget ls
          { pr := pr,
            current :=
              { jiraMentionedId := none,
                jiraId := some (mkJiraKey P keyNum),
                jiraTitle := des.jiraTitle,
                jiraDescription := des.jiraDescription,
                jiraStatus := some stF, jiraLabels := des.jiraLabels,
                jiraExtraFields := xf,
                githubLabels := pr.labels },
            desired := des, lastSeenState := { draft := some pr.isDraft },
            happened := true,
            acts := (Action.synchronizeLabels pr.repoFullName :: δc) ++ δj,
            makeIssue := true },
        CommentRec.primary (buildPrimaryBody pr.view
            (des.botComments ∩ BOT_COMMENTS_FIRST)
            (some (mkJiraKey P keyNum)) none none { draft := some pr.isDraft }) :: pcs⟩
      = { botComments := existingBotCommentKinds
            ⟨wt ++ [freshTicket P keyNum des stF],
              githubLabelsTarget ls
                { pr := pr,
                  current :=
                    { jiraMentionedId := none,
                      jiraId := some (mkJiraKey P keyNum),
                      jiraTitle := des.jiraTitle,
                      jiraDescription := des.jiraDescription,
                      jiraStatus := some stF, jiraLabels := des.jiraLabels,
                      jiraExtraFields := xf,
                      githubLabels := pr.labels },
                  desired := des, lastSeenState := { draft := some pr.isDraft },
                  happened := true,
                  acts := (Action.synchronizeLabels pr.repoFullName :: δc) ++ δj,
                  makeIssue := true },
              CommentRec.primary (buildPrimaryBody pr.view
                  (des.botComments ∩ BOT_COMMENTS_FIRST)
                  (some (mkJiraKey P keyNum)) none none { draft := some pr.isDraft }) :: pcs⟩,
          botComment0Text := some (CommentRec.primary
            (buildPrimaryBody pr.view
              (des.botComments ∩ BOT_COMMENTS_FIRST)
              (some (mkJiraKey P keyNum)) none none { draft := some pr.isDraft })),
          lastSeenState := { draft := some pr.isDraft },
          jiraMentionedId := some (mkJiraKey P keyNum),
          jiraId := some (mkJiraKey P keyNum),
          githubLabels :=
            githubLabelsTarget ls
              { pr := pr,
                current :=
                  { jiraMentionedId := none,
                    jiraId := some (mkJiraKey P keyNum),
                    jiraTitle := des.jiraTitle,
                    jiraDescription := des.jiraDescription,
                    jiraStatus := some stF, jiraLabels := des.jiraLabels,
                    jiraExtraFields := xf,
                    githubLabels := pr.labels },
                desired := des, lastSeenState := { draft := some pr.isDraft },
                happened := true,
                acts := (Action.synchronizeLabels pr.repoFullName :: δc) ++ δj,
                makeIssue := true },
          authorActed := pr.isDraft && !pr.isDraft } := by
    unfold currentBase
    rw [hkey2]
    rfl
  have hc2 : currentSupportState
      { pr with
        labels :=
          githubLabelsTarget ls
            { pr := pr,
              current :=
                { jiraMentionedId := none,
                  jiraId := some (mkJiraKey P keyNum),
                  jiraTitle := des.jiraTitle,
                  jiraDescription := des.jiraDescription,
                  jiraStatus := some stF, jiraLabels := des.jiraLabels,
                  jiraExtraFields := xf,
                  githubLabels := pr.labels },
              desired := des, lastSeenState := { draft := some pr.isDraft },
              happened := true,
              acts := (Action.synchronizeLabels pr.repoFullName :: δc) ++ δj,
              makeIssue := true } }
      ⟨wt ++ [freshTicket P keyNum des stF],
        githubLabelsTarget ls
          { pr := pr,
            current :=
              { jiraMentionedId := none,
                jiraId := some (mkJiraKey P keyNum),
                jiraTitle := des.jiraTitle,
                jiraDescription := des.jiraDescription,
                jiraStatus := some stF, jiraLabels := des.jiraLabels,
                jiraExtraFields := xf,
                githubLabels := pr.labels },
            desired := des, lastSeenState := { draft := some pr.isDraft },
            happened := true,
            acts := (Action.synchronizeLabels pr.repoFullName :: δc) ++ δj,
            makeIssue := true },
        CommentRec.primary (buildPrimaryBody pr.view
            (des.botComments ∩ BOT_COMMENTS_FIRST)
            (some (mkJiraKey P keyNum)) none none { draft := some pr.isDraft }) :: pcs⟩
      = { botComments := existingBotCommentKinds
            ⟨wt ++ [freshTicket P keyNum des stF],
              githubLabelsTarget ls
                { pr := pr,
                  current :=
                    { jiraMentionedId := none,
                      jiraId := some (mkJiraKey P keyNum),
                      jiraTitle := des.jiraTitle,
                      jiraDescription := des.jiraDescription,
                      jiraStatus := some stF, jiraLabels := des.jiraLabels,
                      jiraExtraFields := xf,
                      githubLabels := pr.labels },
                  desired := des, lastSeenState := { draft := some pr.isDraft },
                  happened := true,
                  acts := (Action.synchronizeLabels pr.repoFullName :: δc) ++ δj,
                  makeIssue := true },
              CommentRec.primary (buildPrimaryBody pr.view
                  (des.botComments ∩ BOT_COMMENTS_FIRST)
                  (some (mkJiraKey P keyNum)) none none { draft := some pr.isDraft }) :: pcs⟩,
          botComment0Text := some (CommentRec.primary
            (buildPrimaryBody pr.view
              (des.botComments ∩ BOT_COMMENTS_FIRST)
              (some (mkJiraKey P keyNum)) none none { draft := some pr.isDraft })),
          lastSeenState := { draft := some pr.isDraft },
          jiraMentionedId := some (mkJiraKey P keyNum),
          jiraId := some (mkJiraKey P keyNum),
          jiraTitle := some (des.jiraTitle.getD ""),
          jiraDescription := some (des.jiraDescription.getD ""),
          jiraStatus := some stF,
          jiraLabels := des.jiraLabels,
          jiraEpicKey := des.jiraExtraFields.epicLink,
          jiraExtraFields := restrictSix des.jiraExtraFields,
          githubLabels :=
            githubLabelsTarget ls
              { pr := pr,
                current :=
                  { jiraMentionedId := none,
                    jiraId := some (mkJiraKey P keyNum),
                    jiraTitle := des.jiraTitle,
                    jiraDescription := des.jiraDescription,
                    jiraStatus := some stF, jiraLabels := des.jiraLabels,
                    jiraExtraFields := xf,
                    githubLabels := pr.labels },
                desired := des, lastSeenState := { draft := some pr.isDraft },
                happened := true,
                acts := (Action.synchronizeLabels pr.repoFullName :: δc) ++ δj,
                makeIssue := true },
          authorActed := pr.isDraft && !pr.isDraft } := by
    rw [currentSupportState_ticket _ _ (mkJiraKey P keyNum)
      (freshTicket P keyNum des stF) hkey2 htr hfind]
    rw [hcb]
    rfl
  rw [hc2]
  refine ⟨hfixe, ?_, ?_, ?_, ?_, ?_, ?_⟩
  · exact Or.inr ⟨mkJiraKey P keyNum, rfl, rfl, by rw [hPproj]; exact hProj⟩
  · intro h
    exact Option.noConfusion h
  · intro _
    refine ⟨draft_and_not_draft pr.isDraft, hSD, ?_, ?_, ?_, ?_⟩
    · show des.jiraTitle = some (des.jiraTitle.getD "")
      rw [hsT]
      rfl
    · show des.jiraDescription = some (des.jiraDescription.getD "")
      rw [hsD]
      rfl
    · show des.jiraLabels ∪ (des.jiraLabels \ ls.jiraCategory)
        = des.jiraLabels
      exact union_own_sdiff _ _
    · show des.jiraExtraFields
        = restrictToDesired (restrictSix des.jiraExtraFields)
          des.jiraExtraFields
      exact (restrict_six_self des.jiraExtraFields hsX).symm
  · show (if optTruthy (some stF) then
        insert (lowerStr ((some stF).getD "")) des.githubLabels
      else des.githubLabels) ∪
      ((((if optTruthy (some stF) then
          insert (lowerStr ((some stF).getD "")) des.githubLabels
        else des.githubLabels) ∪
        ((pr.labels \ ls.githubCategory) \ ls.githubStatus))
          \ ls.githubCategory) \ ls.githubStatus)
      = (if optTruthy (some stF) then
          insert (lowerStr ((some stF).getD "")) des.githubLabels
        else des.githubLabels) ∪
        ((pr.labels \ ls.githubCategory) \ ls.githubStatus)
    exact steady_label_target _ _ _ _
  · refine Or.inr ?_
    show some (CommentRec.primary (buildPrimaryBody pr.view
        (des.botComments ∩ BOT_COMMENTS_FIRST)
        (optOr (some (mkJiraKey P keyNum)) (some (mkJiraKey P keyNum)))
        none none { draft := some pr.isDraft }))
      = some (CommentRec.primary
        (buildPrimaryBody pr.view
          (des.botComments ∩ BOT_COMMENTS_FIRST)
          (some (mkJiraKey P keyNum)) none none { draft := some pr.isDraft }))
    rw [optOr_truthy (some (mkJiraKey P keyNum))
      (some (mkJiraKey P keyNum)) htr]
  · rw [Finset.eq_empty_iff_forall_not_mem]
    intro k hk
    rw [Finset.mem_sdiff, Finset.mem_sdiff] at hk
    obtain ⟨⟨hk1, hk2⟩, hk3⟩ := hk
    have hkp := not_first_eq_ping k hk3
    subst hkp
    apply hk2
    show BotComment.championMergePing ∈ existingBotCommentKinds
      ⟨wt ++ [freshTicket P keyNum des stF],
        githubLabelsTarget ls
          { pr := pr,
            current :=
              { jiraMentionedId := none,
                jiraId := some (mkJiraKey P keyNum),
                jiraTitle := des.jiraTitle,
                jiraDescription := des.jiraDescription,
                jiraStatus := some stF, jiraLabels := des.jiraLabels,
                jiraExtraFields := xf,
                githubLabels := pr.labels },
            desired := des, lastSeenState := { draft := some pr.isDraft },
            happened := true,
            acts := (Action.synchronizeLabels pr.repoFullName :: δc) ++ δj,
            makeIssue := true },
        CommentRec.primary (buildPrimaryBody pr.view
            (des.botComments ∩ BOT_COMMENTS_FIRST)
            (some (mkJiraKey P keyNum)) none none { draft := some pr.isDraft }) :: pcs⟩
    rw [existingBotCommentKinds_cons _
      (CommentRec.primary (buildPrimaryBody pr.view
        (des.botComments ∩ BOT_COMMENTS_FIRST)
        (some (mkJiraKey P keyNum)) none none { draft := some pr.isDraft })) pcs rfl]
    rw [Finset.mem_union]
    exact Or.inr (hpc hk1)

/-- C1 (amended): idempotence of the fixer on a fresh pull request.  For a
snapshot the policy handles outside the contractor branch, with no desired
epic (no blended epic configured), no bot comments yet, a world whose pull
request labels agree with the snapshot, and a fresh issue number, the first
run of `fix` finishes without error; a second run on the snapshot as the
first run left it (labels refreshed from the world, external state
untouched) emits only the bookkeeping label-synchronize call, performs zero
external mutation actions, and reports `happened = false`.  (The spec's
unconditional idempotence claim is refuted by
`fixer_second_run_edits`: when the desired Jira project changes, the
second run edits the bot comment again and reports `happened = true`.) -/
theorem fixer_idempotent (ls : LabelSets) (keyNum keyNum2 : Nat)
    (pr : PrSnapshot) (wt : List JiraTicket) (des : PrDesiredInfo) (env : Env)
    (H1 : desiredSupportState env pr = some des)
    (hc : pr.isContractor = false)
    (H2 : des.jiraEpic = none)
    (H5 : ∀ P, des.jiraProject = some P → ∀ t ∈ wt,
      t.key ≠ mkJiraKey P keyNum ∧ mkJiraKey P keyNum ∉ t.oldKeys) :
    ∀ w1 pr2,
      w1 = World.applyTrace ⟨wt, pr.labels, []⟩
        (fixRun ls keyNum pr
          (currentSupportState pr ⟨wt, pr.labels, []⟩) des).acts →
      pr2 = { pr with labels := w1.prLabels } →
      (fixRun ls keyNum pr
        (currentSupportState pr ⟨wt, pr.labels, []⟩) des).err = none ∧
      desiredSupportState env pr2 = some des ∧
      (fixRun ls keyNum2 pr2 (currentSupportState pr2 w1) des).acts =
        [Action.synchronizeLabels pr2.repoFullName] ∧
      (fixRun ls keyNum2 pr2 (currentSupportState pr2 w1) des).happened
        = false ∧
      (fixRun ls keyNum2 pr2 (currentSupportState pr2 w1) des).err = none := by
  intro w1 pr2 hw1 hpr2
  obtain ⟨he, ssA, ssB, ssT, ssG, ssH, ssI⟩ :=
    run1_fresh ls keyNum pr wt des env H1 hc H2 H5 w1 pr2
      (currentSupportState pr2 w1) hw1 hpr2 rfl
  refine ⟨he, ?_, ?_⟩
  · rw [hpr2]
    rw [desiredSupportState_labels_irrel]
    exact H1
  · exact fixRun_steady ls keyNum2 pr2 (currentSupportState pr2 w1) des
      ssA ssB H2 ssT ssG ssH ssI

/-- C1: witness for the amended idempotence theorem at a concrete fresh
pull request in an empty world. -/
theorem fixer_idempotent_witness :
    desiredSupportState testEnv testPr = some testDes ∧
    testPr.isContractor = false ∧
    (∀ w1 pr2,
      w1 = World.applyTrace ⟨[], testPr.labels, []⟩
        (fixRun testLs 9000 testPr
          (currentSupportState testPr ⟨[], testPr.labels, []⟩) testDes).acts →
      pr2 = { testPr with labels := w1.prLabels } →
      (fixRun testLs 9000 testPr
        (currentSupportState testPr ⟨[], testPr.labels, []⟩) testDes).err
        = none ∧
      desiredSupportState testEnv pr2 = some testDes ∧
      (fixRun testLs 9001 pr2 (currentSupportState pr2 w1) testDes).acts =
        [Action.synchronizeLabels pr2.repoFullName] ∧
      (fixRun testLs 9001 pr2 (currentSupportState pr2 w1) testDes).happened
        = false ∧
      (fixRun testLs 9001 pr2 (currentSupportState pr2 w1) testDes).err
        = none) :=
  ⟨by decide, by decide,
    fixer_idempotent testLs 9000 9001 testPr [] testDes testEnv (by decide)
      (by decide) (by decide)
      (fun P hP t ht => absurd ht (List.not_mem_nil t))⟩

/-- C1 (counterexample): the fixer is not unconditionally idempotent.  In
the blended scenario, the first run deletes the mentioned OSPR ticket,
creates a BLENDED one and rewrites the bot comment; the second run, on the
refreshed snapshot with the world exactly as the first run left it and no
external tampering, edits the bot comment again (mutating the code host a
second time) and reports `happened = true`, because the comment it wants no
longer carries the deleted-ticket note it wrote on the first run. -/
theorem fixer_second_run_edits :
    testRun3.err = none ∧ testRun4.err = none ∧
    testRun4.happened = true ∧
    testRun4.acts.any Action.isEdit = true := by decide

end PrTracking
